import Mathlib

/-!
# gRPC unary client over HTTP/2 (`src/hif/src/grpc/http2_client.c`)

A shallow embedding of the lightweight gRPC client: the five byte message
framing (`build_grpc_request`, `parse_grpc_response`), the nghttp2 callbacks
that mutate the per-call `grpc_connection`, and the orchestrating function
`hif_grpc_unary_call`.

Conventions of the embedding.

* A byte (`uint8_t`, `char`) is a `Fin 256`; a buffer is a `List Byte`; a C
  string is the list of its bytes before the terminating NUL.
* `size_t` is 64 bits wide and `uint32_t`/`unsigned int` 32 bits wide; sums
  that the C code takes in one of those types carry an explicit `%`.
* A pointer that may be `NULL` is an `Option`.
* Calls into libc, OpenSSL and nghttp2 are not part of the repository: what
  they return is an input of the model (an `Env`), and the callbacks nghttp2
  makes while `nghttp2_session_send`/`nghttp2_session_recv` run are a list.
-/

namespace Grpc

/-- One `uint8_t`. -/
abbrev Byte := Fin 256

/-- A C string: its bytes before the terminating NUL. -/
abbrev CStr := List Byte

/-- The bytes of an ASCII string literal of the C source. -/
def lit (s : String) : CStr := s.toList.map (fun c => Fin.ofNat c.toNat)

/-- Macro `#define GRPC_HEADER_SIZE 5`. -/
def GRPC_HEADER_SIZE : Nat := 5

/-- Number of values of a `uint32_t` (and of `unsigned int`). -/
def UINT32_MOD : Nat := 2 ^ 32

/-- Number of values of a `size_t`. -/
def SIZE_MOD : Nat := 2 ^ 64

/-! ## Message framing -/

/-- The expression
`((uint32_t)data[1] << 24) | ((uint32_t)data[2] << 16) | ((uint32_t)data[3] << 8) | (uint32_t)data[4]`
of `parse_grpc_response` (and, with `int` promotion followed by the conversion
to `uint32_t`, of `on_data_chunk_recv_callback`): the result is a `uint32_t`. -/
def read_be32 (data : List Byte) : Nat :=
  ((((data.getD 1 0).val <<< 24) % UINT32_MOD) |||
   (((data.getD 2 0).val <<< 16) % UINT32_MOD) |||
   (((data.getD 3 0).val <<< 8) % UINT32_MOD) |||
   (data.getD 4 0).val) % UINT32_MOD

/-- The four header bytes `buf[1..4]` written by `build_grpc_request`:
`(message_len >> 24) & 0xFF`, `(message_len >> 16) & 0xFF`,
`(message_len >> 8) & 0xFF`, `message_len & 0xFF`, each stored in a `uint8_t`. -/
def write_be32 (message_len : Nat) : List Byte :=
  [Fin.ofNat ((message_len >>> 24) &&& 0xFF),
   Fin.ofNat ((message_len >>> 16) &&& 0xFF),
   Fin.ofNat ((message_len >>> 8) &&& 0xFF),
   Fin.ofNat (message_len &&& 0xFF)]

/-- Embedding of `build_grpc_request(message, message_len, &out_len)`.

`message` is the payload pointer (`none` for `NULL`; otherwise it points to at
least `message_len` bytes), `block` is what `malloc(total)` returns: `none` for
`NULL`, otherwise the indeterminate initial contents of the fresh block, byte
by offset.  The result is `none` when the function returns `NULL`, otherwise
the buffer and `*out_len`.  `message_len` is the size of a real buffer, so
`GRPC_HEADER_SIZE + message_len` is taken without wrapping at `SIZE_MOD`. -/
def build_grpc_request (message : Option (List Byte)) (message_len : Nat)
    (block : Option (Nat → Byte)) : Option (List Byte × Nat) :=
  let total := GRPC_HEADER_SIZE + message_len
  match block with
  | none => none
  | some junk =>
    let header : List Byte := (0 : Byte) :: write_be32 message_len
    let body : List Byte :=
      match decide (message_len > 0), message with
      | true, some m => m.take message_len
      | _, _ => (List.range message_len).map (fun i => junk (GRPC_HEADER_SIZE + i))
    some (header ++ body, total)

/-- What a call of `parse_grpc_response` does. -/
inductive ParseResult where
  /-- Statement `return -1`. -/
  | fail : ParseResult
  /-- Statement `return 0` with `*message_out` and `*message_len_out`. -/
  | ok (message_out : List Byte) (message_len_out : Nat) : ParseResult
  /-- The `memcpy` reads `message_len` bytes from `data + 5` although fewer
  than `5 + message_len` bytes were passed: undefined behaviour. -/
  | overread : ParseResult
  deriving DecidableEq, Repr

/-- Embedding of `parse_grpc_response(data, len, &message_out, &message_len_out)` with
`len = data.length`; `mallocOk` says whether `malloc(message_len)` returns a
non-null pointer.  The bound `GRPC_HEADER_SIZE + message_len` is an
`int + uint32_t` sum, so C takes it in 32 bits before comparing it with the
`size_t` `len`. -/
def parse_grpc_response (data : List Byte) (mallocOk : Bool) : ParseResult :=
  let len := data.length
  if len < GRPC_HEADER_SIZE then .fail
  else
    let message_len := read_be32 data
    if len < (GRPC_HEADER_SIZE + message_len) % UINT32_MOD then .fail
    else if !mallocOk then .fail
    else if len < GRPC_HEADER_SIZE + message_len then .overread
    else .ok ((data.drop GRPC_HEADER_SIZE).take message_len) message_len

/-! ## C strings and libc -/

/-- Embedding of `isspace` in the C locale. -/
def isspace (c : Byte) : Bool := c.val = 32 || (9 ≤ c.val && c.val ≤ 13)

/-- Embedding of `isdigit`. -/
def isdigit (c : Byte) : Bool := 48 ≤ c.val && c.val ≤ 57

/-- The digit loop of `atoi`: accumulate decimal digits until the first byte
that is not a digit (the terminating NUL at the latest). -/
def atoi_digits : CStr → Nat → Nat
  | [], acc => acc
  | c :: cs, acc => if isdigit c then atoi_digits cs (acc * 10 + (c.val - 48)) else acc

/-- Conversion of an integer to a 32 bit two's complement `int`. -/
def to_int (v : Int) : Int := (v + 2 ^ 31) % 2 ^ 32 - 2 ^ 31

/-- Embedding of `atoi` of libc: optional white space, an optional sign, decimal digits; a
string without digits gives `0`.  C leaves a value outside the range of `int`
undefined; here it is reduced to 32 bits, as the common implementations do. -/
def atoi (s : CStr) : Int :=
  match s.dropWhile isspace with
  | [] => 0
  | c :: cs =>
    if c.val = 45 then to_int (-(atoi_digits cs 0 : Int))
    else if c.val = 43 then to_int (atoi_digits cs 0)
    else to_int (atoi_digits (c :: cs) 0)

/-- Embedding of `strrchr(s, c)` for a byte `c` other than NUL: the offset of the last
occurrence of `c` in `s`, `none` for `NULL`. -/
def strrchr : CStr → Byte → Option Nat
  | [], _ => none
  | x :: xs, c =>
    match strrchr xs c with
    | some i => some (i + 1)
    | none => if x = c then some 0 else none

/-- Embedding of `strndup(s, n)`: at most `n` bytes of `s`, stopping at the first NUL. -/
def strndup (s : List Byte) (n : Nat) : CStr := (s.take n).takeWhile (fun b => b != 0)

/-- Embedding of `snprintf(buf, size, "<pre>%s", s)`: the output is cut to `size - 1` bytes. -/
def snprintf_s (size : Nat) (pre : CStr) (s : CStr) : CStr := (pre ++ s).take (size - 1)

/-- Embedding of `snprintf(buf, size, "<pre>%d", d)`. -/
def snprintf_d (size : Nat) (pre : CStr) (d : Int) : CStr :=
  (pre ++ lit (toString d)).take (size - 1)

/-- Embedding of `dup_string(s)`: `NULL` for `NULL`, otherwise `strdup(s)`, which is `NULL`
when the allocation fails (`ok = false`). -/
def dup_string (s : Option CStr) (ok : Bool) : Option CStr :=
  match s with
  | none => none
  | some str => if ok then some str else none

/-! ## Per-call connection state -/

/-- The resources a call acquires and releases. -/
inductive Resource where
  /-- Result of `target_copy = strdup(target)`. -/
  | target_copy
  /-- The `getaddrinfo` result list. -/
  | addrinfo
  /-- A descriptor returned by `socket`. -/
  | socket
  /-- The `SSL_CTX`. -/
  | ssl_ctx
  /-- The `SSL` session object. -/
  | ssl
  /-- The `nghttp2_session_callbacks` object. -/
  | callbacks
  /-- The `nghttp2_session`. -/
  | session
  /-- The framed request returned by `build_grpc_request`. -/
  | grpc_request
  /-- Value of `conn.response_data`. -/
  | response_data
  /-- Value of `conn.error_message`. -/
  | error_message
  deriving DecidableEq, Repr

/-- One `nghttp2_nv`: the first `namelen` bytes of the name and the first
`valuelen` bytes of the value. -/
structure Header where
  name : CStr
  value : CStr
  deriving DecidableEq, Repr

/-- The initialiser `(nghttp2_nv){name, value, namelen, valuelen, flags}`. -/
def nv (name value : CStr) (namelen valuelen : Nat) : Header :=
  { name := name.take namelen, value := value.take valuelen }

/-- What the call does to the world outside `conn`, in program order. -/
inductive Action where
  /-- A resource is obtained (`strdup`, `malloc`, first `realloc`, `socket`,
  `SSL_CTX_new`, `SSL_new`, `nghttp2_session_client_new`, ...). -/
  | acquire (r : Resource)
  /-- A resource is given back (`free`, `close`, `SSL_free`, `SSL_CTX_free`,
  `nghttp2_session_del`, ...). -/
  | release (r : Resource)
  /-- Call of `getaddrinfo(host, port_str, ...)` with `port_str` printed from `port`. -/
  | getaddrinfo (host : CStr) (port : Int)
  /-- Call of `SSL_set_tlsext_host_name(conn->ssl, host)`. -/
  | set_sni (host : CStr)
  deriving DecidableEq, Repr

/-- The C struct `grpc_connection` (the unused `bio` member is left out)
together with `trace`, a ghost field that records the actions performed so
far.  Pointer members that are only tested against `NULL` are booleans. -/
structure grpc_connection where
  ssl_ctx : Bool
  ssl : Bool
  fd : Int
  use_tls : Int
  session : Bool
  request_data : List Byte
  request_len : Nat
  request_sent : Nat
  request_stream_id : Int
  /-- Here `none` is `NULL`; otherwise the bytes `response_data[0 .. response_len)`. -/
  response_data : Option (List Byte)
  response_len : Nat
  response_capacity : Nat
  response_expected_len : Nat
  response_complete : Int
  error_message : Option CStr
  grpc_status : Int
  trace : List Action
  deriving DecidableEq, Repr

/-- Append one action to the ghost trace. -/
def log (conn : grpc_connection) (a : Action) : grpc_connection :=
  { conn with trace := conn.trace ++ [a] }

/-- Embedding of `set_error(conn, msg)`; `ok` says whether `strdup(msg)` succeeds. -/
def set_error (conn : grpc_connection) (msg : CStr) (ok : Bool) : grpc_connection :=
  let conn : grpc_connection :=
    if conn.error_message.isSome then log conn (.release .error_message) else conn
  if ok then log { conn with error_message := some msg } (.acquire .error_message)
  else { conn with error_message := none }

/-! ## nghttp2 callbacks -/

def NGHTTP2_ERR_WOULDBLOCK : Int := -504
def NGHTTP2_ERR_EOF : Int := -507
def NGHTTP2_ERR_CALLBACK_FAILURE : Int := -902
def NGHTTP2_HEADERS : Nat := 1
def NGHTTP2_FLAG_END_STREAM : Nat := 1

/-- Embedding of `on_frame_recv_callback` for a frame with header `(stream_id, type, flags)`. -/
def on_frame_recv_callback (conn : grpc_connection) (stream_id : Int) (type flags : Nat) :
    Int × grpc_connection :=
  if stream_id = conn.request_stream_id then
    if type = NGHTTP2_HEADERS ∧ flags &&& NGHTTP2_FLAG_END_STREAM ≠ 0 then
      (0, { conn with response_complete := 1 })
    else (0, conn)
  else (0, conn)

/-- Embedding of `on_data_chunk_recv_callback` for the chunk `data` (`len = data.length`);
`reallocOk` says whether `realloc` succeeds should the buffer have to grow. -/
def on_data_chunk_recv_callback (conn : grpc_connection) (stream_id : Int) (data : List Byte)
    (reallocOk : Bool) : Int × grpc_connection :=
  if stream_id ≠ conn.request_stream_id then (0, conn)
  else
    let len := data.length
    let needed := (conn.response_len + len) % SIZE_MOD
    let grown : Option grpc_connection :=
      if needed > conn.response_capacity then
        let new_cap := (conn.response_capacity * 2) % SIZE_MOD
        let new_cap := if new_cap < needed then needed else new_cap
        let new_cap := if new_cap < 4096 then 4096 else new_cap
        if reallocOk then
          some { conn with
            response_data := some (conn.response_data.getD [])
            response_capacity := new_cap
            trace := conn.trace ++
              (if conn.response_data.isSome then [] else [Action.acquire .response_data]) }
        else none
      else some conn
    match grown with
    | none => (NGHTTP2_ERR_CALLBACK_FAILURE, conn)
    | some conn =>
      let conn : grpc_connection := { conn with
        response_data := conn.response_data.map (fun buf => buf.take conn.response_len ++ data)
        response_len := (conn.response_len + len) % SIZE_MOD }
      let conn : grpc_connection :=
        if conn.response_expected_len = 0 ∧ conn.response_len ≥ GRPC_HEADER_SIZE then
          let msg_len := read_be32 (conn.response_data.getD [])
          { conn with response_expected_len := (GRPC_HEADER_SIZE + msg_len) % UINT32_MOD }
        else conn
      let conn : grpc_connection :=
        if conn.response_expected_len > 0 ∧ conn.response_len ≥ conn.response_expected_len then
          { conn with response_complete := 1 }
        else conn
      (0, conn)

/-- Embedding of `on_stream_close_callback`. -/
def on_stream_close_callback (conn : grpc_connection) (stream_id : Int) :
    Int × grpc_connection :=
  if stream_id = conn.request_stream_id then (0, { conn with response_complete := 1 })
  else (0, conn)

/-- Embedding of `on_header_callback` for the header `name: value` of a frame on stream
`stream_id` (`namelen = name.length`, `valuelen = value.length`, and nghttp2
NUL-terminates `value`); `strndupOk` says whether `strndup` succeeds. -/
def on_header_callback (conn : grpc_connection) (stream_id : Int) (name value : List Byte)
    (strndupOk : Bool) : Int × grpc_connection :=
  if stream_id ≠ conn.request_stream_id then (0, conn)
  else if name.length = 11 ∧ name = lit "grpc-status" then
    (0, { conn with grpc_status := atoi value, response_complete := 1 })
  else if name.length = 12 ∧ name = lit "grpc-message" then
    let conn : grpc_connection :=
      if conn.error_message.isSome then log conn (.release .error_message) else conn
    if strndupOk then
      (0, log { conn with error_message := some (strndup value value.length) }
        (.acquire .error_message))
    else (0, { conn with error_message := none })
  else (0, conn)

/-- What `data_source_read_callback` hands back to nghttp2. -/
structure DataRead where
  /-- The return value `to_send`. -/
  ret : Nat
  /-- The bytes copied into `buf`. -/
  buf : List Byte
  /-- Whether `NGHTTP2_DATA_FLAG_EOF` was or-ed into `*data_flags`. -/
  eof : Bool
  conn : grpc_connection
  deriving DecidableEq, Repr

/-- Embedding of `data_source_read_callback` with a buffer of `length` bytes.  The
subtraction `request_len - request_sent` is a `size_t` subtraction. -/
def data_source_read_callback (conn : grpc_connection) (length : Nat) : DataRead :=
  let remaining := (conn.request_len + SIZE_MOD - conn.request_sent) % SIZE_MOD
  let to_send := if remaining < length then remaining else length
  let chunk := (conn.request_data.drop conn.request_sent).take to_send
  let conn : grpc_connection :=
    { conn with request_sent := (conn.request_sent + to_send) % SIZE_MOD }
  { ret := to_send, buf := chunk, eof := decide (conn.request_sent ≥ conn.request_len),
    conn := conn }

/-- One callback made by nghttp2, with the arguments the client code reads. -/
inductive Callback where
  | data_source_read (length : Nat)
  | on_frame_recv (stream_id : Int) (type flags : Nat)
  | on_data_chunk_recv (stream_id : Int) (data : List Byte) (reallocOk : Bool)
  | on_stream_close (stream_id : Int)
  | on_header (stream_id : Int) (name value : List Byte) (strndupOk : Bool)
  deriving DecidableEq, Repr

/-- Run one callback: its return code (`0` for the data provider, whose
return value is a byte count) and the connection afterwards. -/
def run_callback (conn : grpc_connection) : Callback → Int × grpc_connection
  | .data_source_read length => (0, (data_source_read_callback conn length).conn)
  | .on_frame_recv sid type flags => on_frame_recv_callback conn sid type flags
  | .on_data_chunk_recv sid data ok => on_data_chunk_recv_callback conn sid data ok
  | .on_stream_close sid => on_stream_close_callback conn sid
  | .on_header sid name value ok => on_header_callback conn sid name value ok

/-- Run callbacks in order; nghttp2 stops at the first one that fails. -/
def run_callbacks (conn : grpc_connection) : List Callback → Int × grpc_connection
  | [] => (0, conn)
  | cb :: rest =>
    let r := run_callback conn cb
    if r.1 ≠ 0 then r else run_callbacks r.2 rest

/-- Embedding of `nghttp2_session_send` / `nghttp2_session_recv`: nghttp2 makes the given
callbacks and returns `ret`, or `NGHTTP2_ERR_CALLBACK_FAILURE` as soon as a
callback fails. -/
def nghttp2_session_run (conn : grpc_connection) (callbacks : List Callback) (ret : Int) :
    Int × grpc_connection :=
  let r := run_callbacks conn callbacks
  (if r.1 ≠ 0 then NGHTTP2_ERR_CALLBACK_FAILURE else ret, r.2)

/-! ## The environment of a call -/

/-- A `struct timespec`. -/
structure Timespec where
  tv_sec : Int
  tv_nsec : Int
  deriving DecidableEq, Repr

/-- What `getaddrinfo`, `socket` and `connect` do in `connect_to_server`. -/
structure ConnectEnv where
  /-- Return value of `getaddrinfo`. -/
  getaddrinfo_ret : Int
  /-- Value of `gai_strerror(ret)`. -/
  gai_strerror : CStr
  /-- For each entry of the address list, in order: the return value of
  `socket` and whether `connect` on that socket returns `0`. -/
  addrs : List (Int × Bool)
  deriving DecidableEq, Repr

/-- What OpenSSL does in `setup_tls`. -/
structure TlsEnv where
  /-- Whether `SSL_CTX_new` returns a non-null context. -/
  ssl_ctx_new_ok : Bool
  /-- Whether `SSL_new` returns a non-null session. -/
  ssl_new_ok : Bool
  /-- Return value of `SSL_connect`. -/
  ssl_connect_ret : Int
  /-- The text `ERR_error_string_n` writes into `buf[256]`. -/
  err_string : CStr
  /-- The protocol reported by `SSL_get0_alpn_selected` (`alpn_len` bytes). -/
  alpn_selected : List Byte
  deriving DecidableEq, Repr

/-- What nghttp2 returns in `setup_http2`. -/
structure Http2Env where
  session_client_new_ret : Int
  submit_settings_ret : Int
  deriving DecidableEq, Repr

/-- One pass through the body of the send/receive loop, as far as the world
outside decides it. -/
structure Iteration where
  /-- Callbacks made during `nghttp2_session_send`. -/
  send_callbacks : List Callback
  /-- Its return value when no callback fails. -/
  send_ret : Int
  /-- Callbacks made during `nghttp2_session_recv`. -/
  recv_callbacks : List Callback
  /-- Its return value when no callback fails. -/
  recv_ret : Int
  /-- The time `clock_gettime(CLOCK_MONOTONIC, &now)` reports. -/
  now : Timespec
  deriving DecidableEq, Repr

/-- Everything the world outside the repository contributes to one call. -/
structure Env where
  /-- Whether `strdup(target)` succeeds. -/
  strdup_target_ok : Bool
  connect : ConnectEnv
  /-- The `strdup` inside `set_error` succeeds. -/
  set_error_ok : Bool
  tls : TlsEnv
  http2 : Http2Env
  /-- The `malloc` of `build_grpc_request`. -/
  build_block : Option (Nat → Byte)
  /-- Return value of `nghttp2_submit_request`. -/
  submit_request_ret : Int
  /-- The time read before the loop. -/
  start_time : Timespec
  /-- The passes through the loop body, in order. -/
  iterations : List Iteration
  /-- The function `nghttp2_strerror`. -/
  nghttp2_strerror : Int → CStr
  /-- The `malloc` of `parse_grpc_response` succeeds. -/
  parse_malloc_ok : Bool
  /-- The `strdup` of the `dup_string` that fills `*error_out` succeeds. -/
  dup_string_ok : Bool

/-- The arguments of `hif_grpc_unary_call`.  The three output pointers are
represented by whether they are non-null. -/
structure Args where
  target : CStr
  host : CStr
  method : CStr
  request : Option (List Byte)
  request_len : Nat
  auth_token : Option CStr
  use_tls : Int
  response_out : Bool
  response_len_out : Bool
  error_out : Bool
  deriving DecidableEq, Repr

/-- The values left in `*response_out`, `*response_len_out`, `*error_out`. -/
structure Outputs where
  response_out : Option (List Byte)
  response_len_out : Nat
  error_out : Option CStr
  deriving DecidableEq, Repr

/-- A finished call. -/
structure CallResult where
  /-- The return value. -/
  ret : Int
  /-- Is `none` when nothing was written through the output pointers. -/
  outputs : Option Outputs
  /-- The header list passed to `nghttp2_submit_request`, when the call got
  that far. -/
  submitted : Option (List Header)
  /-- The actions performed, in order. -/
  trace : List Action
  deriving DecidableEq, Repr

/-- What a call does. -/
inductive Outcome where
  /-- The function returns. -/
  | returned (r : CallResult)
  /-- The call runs into undefined behaviour (`strrchr(NULL, ...)` after a
  failed `strdup(target)`, or the over-read of `parse_grpc_response`). -/
  | undefined
  /-- The listed loop iterations are used up and the loop has not ended. -/
  | pending
  deriving DecidableEq, Repr

/-! ## Connection set-up -/

/-- The `for (rp = res; ...)` loop of `connect_to_server`. -/
def connect_loop (conn : grpc_connection) : List (Int × Bool) → grpc_connection
  | [] => conn
  | (fd, connected) :: rest =>
    let conn : grpc_connection := { conn with fd := fd }
    if fd < 0 then connect_loop conn rest
    else
      let conn := log conn (.acquire .socket)
      if connected then conn
      else connect_loop { log conn (.release .socket) with fd := -1 } rest

/-- Embedding of `connect_to_server(conn, host, port)`. -/
def connect_to_server (conn : grpc_connection) (host : CStr) (port : Int) (e : ConnectEnv)
    (set_error_ok : Bool) : Int × grpc_connection :=
  let conn := log conn (.getaddrinfo host port)
  if e.getaddrinfo_ret ≠ 0 then (-1, set_error conn e.gai_strerror set_error_ok)
  else
    let conn := log conn (.acquire .addrinfo)
    let conn := connect_loop conn e.addrs
    let conn := log conn (.release .addrinfo)
    if conn.fd < 0 then (-1, set_error conn (lit "Failed to connect to server") set_error_ok)
    else (0, conn)

/-- Embedding of `setup_tls(conn, host)`. -/
def setup_tls (conn : grpc_connection) (host : CStr) (e : TlsEnv) (set_error_ok : Bool) :
    Int × grpc_connection :=
  if !e.ssl_ctx_new_ok then
    (-1, set_error conn (lit "Failed to create SSL context") set_error_ok)
  else
    let conn : grpc_connection := log { conn with ssl_ctx := true } (.acquire .ssl_ctx)
    if !e.ssl_new_ok then
      (-1, set_error conn (lit "Failed to create SSL object") set_error_ok)
    else
      let conn : grpc_connection := log { conn with ssl := true } (.acquire .ssl)
      let conn := log conn (.set_sni host)
      if e.ssl_connect_ret ≠ 1 then (-1, set_error conn (e.err_string.take 255) set_error_ok)
      else if e.alpn_selected.length ≠ 2 ∨ e.alpn_selected.take 2 ≠ lit "h2" then
        (-1, set_error conn (lit "Server did not negotiate HTTP/2") set_error_ok)
      else (0, conn)

/-- Embedding of `setup_http2(conn)`. -/
def setup_http2 (conn : grpc_connection) (e : Http2Env) (set_error_ok : Bool) :
    Int × grpc_connection :=
  let conn := log conn (.acquire .callbacks)
  let conn : grpc_connection :=
    if e.session_client_new_ret = 0 then log { conn with session := true } (.acquire .session)
    else conn
  let conn := log conn (.release .callbacks)
  if e.session_client_new_ret ≠ 0 then
    (-1, set_error conn (lit "Failed to create HTTP/2 session") set_error_ok)
  else if e.submit_settings_ret ≠ 0 then
    (-1, set_error conn (lit "Failed to submit SETTINGS") set_error_ok)
  else (0, conn)

/-- The target parsing of `hif_grpc_unary_call`: the host name
passed on and the port. -/
def parse_target (target : CStr) (use_tls : Int) : CStr × Int :=
  let port : Int := if use_tls ≠ 0 then 443 else 80
  match strrchr target 58 with
  | some colon => (target.take colon, atoi (target.drop (colon + 1)))
  | none => (target, port)

/-- The `headers` array of `hif_grpc_unary_call` with its `header_count`
entries, built from `authority[256]` and `auth_header[1024]`. -/
def request_headers (host method : CStr) (auth_token : Option CStr) (use_tls : Int) :
    List Header :=
  let authority := snprintf_s 256 [] host
  let auth_header : CStr :=
    match auth_token with
    | some t => if t ≠ [] then snprintf_s 1024 (lit "Bearer ") t else []
    | none => []
  [ nv (lit ":method") (lit "POST") 7 4,
    nv (lit ":scheme") (if use_tls ≠ 0 then lit "https" else lit "http") 7
      (if use_tls ≠ 0 then 5 else 4),
    nv (lit ":path") method 5 method.length,
    nv (lit ":authority") authority 10 authority.length,
    nv (lit "content-type") (lit "application/grpc") 12 16,
    nv (lit "te") (lit "trailers") 2 8 ] ++
  (match auth_token with
   | some t =>
     if t ≠ [] then [nv (lit "authorization") auth_header 13 auth_header.length] else []
   | none => [])

/-! ## The send/receive loop -/

/-- Value of `elapsed_ms` as the loop computes it; `/` of C truncates towards zero. -/
def elapsed_ms (start_time now : Timespec) : Int :=
  (now.tv_sec - start_time.tv_sec) * 1000 +
    Int.tdiv (now.tv_nsec - start_time.tv_nsec) 1000000

/-- How the loop is left. -/
inductive LoopExit where
  /-- The loop condition became false or `break` was taken. -/
  | done (conn : grpc_connection)
  /-- An error branch was taken: `msg` goes to `dup_string`, then
  `free(grpc_request); goto cleanup`. -/
  | failed (conn : grpc_connection) (msg : CStr)
  /-- The listed iterations are used up and the loop is still running. -/
  | pending (conn : grpc_connection)
  deriving DecidableEq, Repr

/-- The `while (!conn.response_complete)` loop of `hif_grpc_unary_call`. -/
def send_recv_loop (strerror : Int → CStr) (start_time : Timespec) :
    grpc_connection → List Iteration → LoopExit
  | conn, [] => if conn.response_complete ≠ 0 then .done conn else .pending conn
  | conn, it :: rest =>
    if conn.response_complete ≠ 0 then .done conn
    else
      let s := nghttp2_session_run conn it.send_callbacks it.send_ret
      if s.1 ≠ 0 then .failed s.2 (strerror s.1)
      else
        let r := nghttp2_session_run s.2 it.recv_callbacks it.recv_ret
        if r.1 ≠ 0 ∧ r.1 ≠ NGHTTP2_ERR_EOF then .failed r.2 (strerror r.1)
        else if r.1 = NGHTTP2_ERR_EOF then .done r.2
        else
          let elapsed := elapsed_ms start_time it.now
          if elapsed > 3000 ∧ r.2.response_len > 0 then
            send_recv_loop strerror start_time { r.2 with response_complete := 1 } rest
          else if elapsed > 10000 then .failed r.2 (lit "gRPC request timed out")
          else send_recv_loop strerror start_time r.2 rest

/-! ## The call -/

/-- The `cleanup:` label of `hif_grpc_unary_call` up to the `return`. -/
def cleanup (conn : grpc_connection) (out : Outputs) (submitted : Option (List Header)) :
    CallResult :=
  { ret := if out.error_out.isSome then 1 else 0
    outputs := some out
    submitted := submitted
    trace := conn.trace ++
      (if conn.response_data.isSome then [Action.release .response_data] else []) ++
      (if conn.error_message.isSome then [Action.release .error_message] else []) ++
      (if conn.session then [Action.release .session] else []) ++
      (if conn.ssl then [Action.release .ssl] else []) ++
      (if conn.ssl_ctx then [Action.release .ssl_ctx] else []) ++
      (if conn.fd ≥ 0 then [Action.release .socket] else []) }

/-- The two early `return 1` of `hif_grpc_unary_call` (connect failure, and
TLS failure when `close_fd`), which do not pass through `cleanup:`. -/
def early_return (conn : grpc_connection) (close_fd : Bool) (dup_ok : Bool) : CallResult :=
  { ret := 1
    outputs := some { response_out := none, response_len_out := 0,
                      error_out := dup_string conn.error_message dup_ok }
    submitted := none
    trace := conn.trace ++
      (if close_fd then [Action.release .socket] else []) ++
      [Action.release .target_copy] ++
      (if conn.error_message.isSome then [Action.release .error_message] else []) }

/-- The initial `grpc_connection conn = {0}` with `use_tls`, `fd = -1` and
`grpc_status = -1` set. -/
def conn_init (use_tls : Int) : grpc_connection :=
  { ssl_ctx := false, ssl := false, fd := -1, use_tls := use_tls, session := false,
    request_data := [], request_len := 0, request_sent := 0, request_stream_id := 0,
    response_data := none, response_len := 0, response_capacity := 0,
    response_expected_len := 0, response_complete := 0, error_message := none,
    grpc_status := -1, trace := [] }

/-- The state with which the send/receive loop is entered. -/
structure LoopEntry where
  conn : grpc_connection
  headers : List Header
  deriving DecidableEq, Repr

/-- Embedding of `hif_grpc_unary_call` from its first line to the submission of the
request: either the call is over (`inl`), or the loop is entered (`inr`). -/
def call_prologue (a : Args) (env : Env) : Outcome ⊕ LoopEntry :=
  if !a.response_out || !a.response_len_out || !a.error_out then
    .inl (.returned { ret := 1, outputs := none, submitted := none, trace := [] })
  else
    let out0 : Outputs := { response_out := none, response_len_out := 0, error_out := none }
    let conn := conn_init a.use_tls
    if !env.strdup_target_ok then .inl .undefined
    else
      let conn := log conn (.acquire .target_copy)
      let tp := parse_target a.target a.use_tls
      let c := connect_to_server conn tp.1 tp.2 env.connect env.set_error_ok
      if c.1 ≠ 0 then .inl (.returned (early_return c.2 false env.dup_string_ok))
      else
        let t : Int × grpc_connection :=
          if a.use_tls ≠ 0 then setup_tls c.2 tp.1 env.tls env.set_error_ok else (0, c.2)
        if t.1 ≠ 0 then .inl (.returned (early_return t.2 true env.dup_string_ok))
        else
          let conn := log t.2 (.release .target_copy)
          let h := setup_http2 conn env.http2 env.set_error_ok
          if h.1 ≠ 0 then
            .inl (.returned (cleanup h.2
              { out0 with error_out := dup_string h.2.error_message env.dup_string_ok } none))
          else
            match build_grpc_request a.request a.request_len env.build_block with
            | none =>
              .inl (.returned (cleanup h.2
                { out0 with
                  error_out :=
                    dup_string (some (lit "Failed to build gRPC request")) env.dup_string_ok }
                none))
            | some (grpc_request, grpc_request_len) =>
              let conn : grpc_connection :=
                { log h.2 (.acquire .grpc_request) with
                  request_data := grpc_request
                  request_len := grpc_request_len
                  request_sent := 0 }
              let headers := request_headers a.host a.method a.auth_token a.use_tls
              let conn : grpc_connection :=
                { conn with request_stream_id := env.submit_request_ret }
              if conn.request_stream_id < 0 then
                .inl (.returned (cleanup (log conn (.release .grpc_request))
                  { out0 with
                    error_out :=
                      dup_string (some (lit "Failed to submit HTTP/2 request"))
                        env.dup_string_ok }
                  (some headers)))
              else .inr { conn := conn, headers := headers }

/-- Embedding of `hif_grpc_unary_call` from the end of the loop to the `return`. -/
def call_epilogue (env : Env) (headers : List Header) : LoopExit → Outcome
  | .pending _ => .pending
  | .failed conn msg =>
    .returned (cleanup (log conn (.release .grpc_request))
      { response_out := none, response_len_out := 0,
        error_out := dup_string (some msg) env.dup_string_ok } (some headers))
  | .done conn =>
    let conn := log conn (.release .grpc_request)
    if conn.grpc_status ≠ 0 ∧ conn.grpc_status ≠ -1 then
      let msg : CStr :=
        match conn.error_message with
        | some m => m
        | none => snprintf_d 64 (lit "gRPC error: status ") conn.grpc_status
      .returned (cleanup conn
        { response_out := none, response_len_out := 0,
          error_out := dup_string (some msg) env.dup_string_ok } (some headers))
    else if conn.response_len > 0 then
      match parse_grpc_response ((conn.response_data.getD []).take conn.response_len)
          env.parse_malloc_ok with
      | .ok message message_len =>
        .returned (cleanup conn
          { response_out := some message, response_len_out := message_len, error_out := none }
          (some headers))
      | .fail =>
        .returned (cleanup conn
          { response_out := none, response_len_out := 0,
            error_out :=
              dup_string (some (lit "Failed to parse gRPC response")) env.dup_string_ok }
          (some headers))
      | .overread => .undefined
    else
      .returned (cleanup conn
        { response_out := none, response_len_out := 0, error_out := none } (some headers))

/-- Embedding of `hif_grpc_unary_call(target, host, method, request, request_len,
auth_token, use_tls, response_out, response_len_out, error_out)`. -/
def hif_grpc_unary_call (a : Args) (env : Env) : Outcome :=
  match call_prologue a env with
  | .inl o => o
  | .inr entry =>
    call_epilogue env entry.headers
      (send_recv_loop env.nghttp2_strerror env.start_time entry.conn env.iterations)

/-! ## The gRPC core based implementation (`src/hif/src/grpc/client.c`) -/

/-- What the gRPC core library does during the `hif_grpc_unary_call` of
`client.c`. -/
structure ClientEnv where
  /-- Whether `grpc_ssl_credentials_create` / `grpc_insecure_credentials_create`
  returns non-null. -/
  creds_ok : Bool
  /-- Whether `grpc_channel_create` returns non-null. -/
  channel_ok : Bool
  /-- Whether `grpc_completion_queue_create_for_next` returns non-null. -/
  cq_ok : Bool
  /-- Whether `grpc_channel_create_call` returns non-null. -/
  call_ok : Bool
  /-- Whether `gpr_malloc(auth_len + 8)` returns non-null. -/
  auth_malloc_ok : Bool
  /-- Return value of `grpc_call_start_batch` (`GRPC_CALL_OK` is `0`). -/
  call_error : Int
  /-- Value of `event.type` of the completion event. -/
  event_type : Int
  /-- Value of `event.success`. -/
  event_success : Int
  /-- Value of `status` after the batch (`GRPC_STATUS_OK` is `0`). -/
  status : Int
  /-- Value of `grpc_slice_to_c_string(status_details)`. -/
  status_details : Option CStr
  /-- Value of `response_payload` after the batch: `none` for `NULL`, otherwise the
  bytes `grpc_byte_buffer_reader_readall` yields. -/
  response_payload : Option (List Byte)
  /-- Whether `grpc_byte_buffer_reader_init` returns non-zero. -/
  reader_init_ok : Bool
  /-- Whether `gpr_malloc(len)` for the response copy returns non-null. -/
  buffer_malloc_ok : Bool
  /-- The `gpr_malloc` of the `dup_cstring` that fills `*error_out` returns
  non-null. -/
  dup_cstring_ok : Bool
  deriving DecidableEq, Repr

/-- A finished call of the `client.c` implementation. -/
structure ClientResult where
  /-- The return value. -/
  ret : Int
  /-- Is `none` when nothing was written through the output pointers. -/
  outputs : Option Outputs
  /-- The host given to `grpc_channel_create_call`, when the call got that far. -/
  call_host : Option CStr
  /-- The `meta_count` entries of `meta` at `grpc_call_start_batch`. -/
  metadata : List Header
  deriving DecidableEq, Repr

def GRPC_CALL_OK : Int := 0
def GRPC_OP_COMPLETE : Int := 2
def GRPC_STATUS_OK : Int := 0

/-- Embedding of `dup_cstring(value)` of `client.c`; `ok` says whether `gpr_malloc` returns
non-null. -/
def dup_cstring (value : Option CStr) (ok : Bool) : Option CStr :=
  match value with
  | none => none
  | some v => if ok then some v else none

/-- Embedding of `hif_grpc_unary_call` of `client.c`. -/
def Client.hif_grpc_unary_call (a : Args) (e : ClientEnv) : ClientResult :=
  if !a.response_out || !a.response_len_out || !a.error_out then
    { ret := 1, outputs := none, call_host := none, metadata := [] }
  else
    let out0 : Outputs := { response_out := none, response_len_out := 0, error_out := none }
    let fail (msg : String) (host : Option CStr) : ClientResult :=
      { ret := 1
        outputs := some { out0 with error_out := dup_cstring (some (lit msg)) e.dup_cstring_ok }
        call_host := host, metadata := [] }
    if !e.creds_ok then
      fail (if a.use_tls ≠ 0 then "Failed to create TLS credentials."
            else "Failed to create insecure credentials.") none
    else if !e.channel_ok then fail "Failed to create gRPC channel." none
    else if !e.cq_ok then fail "Failed to create completion queue." none
    else if !e.call_ok then fail "Failed to create gRPC call." (some a.host)
    else
      let metadata : List Header :=
        match a.auth_token with
        | some t =>
          if t ≠ [] ∧ e.auth_malloc_ok then
            [{ name := lit "authorization",
               value := snprintf_s (t.length + 8) (lit "Bearer ") t }]
          else []
        | none => []
      let out : Outputs :=
        if e.call_error ≠ GRPC_CALL_OK then
          { out0 with
            error_out := dup_cstring (some (lit "Failed to start gRPC call.")) e.dup_cstring_ok }
        else if e.event_type ≠ GRPC_OP_COMPLETE ∨ e.event_success = 0 then
          { out0 with
            error_out := dup_cstring (some (lit "gRPC call did not complete.")) e.dup_cstring_ok }
        else if e.status ≠ GRPC_STATUS_OK then
          match e.status_details with
          | some details =>
            if details ≠ [] then
              { out0 with error_out := dup_cstring (some details) e.dup_cstring_ok }
            else
              { out0 with
                error_out := dup_cstring (some (lit "gRPC call failed.")) e.dup_cstring_ok }
          | none =>
            { out0 with
              error_out := dup_cstring (some (lit "gRPC call failed.")) e.dup_cstring_ok }
        else
          match e.response_payload with
          | some bytes =>
            if e.reader_init_ok then
              if !e.buffer_malloc_ok then
                { out0 with
                  error_out :=
                    dup_cstring (some (lit "Failed to allocate response buffer."))
                      e.dup_cstring_ok }
              else
                { response_out := some bytes, response_len_out := bytes.length,
                  error_out := none }
            else
              { out0 with
                error_out :=
                  dup_cstring (some (lit "Failed to read gRPC response.")) e.dup_cstring_ok }
          | none =>
            { out0 with
              error_out := dup_cstring (some (lit "Empty gRPC response.")) e.dup_cstring_ok }
      { ret := if out.error_out.isNone then 0 else 1
        outputs := some out, call_host := some a.host, metadata := metadata }

/-! ## Concrete calls used as examples -/

/-- A cleartext call of `/echo.Echo/Unary` with the two byte request `01 02`. -/
def echo_args : Args :=
  { target := lit "localhost:50051", host := lit "localhost", method := lit "/echo.Echo/Unary",
    request := some [1, 2], request_len := 2, auth_token := none, use_tls := 0,
    response_out := true, response_len_out := true, error_out := true }

/-- An environment in which every set-up step and every allocation succeeds,
the request gets stream id 1, the clock reads 100 s before the loop, and the
loop body sees the given iterations. -/
def plain_env (iterations : List Iteration) : Env :=
  { strdup_target_ok := true
    connect := { getaddrinfo_ret := 0, gai_strerror := [], addrs := [(3, true)] }
    set_error_ok := true
    tls := { ssl_ctx_new_ok := true, ssl_new_ok := true, ssl_connect_ret := 1,
             err_string := [], alpn_selected := lit "h2" }
    http2 := { session_client_new_ret := 0, submit_settings_ret := 0 }
    build_block := some (fun _ => 0)
    submit_request_ret := 1
    start_time := { tv_sec := 100, tv_nsec := 0 }
    iterations := iterations
    nghttp2_strerror := fun _ => lit "nghttp2 error"
    parse_malloc_ok := true
    dup_string_ok := true }

/-- A loop iteration in which nghttp2 sends, makes the given callbacks while
receiving, reports no error, and the clock has advanced by `ms` milliseconds
since the loop was entered by `plain_env`. -/
def quiet_iteration (recv_callbacks : List Callback) (ms : Int) : Iteration :=
  { send_callbacks := [], send_ret := 0, recv_callbacks := recv_callbacks, recv_ret := 0,
    now := { tv_sec := 100 + ms / 1000, tv_nsec := (ms % 1000) * 1000000 } }

/-! ## Sequences of callbacks and the bookkeeping of resources -/

/-- The connection after nghttp2 has delivered the given DATA chunks (stream
id and bytes) to `on_data_chunk_recv_callback`, in order, every `realloc`
succeeding. -/
def recv_chunks (conn : grpc_connection) : List (Int × List Byte) → grpc_connection
  | [] => conn
  | (stream_id, data) :: rest =>
    recv_chunks (on_data_chunk_recv_callback conn stream_id data true).2 rest

/-- What `data_source_read_callback` hands out when nghttp2 calls it with
buffers of the given sizes, in order. -/
def data_reads (conn : grpc_connection) : List Nat → List DataRead
  | [] => []
  | length :: rest =>
    (data_source_read_callback conn length) ::
      data_reads (data_source_read_callback conn length).conn rest

/-- The connection after the calls of `data_reads`. -/
def after_reads (conn : grpc_connection) : List Nat → grpc_connection
  | [] => conn
  | length :: rest => after_reads (data_source_read_callback conn length).conn rest

/-- One step of the bookkeeping for resource `res`: `some true` while it is
held, `some false` while it is not, `none` once it has been acquired while
held (the first instance is lost) or released while not held. -/
def held_step (res : Resource) (h : Option Bool) (a : Action) : Option Bool :=
  match h, a with
  | some false, .acquire r => if r = res then some true else some false
  | some true, .acquire r => if r = res then none else some true
  | some true, .release r => if r = res then some false else some true
  | some false, .release r => if r = res then none else some false
  | h, _ => h

/-- Whether resource `res` is held after the actions of `trace`. -/
def held (res : Resource) (trace : List Action) : Option Bool :=
  trace.foldl (held_step res) (some false)

/-- The releases of the `cleanup:` label for a connection that holds the
response buffer, the error string, the HTTP/2 session, the TLS session, the
TLS context and the socket according to the six flags. -/
def cleanup_releases (response_data error_message session ssl ssl_ctx socket : Bool) :
    List Action :=
  (if response_data then [Action.release .response_data] else []) ++
  (if error_message then [Action.release .error_message] else []) ++
  (if session then [Action.release .session] else []) ++
  (if ssl then [Action.release .ssl] else []) ++
  (if ssl_ctx then [Action.release .ssl_ctx] else []) ++
  (if socket then [Action.release .socket] else [])

/-- Whether the call currently holds the four resources that are not
recorded in `grpc_connection`. -/
structure Phase where
  target_copy : Bool
  addrinfo : Bool
  callbacks : Bool
  grpc_request : Bool
  deriving DecidableEq, Repr

/-- What the connection and the phase say about each resource: the socket is
held when `fd >= 0`, the TLS context and session, the HTTP/2 session, the
response buffer and the error string when the corresponding pointer is
non-null, the other four according to the phase. -/
def snapshot (conn : grpc_connection) (p : Phase) : Resource → Bool
  | .target_copy => p.target_copy
  | .addrinfo => p.addrinfo
  | .socket => decide (0 ≤ conn.fd)
  | .ssl_ctx => conn.ssl_ctx
  | .ssl => conn.ssl
  | .callbacks => p.callbacks
  | .session => conn.session
  | .grpc_request => p.grpc_request
  | .response_data => conn.response_data.isSome
  | .error_message => conn.error_message.isSome

/-- The bookkeeping of the trace agrees with the connection and the phase:
every resource has been acquired and released in turn, and is held now
exactly when `snapshot` says so. -/
def holds (conn : grpc_connection) (p : Phase) : Prop :=
  ∀ res : Resource, held res conn.trace = some (snapshot conn p res)

/-- A TLS call of `echo_args`. -/
def tls_args : Args := { echo_args with use_tls := 1 }

/-- An environment like `plain_env` in which the TLS handshake fails:
`SSL_connect` returns `0`. -/
def handshake_failure_env : Env :=
  { plain_env [] with
    tls := { ssl_ctx_new_ok := true, ssl_new_ok := true, ssl_connect_ret := 0,
             err_string := lit "error:0A000086:SSL routines::certificate verify failed",
             alpn_selected := [] } }

/-! ## Framing: bit arithmetic -/

theorem or4_eq_add (b1 b2 b3 b4 : Nat) (h1 : b1 < 256) (h2 : b2 < 256) (h3 : b3 < 256)
    (h4 : b4 < 256) :
    ((((b1 <<< 24) % UINT32_MOD) ||| ((b2 <<< 16) % UINT32_MOD) ||| ((b3 <<< 8) % UINT32_MOD)
      ||| b4) % UINT32_MOD) = b1 * 2 ^ 24 + b2 * 2 ^ 16 + b3 * 2 ^ 8 + b4 := by
  simp only [Nat.shiftLeft_eq, UINT32_MOD]
  have e1 : b1 * 2 ^ 24 % 2 ^ 32 = 2 ^ 24 * b1 := by omega
  have e2 : b2 * 2 ^ 16 % 2 ^ 32 = b2 * 2 ^ 16 := by omega
  have e3 : b3 * 2 ^ 8 % 2 ^ 32 = b3 * 2 ^ 8 := by omega
  rw [e1, e2, e3]
  rw [← Nat.mul_add_lt_is_or (by omega : b2 * 2 ^ 16 < 2 ^ 24) b1]
  have e4 : 2 ^ 24 * b1 + b2 * 2 ^ 16 = 2 ^ 16 * (2 ^ 8 * b1 + b2) := by omega
  rw [e4, ← Nat.mul_add_lt_is_or (by omega : b3 * 2 ^ 8 < 2 ^ 16)]
  have e5 : 2 ^ 16 * (2 ^ 8 * b1 + b2) + b3 * 2 ^ 8 = 2 ^ 8 * (2 ^ 16 * b1 + 2 ^ 8 * b2 + b3) := by
    omega
  rw [e5, ← Nat.mul_add_lt_is_or (by omega : b4 < 2 ^ 8)]
  omega

theorem read_be32_cons (f b1 b2 b3 b4 : Byte) (rest : List Byte) :
    read_be32 (f :: b1 :: b2 :: b3 :: b4 :: rest)
      = b1.val * 2 ^ 24 + b2.val * 2 ^ 16 + b3.val * 2 ^ 8 + b4.val := by
  simp only [read_be32, List.getD_cons_succ, List.getD_cons_zero]
  exact or4_eq_add _ _ _ _ b1.isLt b2.isLt b3.isLt b4.isLt

theorem write_be32_val (n : Nat) :
    write_be32 n = [Fin.ofNat (n / 2 ^ 24 % 256), Fin.ofNat (n / 2 ^ 16 % 256),
      Fin.ofNat (n / 2 ^ 8 % 256), Fin.ofNat (n % 256)] := by
  have h : (0xFF : Nat) = 2 ^ 8 - 1 := by norm_num
  simp only [write_be32, h, Nat.and_pow_two_sub_one_eq_mod, Nat.shiftRight_eq_div_pow]


theorem val_ofNat_byte (x : Nat) (h : x < 256) : ((Fin.ofNat x : Byte)).val = x := by
  show x % 256 = x
  omega

theorem read_be32_write_be32 (f : Byte) (n : Nat) (hn : n < 2 ^ 32) (rest : List Byte) :
    read_be32 (f :: (write_be32 n ++ rest)) = n := by
  rw [write_be32_val]
  simp only [List.cons_append, List.nil_append]
  rw [read_be32_cons]
  rw [val_ofNat_byte _ (by omega), val_ofNat_byte _ (by omega), val_ofNat_byte _ (by omega),
    val_ofNat_byte _ (by omega)]
  omega

theorem parse_of_cons (f b1 b2 b3 b4 : Byte) (rest : List Byte) (L : Nat)
    (hL : L = b1.val * 2 ^ 24 + b2.val * 2 ^ 16 + b3.val * 2 ^ 8 + b4.val)
    (hlen : L ≤ rest.length) :
    parse_grpc_response (f :: b1 :: b2 :: b3 :: b4 :: rest) true = .ok (rest.take L) L := by
  have hb1 := b1.isLt
  have hb2 := b2.isLt
  have hb3 := b3.isLt
  have hb4 := b4.isLt
  have hr := read_be32_cons f b1 b2 b3 b4 rest
  rw [← hL] at hr
  have hL32 : L < 2 ^ 32 := by omega
  unfold parse_grpc_response
  simp only [hr, GRPC_HEADER_SIZE, UINT32_MOD, List.length_cons]
  have h1 : ¬ (rest.length + 1 + 1 + 1 + 1 + 1 < 5) := by omega
  have h2 : ¬ (rest.length + 1 + 1 + 1 + 1 + 1 < (5 + L) % 2 ^ 32) := by omega
  have h3 : ¬ (rest.length + 1 + 1 + 1 + 1 + 1 < 5 + L) := by omega
  simp only [h1, h2, h3, if_false, Bool.not_true, Bool.false_eq_true, List.drop_succ_cons, List.drop_zero]

theorem build_grpc_request_layout (message : Option (List Byte)) (n : Nat) (junk : Nat → Byte)
    (hn : n < 2 ^ 32) (hlen : (message.getD []).length = n) :
    ∃ b1 b2 b3 b4 : Byte,
      build_grpc_request message n (some junk)
        = some ((0 : Byte) :: b1 :: b2 :: b3 :: b4 :: message.getD [], 5 + n) ∧
      ((0 : Byte) :: b1 :: b2 :: b3 :: b4 :: message.getD []).length = 5 + n ∧
      b1.val * 2 ^ 24 + b2.val * 2 ^ 16 + b3.val * 2 ^ 8 + b4.val = n := by
  refine ⟨Fin.ofNat (n / 2 ^ 24 % 256), Fin.ofNat (n / 2 ^ 16 % 256),
    Fin.ofNat (n / 2 ^ 8 % 256), Fin.ofNat (n % 256), ?_, ?_, ?_⟩
  · unfold build_grpc_request
    rw [write_be32_val]
    cases message with
    | none =>
      simp only [Option.getD_none, List.length_nil] at hlen
      subst hlen
      simp [GRPC_HEADER_SIZE]
    | some m =>
      simp only [Option.getD_some] at hlen
      by_cases h0 : n > 0
      · subst hlen
        have hd : decide (0 < m.length) = true := decide_eq_true h0
        simp [GRPC_HEADER_SIZE, hd]
      · have hn0 : n = 0 := by omega
        subst hn0
        have hm : m = [] := List.length_eq_zero.mp hlen
        simp [GRPC_HEADER_SIZE, hm]
  · simp only [List.length_cons, hlen]
    omega
  · rw [val_ofNat_byte _ (by omega), val_ofNat_byte _ (by omega), val_ofNat_byte _ (by omega),
      val_ofNat_byte _ (by omega)]
    omega

/-- Claim C2. For a payload of `n < 2^32` bytes (the pointer may be `NULL` only
when `n = 0`) and a successful `malloc`, `build_grpc_request` returns a buffer
of exactly `5 + n` bytes: byte 0 is `0`, bytes 1..4 are `n` in big-endian
base 256, the rest is the payload unchanged; `*out_len` is `5 + n`. -/
theorem build_grpc_request_frame (message : Option (List Byte)) (n : Nat) (junk : Nat → Byte)
    (hn : n < 2 ^ 32) (hlen : (message.getD []).length = n) :
    ∃ b1 b2 b3 b4 : Byte,
      build_grpc_request message n (some junk)
        = some ((0 : Byte) :: b1 :: b2 :: b3 :: b4 :: message.getD [], 5 + n) ∧
      ((0 : Byte) :: b1 :: b2 :: b3 :: b4 :: message.getD []).length = 5 + n ∧
      b1.val * 2 ^ 24 + b2.val * 2 ^ 16 + b3.val * 2 ^ 8 + b4.val = n :=
  build_grpc_request_layout message n junk hn hlen

theorem build_grpc_request_frame_witness :
    ∃ b1 b2 b3 b4 : Byte,
      build_grpc_request (some [1, 2]) 2 (some (fun _ => 0))
        = some ((0 : Byte) :: b1 :: b2 :: b3 :: b4 :: (some [1, 2] : Option (List Byte)).getD [],
            5 + 2) ∧
      ((0 : Byte) :: b1 :: b2 :: b3 :: b4 :: (some [1, 2] : Option (List Byte)).getD []).length
        = 5 + 2 ∧
      b1.val * 2 ^ 24 + b2.val * 2 ^ 16 + b3.val * 2 ^ 8 + b4.val = 2 :=
  build_grpc_request_frame (some [1, 2]) 2 (fun _ => 0) (by decide) (by decide)


theorem getD_of_drop_take (data : List Byte) (k i : Nat) (hi : i < k) :
    data.getD (i + 1) 0 = (((data.drop 1).take k).getD i 0) := by
  simp only [List.getD_eq_getElem?_getD, List.getElem?_take, hi, if_true, List.getElem?_drop]
  rw [Nat.add_comm]

theorem read_be32_congr (data data' : List Byte) (k : Nat) (hk : 4 ≤ k)
    (h : (data'.drop 1).take k = (data.drop 1).take k) : read_be32 data' = read_be32 data := by
  unfold read_be32
  rw [getD_of_drop_take data' k 0 (by omega), getD_of_drop_take data' k 1 (by omega),
    getD_of_drop_take data' k 2 (by omega), getD_of_drop_take data' k 3 (by omega),
    getD_of_drop_take data k 0 (by omega), getD_of_drop_take data k 1 (by omega),
    getD_of_drop_take data k 2 (by omega), getD_of_drop_take data k 3 (by omega), h]

theorem parse_grpc_response_eq (data : List Byte) (L : Nat)
    (hL : L = (data.getD 1 0).val * 2 ^ 24 + (data.getD 2 0).val * 2 ^ 16
      + (data.getD 3 0).val * 2 ^ 8 + (data.getD 4 0).val)
    (hlen : 5 + L ≤ data.length) :
    parse_grpc_response data true = .ok ((data.drop 5).take L) L := by
  match data, hL, hlen with
  | f :: b1 :: b2 :: b3 :: b4 :: rest, hL, hlen =>
    simp only [List.getD_cons_succ, List.getD_cons_zero] at hL
    simp only [List.length_cons] at hlen
    exact parse_of_cons f b1 b2 b3 b4 rest L hL (by omega)
  | [], _, hlen => simp at hlen
  | [_], _, hlen => simp at hlen; omega
  | [_, _], _, hlen => simp at hlen; omega
  | [_, _, _], _, hlen => simp at hlen; omega
  | [_, _, _, _], _, hlen => simp at hlen; omega

theorem read_be32_eq_sum (data : List Byte) :
    read_be32 data = (data.getD 1 0).val * 2 ^ 24 + (data.getD 2 0).val * 2 ^ 16
      + (data.getD 3 0).val * 2 ^ 8 + (data.getD 4 0).val := by
  unfold read_be32
  exact or4_eq_add _ _ _ _ (data.getD 1 0).isLt (data.getD 2 0).isLt (data.getD 3 0).isLt
    (data.getD 4 0).isLt

/-- Claim C3. A buffer of at least 5 bytes whose declared length `L` (bytes 1..4,
big-endian) satisfies `len ≥ 5 + L` is parsed successfully when `malloc`
succeeds: `*message_len_out = L`, `*message_out` is exactly the `L` bytes at
offsets `5 .. 5+L-1`, and every buffer that agrees with it on offsets
`1 .. 5+L-1` (whatever its byte 0 and its bytes from offset `5+L` on) gives the
same result. -/
theorem parse_grpc_response_complete (data : List Byte) (L : Nat)
    (hL : L = (data.getD 1 0).val * 2 ^ 24 + (data.getD 2 0).val * 2 ^ 16
      + (data.getD 3 0).val * 2 ^ 8 + (data.getD 4 0).val)
    (h5 : 5 ≤ data.length) (hlen : 5 + L ≤ data.length) :
    parse_grpc_response data true = .ok ((data.drop 5).take L) L ∧
    ((data.drop 5).take L).length = L ∧
    ∀ data' : List Byte, 5 + L ≤ data'.length →
      (data'.drop 1).take (4 + L) = (data.drop 1).take (4 + L) →
      parse_grpc_response data' true = parse_grpc_response data true := by
  refine ⟨parse_grpc_response_eq data L hL hlen, ?_, ?_⟩
  · simp only [List.length_take, List.length_drop]
    omega
  · intro data' hlen' hagree
    have hr : read_be32 data' = read_be32 data := read_be32_congr data data' (4 + L) (by omega) hagree
    have hL' : L = (data'.getD 1 0).val * 2 ^ 24 + (data'.getD 2 0).val * 2 ^ 16
        + (data'.getD 3 0).val * 2 ^ 8 + (data'.getD 4 0).val := by
      rw [← read_be32_eq_sum, hr, read_be32_eq_sum, ← hL]
    rw [parse_grpc_response_eq data L hL hlen, parse_grpc_response_eq data' L hL' hlen']
    have hd : (data'.drop 5).take L = (data.drop 5).take L := by
      have e : ∀ d : List Byte, (d.drop 5).take L = (((d.drop 1).take (4 + L)).drop 4) := by
        intro d
        rw [List.drop_take, List.drop_drop]
        simp
      rw [e data', e data, hagree]
    rw [hd]

theorem parse_grpc_response_complete_witness :
    parse_grpc_response [1, 0, 0, 0, 2, 7, 8, 9] true
        = .ok ((([1, 0, 0, 0, 2, 7, 8, 9] : List Byte).drop 5).take 2) 2 ∧
    ((([1, 0, 0, 0, 2, 7, 8, 9] : List Byte).drop 5).take 2).length = 2 ∧
    ∀ data' : List Byte, 5 + 2 ≤ data'.length →
      (data'.drop 1).take (4 + 2) = (([1, 0, 0, 0, 2, 7, 8, 9] : List Byte).drop 1).take (4 + 2) →
      parse_grpc_response data' true = parse_grpc_response [1, 0, 0, 0, 2, 7, 8, 9] true :=
  parse_grpc_response_complete [1, 0, 0, 0, 2, 7, 8, 9] 2 (by decide) (by decide) (by decide)

/-- Claim C4. Framing round trip: with both `malloc`s succeeding, parsing the
buffer built by `build_grpc_request` for a payload of fewer than `2^32` bytes
returns exactly that payload and its length. -/
theorem parse_build_round_trip (message : Option (List Byte)) (n : Nat) (junk : Nat → Byte)
    (hn : n < 2 ^ 32) (hlen : (message.getD []).length = n) :
    ∃ buf : List Byte,
      build_grpc_request message n (some junk) = some (buf, 5 + n) ∧
      parse_grpc_response buf true = .ok (message.getD []) n := by
  obtain ⟨b1, b2, b3, b4, hb, _, hsum⟩ := build_grpc_request_layout message n junk hn hlen
  refine ⟨_, hb, ?_⟩
  have h := parse_of_cons 0 b1 b2 b3 b4 (message.getD []) n hsum.symm (by omega)
  rw [h, ← hlen, List.take_length]

theorem parse_build_round_trip_witness :
    ∃ buf : List Byte,
      build_grpc_request (some [1, 2]) 2 (some (fun _ => 0)) = some (buf, 5 + 2) ∧
      parse_grpc_response buf true = .ok ((some [1, 2] : Option (List Byte)).getD []) 2 :=
  parse_build_round_trip (some [1, 2]) 2 (fun _ => 0) (by decide) (by decide)

/-- Claim C1, failing input. The five byte buffer `00 FF FF FF FF` declares
`L = 2^32 - 1` payload bytes and is far shorter than `5 + L`, yet
`parse_grpc_response` does not return `-1`: the bound `5 + L` wraps to `4` in
32 bits, the length check passes and the `memcpy` reads past the buffer. -/
theorem parse_grpc_response_wrapped_bound :
    ([0, 255, 255, 255, 255] : List Byte).length < 5 + (255 * 2 ^ 24 + 255 * 2 ^ 16 + 255 * 2 ^ 8 + 255) ∧
    read_be32 [0, 255, 255, 255, 255] = 255 * 2 ^ 24 + 255 * 2 ^ 16 + 255 * 2 ^ 8 + 255 ∧
    parse_grpc_response [0, 255, 255, 255, 255] true = .overread ∧
    parse_grpc_response [0, 255, 255, 255, 255] true ≠ .fail := by
  refine ⟨by decide, by decide, by decide, by decide⟩

/-- Below the wrap (`L < 2^32 - 5`) the truncation check of
`parse_grpc_response` works as intended. -/
theorem parse_grpc_response_truncated (data : List Byte) (mallocOk : Bool)
    (h : data.length < 5 ∨ (read_be32 data < 2 ^ 32 - 5 ∧ data.length < 5 + read_be32 data)) :
    parse_grpc_response data mallocOk = .fail := by
  unfold parse_grpc_response
  simp only [GRPC_HEADER_SIZE, UINT32_MOD]
  rcases h with h | ⟨h1, h2⟩
  · simp [h]
  · have e : (5 + read_be32 data) % 2 ^ 32 = 5 + read_be32 data := by omega
    rw [e]
    simp [h2]

/-! ## The call: status, deadline -/

theorem call_of_loop_entry (a : Args) (env : Env) (entry : LoopEntry)
    (hp : call_prologue a env = .inr entry) :
    hif_grpc_unary_call a env = call_epilogue env entry.headers
      (send_recv_loop env.nghttp2_strerror env.start_time entry.conn env.iterations) := by
  unfold hif_grpc_unary_call
  rw [hp]

theorem call_epilogue_status_error (env : Env) (headers : List Header) (c : grpc_connection)
    (h0 : c.grpc_status ≠ 0) (h1 : c.grpc_status ≠ -1) (hdup : env.dup_string_ok = true) :
    call_epilogue env headers (.done c) = .returned
      (cleanup (log c (.release .grpc_request))
        { response_out := none, response_len_out := 0,
          error_out := some (match c.error_message with
            | some m => m
            | none => (lit "gRPC error: status " ++ lit (toString c.grpc_status)).take 63) }
        (some headers)) := by
  simp only [call_epilogue, log]
  rw [if_pos ⟨h0, h1⟩]
  simp only [dup_string, hdup, if_true, snprintf_d]

theorem send_recv_loop_append (strerror : Int → CStr) (start_time : Timespec)
    (pre rest : List Iteration) :
    ∀ (conn c : grpc_connection),
      send_recv_loop strerror start_time conn pre = .pending c →
      send_recv_loop strerror start_time conn (pre ++ rest)
        = send_recv_loop strerror start_time c rest ∧ c.response_complete = 0 := by
  induction pre with
  | nil =>
    intro conn c h
    simp only [send_recv_loop] at h
    split at h
    · cases h
    · cases h
      rename_i hc
      simp only [ne_eq, not_not] at hc
      exact ⟨rfl, hc⟩
  | cons it pre ih =>
    intro conn c h
    simp only [List.cons_append, send_recv_loop] at h ⊢
    split at h
    · cases h
    · rename_i hc
      rw [if_neg hc]
      split at h
      · cases h
      · rename_i hs
        rw [if_neg hs]
        split at h
        · cases h
        · rename_i hr
          rw [if_neg hr]
          split at h
          · cases h
          · rename_i he
            rw [if_neg he]
            split at h
            · rename_i hsoft
              rw [if_pos hsoft]
              exact ih _ _ h
            · rename_i hsoft
              rw [if_neg hsoft]
              split at h
              · cases h
              · rename_i hhard
                rw [if_neg hhard]
                exact ih _ _ h


/-- Claim C5, amended. When the loop ends without transport error or timeout
and the captured `grpc-status` is neither `0` nor `-1`, the call returns `1`
with no response, and (the error string being duplicated successfully) its
error message is the captured `grpc-message` when there is one and otherwise
`"gRPC error: status N"`; the captured status is `atoi` of the value of a
`grpc-status` header on the request stream, the captured message the value of
a `grpc-message` header on that stream. -/
theorem nonzero_status_is_error (a : Args) (env : Env) (entry : LoopEntry) (c : grpc_connection)
    (hp : call_prologue a env = .inr entry)
    (hl : send_recv_loop env.nghttp2_strerror env.start_time entry.conn env.iterations = .done c)
    (h0 : c.grpc_status ≠ 0) (h1 : c.grpc_status ≠ -1) (hdup : env.dup_string_ok = true) :
    (∃ r : CallResult, hif_grpc_unary_call a env = .returned r ∧ r.ret = 1 ∧
      r.outputs = some
        { response_out := none, response_len_out := 0,
          error_out := some (match c.error_message with
            | some m => m
            | none => (lit "gRPC error: status " ++ lit (toString c.grpc_status)).take 63) }) ∧
    (∀ (conn : grpc_connection) (value : List Byte) (ok : Bool),
      (on_header_callback conn conn.request_stream_id (lit "grpc-status") value ok).2.grpc_status
        = atoi value) ∧
    (∀ (conn : grpc_connection) (value : List Byte),
      (on_header_callback conn conn.request_stream_id (lit "grpc-message") value true).2.error_message
        = some (strndup value value.length)) := by
  have heq := call_epilogue_status_error env entry.headers c h0 h1 hdup
  rw [← hl, ← call_of_loop_entry a env entry hp] at heq
  refine ⟨⟨_, heq, ?_, ?_⟩, ?_, ?_⟩
  · simp [cleanup]
  · simp [cleanup]
  · intro conn value ok
    have hn : (lit "grpc-status").length = 11 := by decide
    simp [on_header_callback, hn]
  · intro conn value
    have hn : ¬ ((lit "grpc-message").length = 11 ∧ lit "grpc-message" = lit "grpc-status") := by
      decide
    have hm : (lit "grpc-message").length = 12 := by decide
    simp only [on_header_callback, ne_eq, not_true_eq_false, if_false, hn, hm, true_and, if_true]
    simp [log]


theorem nonzero_status_is_error_witness :
    ∃ r : CallResult,
      hif_grpc_unary_call echo_args
        (plain_env [quiet_iteration
          [.on_header 1 (lit "grpc-message") (lit "not found") true,
           .on_header 1 (lit "grpc-status") (lit "5") true] 5]) = .returned r ∧
      r.ret = 1 ∧
      r.outputs = some
        { response_out := none, response_len_out := 0, error_out := some (lit "not found") } :=
  (nonzero_status_is_error echo_args
    (plain_env [quiet_iteration
      [.on_header 1 (lit "grpc-message") (lit "not found") true,
       .on_header 1 (lit "grpc-status") (lit "5") true] 5])
    _ _ rfl rfl (by decide) (by decide) rfl).1

/-- Claim C5, counterexample. A `grpc-status` trailer with the non-zero value
`-1` arrives on the request stream and the loop ends normally, yet the call
returns `0` with no error message. -/
theorem status_minus_one_not_reported :
    atoi (lit "-1") = -1 ∧
    ∃ r : CallResult,
      hif_grpc_unary_call echo_args
        (plain_env [quiet_iteration [.on_header 1 (lit "grpc-status") (lit "-1") true] 5])
        = .returned r ∧
      r.ret = 0 ∧
      r.outputs = some { response_out := none, response_len_out := 0, error_out := none } :=
  ⟨by decide, _, rfl, by decide, by decide⟩

/-! ## The call: shape of the result -/

theorem set_error_message (conn : grpc_connection) (msg : CStr) :
    (set_error conn msg true).error_message = some msg := by
  unfold set_error
  split <;> simp [log]

theorem connect_to_server_error (conn : grpc_connection) (host : CStr) (port : Int)
    (e : ConnectEnv) (h : (connect_to_server conn host port e true).1 ≠ 0) :
    (connect_to_server conn host port e true).2.error_message.isSome = true := by
  unfold connect_to_server at h ⊢
  simp only at h ⊢
  split_ifs at h ⊢ <;> simp_all [set_error_message]

theorem setup_tls_error (conn : grpc_connection) (host : CStr) (e : TlsEnv)
    (h : (setup_tls conn host e true).1 ≠ 0) :
    (setup_tls conn host e true).2.error_message.isSome = true := by
  unfold setup_tls at h ⊢
  simp only at h ⊢
  split_ifs at h ⊢ <;> simp_all [set_error_message]

theorem setup_http2_error (conn : grpc_connection) (e : Http2Env)
    (h : (setup_http2 conn e true).1 ≠ 0) :
    (setup_http2 conn e true).2.error_message.isSome = true := by
  unfold setup_http2 at h ⊢
  simp only at h ⊢
  split_ifs at h ⊢ <;> simp_all [set_error_message]

theorem dup_string_isSome (s : Option CStr) (h : s.isSome = true) :
    (dup_string s true).isSome = true := by
  cases s with
  | none => simp at h
  | some v => simp [dup_string]

/-- Every way in which `call_prologue` ends: a result of the call, or the
entry into the loop with the headers it submitted. -/
theorem call_prologue_cases (a : Args) (env : Env) :
    (∀ r : CallResult, call_prologue a env = .inl (.returned r) →
      ((a.response_out = false ∨ a.response_len_out = false ∨ a.error_out = false) ∧
        r = { ret := 1, outputs := none, submitted := none, trace := [] }) ∨
      ((a.response_out = true ∧ a.response_len_out = true ∧ a.error_out = true) ∧
        (r.submitted = none ∨
          r.submitted = some (request_headers a.host a.method a.auth_token a.use_tls)) ∧
        ∃ out : Outputs, r.outputs = some out ∧ out.response_out = none ∧
          out.response_len_out = 0 ∧
          (r.ret = 1 ∨ r.ret = if out.error_out.isSome then 1 else 0) ∧
          (env.set_error_ok = true → env.dup_string_ok = true →
            r.ret = 1 ∧ out.error_out.isSome = true))) ∧
    (∀ entry : LoopEntry, call_prologue a env = .inr entry →
      (a.response_out = true ∧ a.response_len_out = true ∧ a.error_out = true) ∧
      entry.headers = request_headers a.host a.method a.auth_token a.use_tls) := by
  unfold call_prologue
  by_cases hnull : (!a.response_out || !a.response_len_out || !a.error_out) = true
  · rw [if_pos hnull]
    refine ⟨?_, ?_⟩
    · intro r h
      left
      simp only [Sum.inl.injEq, Outcome.returned.injEq] at h
      refine ⟨?_, h.symm⟩
      simpa [or_assoc] using hnull
    · intro entry h
      cases h
  · rw [if_neg hnull]
    have hptr : a.response_out = true ∧ a.response_len_out = true ∧ a.error_out = true := by
      simpa [and_assoc] using hnull
    dsimp only
    by_cases hs : (!env.strdup_target_ok) = true
    · rw [if_pos hs]
      exact ⟨fun r h => (by cases h), fun e h => (by cases h)⟩
    · rw [if_neg hs]
      set c := connect_to_server (log (conn_init a.use_tls) (Action.acquire Resource.target_copy))
        (parse_target a.target a.use_tls).1 (parse_target a.target a.use_tls).2 env.connect
        env.set_error_ok with hcdef
      by_cases hc : c.1 ≠ 0
      · rw [if_pos hc]
        refine ⟨?_, fun e h => (by cases h)⟩
        intro r h
        right
        simp only [Sum.inl.injEq, Outcome.returned.injEq] at h
        subst h
        refine ⟨hptr, Or.inl rfl, _, rfl, rfl, rfl, Or.inl rfl, ?_⟩
        intro hse hd
        refine ⟨rfl, ?_⟩
        simp only [early_return, hd]
        apply dup_string_isSome
        rw [hcdef, hse] at hc ⊢
        exact connect_to_server_error _ _ _ _ hc
      · rw [if_neg hc]
        set t : Int × grpc_connection :=
          (if a.use_tls ≠ 0 then setup_tls c.2 (parse_target a.target a.use_tls).1 env.tls
            env.set_error_ok else (0, c.2)) with htdef
        by_cases ht : t.1 ≠ 0
        · rw [if_pos ht]
          refine ⟨?_, fun e h => (by cases h)⟩
          intro r h
          right
          simp only [Sum.inl.injEq, Outcome.returned.injEq] at h
          subst h
          refine ⟨hptr, Or.inl rfl, _, rfl, rfl, rfl, Or.inl rfl, ?_⟩
          intro hse hd
          refine ⟨rfl, ?_⟩
          simp only [early_return, hd]
          apply dup_string_isSome
          rw [htdef] at ht ⊢
          split_ifs at ht ⊢
          · rw [hse] at ht ⊢
            exact setup_tls_error _ _ _ ht
          · simp at ht
        · rw [if_neg ht]
          set h2 := setup_http2 (log t.2 (Action.release Resource.target_copy)) env.http2
            env.set_error_ok with h2def
          by_cases hh : h2.1 ≠ 0
          · rw [if_pos hh]
            refine ⟨?_, fun e h => (by cases h)⟩
            intro r h
            right
            simp only [Sum.inl.injEq, Outcome.returned.injEq] at h
            subst h
            refine ⟨hptr, Or.inl rfl, _, rfl, rfl, rfl, Or.inr rfl, ?_⟩
            intro hse hd
            have he : (dup_string h2.2.error_message env.dup_string_ok).isSome = true := by
              rw [hd]
              apply dup_string_isSome
              rw [h2def, hse] at hh ⊢
              exact setup_http2_error _ _ hh
            simp only [cleanup, he, if_true, and_self]
          · rw [if_neg hh]
            cases hb : build_grpc_request a.request a.request_len env.build_block with
            | none =>
              refine ⟨?_, fun e h => (by cases h)⟩
              intro r h
              right
              simp only [Sum.inl.injEq, Outcome.returned.injEq] at h
              subst h
              refine ⟨hptr, Or.inl rfl, _, rfl, rfl, rfl, Or.inr rfl, ?_⟩
              intro _ hd
              simp [cleanup, dup_string, hd]
            | some p =>
              obtain ⟨grpc_request, grpc_request_len⟩ := p
              dsimp only
              by_cases hsub : env.submit_request_ret < 0
              · rw [if_pos hsub]
                refine ⟨?_, fun e h => (by cases h)⟩
                intro r h
                right
                simp only [Sum.inl.injEq, Outcome.returned.injEq] at h
                subst h
                refine ⟨hptr, Or.inr rfl, _, rfl, rfl, rfl, Or.inr rfl, ?_⟩
                intro _ hd
                simp [cleanup, dup_string, hd]
              · rw [if_neg hsub]
                refine ⟨fun r h => (by cases h), ?_⟩
                intro entry h
                simp only [Sum.inr.injEq] at h
                subst h
                exact ⟨hptr, rfl⟩


/-- Every result with which `call_epilogue` ends the call. -/
theorem call_epilogue_returned (env : Env) (headers : List Header) (le : LoopExit)
    (r : CallResult) (h : call_epilogue env headers le = .returned r) :
    r.submitted = some headers ∧
    ∃ out : Outputs, r.outputs = some out ∧
      r.ret = (if out.error_out.isSome then 1 else 0) ∧
      (out.error_out.isSome = true → out.response_out = none ∧ out.response_len_out = 0) ∧
      (∀ msg : List Byte, out.response_out = some msg →
        ∃ c : grpc_connection, le = .done c ∧ (c.grpc_status = 0 ∨ c.grpc_status = -1) ∧
          0 < c.response_len ∧
          parse_grpc_response ((c.response_data.getD []).take c.response_len)
            env.parse_malloc_ok = .ok msg out.response_len_out) := by
  cases le with
  | pending c => simp [call_epilogue] at h
  | failed c msg =>
    simp only [call_epilogue, Outcome.returned.injEq] at h
    subst h
    refine ⟨rfl, _, rfl, rfl, fun _ => ⟨rfl, rfl⟩, ?_⟩
    intro msg hm
    simp at hm
  | done c =>
    simp only [call_epilogue, log] at h
    by_cases hst : c.grpc_status ≠ 0 ∧ c.grpc_status ≠ -1
    · rw [if_pos hst] at h
      simp only [Outcome.returned.injEq] at h
      subst h
      refine ⟨rfl, _, rfl, rfl, fun _ => ⟨rfl, rfl⟩, ?_⟩
      intro msg hm
      simp at hm
    · rw [if_neg hst] at h
      have hst' : c.grpc_status = 0 ∨ c.grpc_status = -1 := by
        by_cases h0 : c.grpc_status = 0
        · exact Or.inl h0
        · right
          by_contra h1
          exact hst ⟨h0, h1⟩
      by_cases hlen : c.response_len > 0
      · rw [if_pos hlen] at h
        cases hp : parse_grpc_response ((c.response_data.getD []).take c.response_len)
            env.parse_malloc_ok with
        | fail =>
          rw [hp] at h
          simp only [Outcome.returned.injEq] at h
          subst h
          refine ⟨rfl, _, rfl, rfl, fun _ => ⟨rfl, rfl⟩, ?_⟩
          intro msg hm
          simp at hm
        | ok message message_len =>
          rw [hp] at h
          simp only [Outcome.returned.injEq] at h
          subst h
          refine ⟨rfl, _, rfl, rfl, ?_, ?_⟩
          · intro he
            simp at he
          · intro msg hm
            simp only [Option.some.injEq] at hm
            subst hm
            exact ⟨c, rfl, hst', hlen, hp⟩
        | overread =>
          rw [hp] at h
          cases h
      · rw [if_neg hlen] at h
        simp only [Outcome.returned.injEq] at h
        subst h
        refine ⟨rfl, _, rfl, rfl, ?_, ?_⟩
        · intro he
          simp at he
        · intro msg hm
          simp at hm


/-- Every result of `hif_grpc_unary_call` comes from `call_prologue` or, with
the loop entered, from `call_epilogue`. -/
theorem call_returned_cases (a : Args) (env : Env) (r : CallResult)
    (h : hif_grpc_unary_call a env = .returned r) :
    call_prologue a env = .inl (.returned r) ∨
    ∃ entry : LoopEntry, call_prologue a env = .inr entry ∧
      call_epilogue env entry.headers
        (send_recv_loop env.nghttp2_strerror env.start_time entry.conn env.iterations)
        = .returned r := by
  unfold hif_grpc_unary_call at h
  cases hp : call_prologue a env with
  | inl o =>
    rw [hp] at h
    simp only at h
    left
    rw [h]
  | inr entry =>
    rw [hp] at h
    right
    exact ⟨entry, rfl, h⟩

/-- Claim C6, amended. A call that returns a response payload returns `0`, and
it does so only when the loop ended normally with the status field `0` or
`-1` (a `grpc-status` of `0` was captured, or none was seen); when the loop
ends normally with any other status the call returns `1` with an error
message and no payload (the error string being duplicated successfully). -/
theorem payload_only_when_status_zero_or_unseen (a : Args) (env : Env) :
    (∀ (r : CallResult) (out : Outputs) (msg : List Byte),
      hif_grpc_unary_call a env = .returned r →
      r.outputs = some out → out.response_out = some msg →
      r.ret = 0 ∧ out.error_out = none ∧
      ∃ (entry : LoopEntry) (c : grpc_connection), call_prologue a env = .inr entry ∧
        send_recv_loop env.nghttp2_strerror env.start_time entry.conn env.iterations = .done c ∧
        (c.grpc_status = 0 ∨ c.grpc_status = -1)) ∧
    (∀ (entry : LoopEntry) (c : grpc_connection), call_prologue a env = .inr entry →
      send_recv_loop env.nghttp2_strerror env.start_time entry.conn env.iterations = .done c →
      c.grpc_status ≠ 0 → c.grpc_status ≠ -1 → env.dup_string_ok = true →
      ∃ (r : CallResult) (out : Outputs), hif_grpc_unary_call a env = .returned r ∧
        r.ret = 1 ∧ r.outputs = some out ∧ out.response_out = none ∧
        out.error_out.isSome = true) := by
  refine ⟨?_, ?_⟩
  · intro r out msg hr ho hm
    rcases call_returned_cases a env r hr with hp | ⟨entry, hp, he⟩
    · rcases (call_prologue_cases a env).1 r hp with ⟨_, hnull⟩ | ⟨_, _, out', ho', hnone, _⟩
      · rw [hnull] at ho
        cases ho
      · rw [ho] at ho'
        cases ho'
        rw [hnone] at hm
        cases hm
    · obtain ⟨_, out', ho', hret, herr, hpay⟩ := call_epilogue_returned env _ _ r he
      rw [ho] at ho'
      cases ho'
      obtain ⟨c, hl, hst, _, _⟩ := hpay msg hm
      have hnoerr : out.error_out = none := by
        cases hE : out.error_out with
        | none => rfl
        | some e =>
          have := (herr (by simp [hE])).1
          rw [this] at hm
          cases hm
      refine ⟨?_, hnoerr, entry, c, hp, hl, hst⟩
      rw [hret, hnoerr]
      rfl
  · intro entry c hp hl h0 h1 hdup
    have heq := call_epilogue_status_error env entry.headers c h0 h1 hdup
    rw [← hl, ← call_of_loop_entry a env entry hp] at heq
    exact ⟨_, _, heq, rfl, rfl, rfl, rfl⟩

theorem payload_only_when_status_zero_or_unseen_witness :
    (∃ r : CallResult,
      hif_grpc_unary_call echo_args
        (plain_env [quiet_iteration
          [.on_data_chunk_recv 1 [0, 0, 0, 0, 2, 1, 2] true,
           .on_header 1 (lit "grpc-status") (lit "0") true] 5]) = .returned r ∧
      r.outputs = some { response_out := some [1, 2], response_len_out := 2, error_out := none } ∧
      r.ret = 0 ∧
      ∃ (entry : LoopEntry) (c : grpc_connection),
        call_prologue echo_args
          (plain_env [quiet_iteration
            [.on_data_chunk_recv 1 [0, 0, 0, 0, 2, 1, 2] true,
             .on_header 1 (lit "grpc-status") (lit "0") true] 5]) = .inr entry ∧
        send_recv_loop (fun _ => lit "nghttp2 error") { tv_sec := 100, tv_nsec := 0 } entry.conn
          [quiet_iteration
            [.on_data_chunk_recv 1 [0, 0, 0, 0, 2, 1, 2] true,
             .on_header 1 (lit "grpc-status") (lit "0") true] 5] = .done c ∧
        (c.grpc_status = 0 ∨ c.grpc_status = -1)) ∧
    (∃ (r : CallResult) (out : Outputs),
      hif_grpc_unary_call echo_args
        (plain_env [quiet_iteration
          [.on_data_chunk_recv 1 [0, 0, 0, 0, 2, 1, 2] true,
           .on_header 1 (lit "grpc-status") (lit "7") true] 5]) = .returned r ∧
      r.ret = 1 ∧ r.outputs = some out ∧ out.response_out = none ∧
      out.error_out.isSome = true) :=
  ⟨⟨_, rfl, rfl,
    ((payload_only_when_status_zero_or_unseen echo_args
      (plain_env [quiet_iteration
        [.on_data_chunk_recv 1 [0, 0, 0, 0, 2, 1, 2] true,
         .on_header 1 (lit "grpc-status") (lit "0") true] 5])).1 _ _ [1, 2] rfl rfl rfl).1,
    ((payload_only_when_status_zero_or_unseen echo_args
      (plain_env [quiet_iteration
        [.on_data_chunk_recv 1 [0, 0, 0, 0, 2, 1, 2] true,
         .on_header 1 (lit "grpc-status") (lit "0") true] 5])).1 _ _ [1, 2] rfl rfl rfl).2.2⟩,
   (payload_only_when_status_zero_or_unseen echo_args
      (plain_env [quiet_iteration
        [.on_data_chunk_recv 1 [0, 0, 0, 0, 2, 1, 2] true,
         .on_header 1 (lit "grpc-status") (lit "7") true] 5])).2 _ _ rfl rfl
      (by decide) (by decide) rfl⟩

/-- Claim C6, counterexample. The response frame arrives complete, no
`grpc-status` header is ever received (the status field is still `-1` when the
loop ends), and the call returns `0` with the payload `01 02`. -/
theorem payload_without_grpc_status :
    ∃ (r : CallResult) (c : grpc_connection),
      hif_grpc_unary_call echo_args
        (plain_env [quiet_iteration [.on_data_chunk_recv 1 [0, 0, 0, 0, 2, 1, 2] true] 5])
        = .returned r ∧
      r.ret = 0 ∧
      r.outputs = some { response_out := some [1, 2], response_len_out := 2, error_out := none } ∧
      (∃ entry : LoopEntry,
        call_prologue echo_args
          (plain_env [quiet_iteration [.on_data_chunk_recv 1 [0, 0, 0, 0, 2, 1, 2] true] 5])
          = .inr entry ∧
        send_recv_loop (fun _ => lit "nghttp2 error") { tv_sec := 100, tv_nsec := 0 } entry.conn
          [quiet_iteration [.on_data_chunk_recv 1 [0, 0, 0, 0, 2, 1, 2] true] 5] = .done c) ∧
      c.grpc_status = -1 :=
  ⟨_, _, rfl, by decide, by decide, ⟨_, rfl, rfl⟩, by decide⟩


theorem dup_cstring_some (v : CStr) : dup_cstring (some v) true = some v := rfl

theorem outputs_shape (ret : Int) (out : Outputs)
    (hret : ret = if out.error_out.isNone then 0 else 1)
    (h : out.error_out ≠ none → out.response_out = none ∧ out.response_len_out = 0) :
    (ret = 0 ↔ out.error_out = none) ∧ (ret = 1 ↔ out.error_out ≠ none) ∧
    (ret = 1 → out.response_out = none ∧ out.response_len_out = 0) := by
  cases he : out.error_out with
  | none =>
    rw [he] at hret
    simp only [Option.isNone_none, if_true] at hret
    subst hret
    simp
  | some v =>
    rw [he] at hret h
    simp only [Option.isNone_some, Bool.false_eq_true, if_false] at hret
    subst hret
    simp only [ne_eq, not_false_eq_true, true_implies, reduceCtorEq] at h
    simp [h]

theorem client_call_shape (a : Args) (e : ClientEnv)
    (hptr : a.response_out = true ∧ a.response_len_out = true ∧ a.error_out = true)
    (hdup : e.dup_cstring_ok = true) :
    ∃ out : Outputs, (Client.hif_grpc_unary_call a e).outputs = some out ∧
      ((Client.hif_grpc_unary_call a e).ret = 0 ↔ out.error_out = none) ∧
      ((Client.hif_grpc_unary_call a e).ret = 1 ↔ out.error_out ≠ none) ∧
      ((Client.hif_grpc_unary_call a e).ret = 1 →
        out.response_out = none ∧ out.response_len_out = 0) := by
  obtain ⟨h1, h2, h3⟩ := hptr
  have hnull : ¬ ((!a.response_out || !a.response_len_out || !a.error_out) = true) := by
    simp [h1, h2, h3]
  unfold Client.hif_grpc_unary_call
  rw [if_neg hnull, hdup]
  dsimp only
  simp only [dup_cstring_some]
  by_cases hc : (!e.creds_ok) = true
  · rw [if_pos hc]
    exact ⟨_, rfl, outputs_shape _ _ rfl (fun _ => ⟨rfl, rfl⟩)⟩
  rw [if_neg hc]
  by_cases hch : (!e.channel_ok) = true
  · rw [if_pos hch]
    exact ⟨_, rfl, outputs_shape _ _ rfl (fun _ => ⟨rfl, rfl⟩)⟩
  rw [if_neg hch]
  by_cases hcq : (!e.cq_ok) = true
  · rw [if_pos hcq]
    exact ⟨_, rfl, outputs_shape _ _ rfl (fun _ => ⟨rfl, rfl⟩)⟩
  rw [if_neg hcq]
  by_cases hca : (!e.call_ok) = true
  · rw [if_pos hca]
    exact ⟨_, rfl, outputs_shape _ _ rfl (fun _ => ⟨rfl, rfl⟩)⟩
  rw [if_neg hca]
  refine ⟨_, rfl, outputs_shape _ _ rfl ?_⟩
  intro herr
  split_ifs at herr ⊢ <;> (try split at herr) <;> (try split_ifs at herr ⊢) <;>
    first | exact ⟨rfl, rfl⟩ | exact absurd rfl herr

/-- Claim C7. In both implementations of `hif_grpc_unary_call`, with non-null
output pointers and successful duplications of the error string, every
returning call returns `0` exactly when `*error_out` is `NULL` and `1`
exactly when it holds a message, and a call that returns `1` leaves
`*response_out = NULL` and `*response_len_out = 0`; with a `NULL` output
pointer the call returns `1` and writes nothing. -/
theorem return_code_matches_error_out (a : Args) (env : Env) (ce : ClientEnv) :
    (a.response_out = true ∧ a.response_len_out = true ∧ a.error_out = true →
      env.set_error_ok = true → env.dup_string_ok = true → ce.dup_cstring_ok = true →
      (∀ r : CallResult, hif_grpc_unary_call a env = .returned r →
        ∃ out : Outputs, r.outputs = some out ∧
          (r.ret = 0 ↔ out.error_out = none) ∧ (r.ret = 1 ↔ out.error_out ≠ none) ∧
          (r.ret = 1 → out.response_out = none ∧ out.response_len_out = 0)) ∧
      (∃ out : Outputs, (Client.hif_grpc_unary_call a ce).outputs = some out ∧
        ((Client.hif_grpc_unary_call a ce).ret = 0 ↔ out.error_out = none) ∧
        ((Client.hif_grpc_unary_call a ce).ret = 1 ↔ out.error_out ≠ none) ∧
        ((Client.hif_grpc_unary_call a ce).ret = 1 →
          out.response_out = none ∧ out.response_len_out = 0))) ∧
    (a.response_out = false ∨ a.response_len_out = false ∨ a.error_out = false →
      hif_grpc_unary_call a env
        = .returned { ret := 1, outputs := none, submitted := none, trace := [] } ∧
      Client.hif_grpc_unary_call a ce
        = { ret := 1, outputs := none, call_host := none, metadata := [] }) := by
  refine ⟨?_, ?_⟩
  · intro hptr hset hdup hcdup
    refine ⟨?_, client_call_shape a ce hptr hcdup⟩
    intro r hr
    rcases call_returned_cases a env r hr with hp | ⟨entry, _, he⟩
    · rcases (call_prologue_cases a env).1 r hp with ⟨hnull, _⟩ | ⟨_, _, out, ho, hnone, hlen, _, hok⟩
      · obtain ⟨h1, h2, h3⟩ := hptr
        rw [h1, h2, h3] at hnull
        simp at hnull
      · obtain ⟨hret, hsome⟩ := hok hset hdup
        refine ⟨out, ho, ?_, ?_, fun _ => ⟨hnone, hlen⟩⟩
        · rw [hret]
          cases hE : out.error_out with
          | none => simp [hE] at hsome
          | some v => simp
        · rw [hret]
          cases hE : out.error_out with
          | none => simp [hE] at hsome
          | some v => simp
    · obtain ⟨_, out, ho, hret, herr, _⟩ := call_epilogue_returned env _ _ r he
      refine ⟨out, ho, ?_⟩
      apply outputs_shape
      · rw [hret]
        cases out.error_out <;> rfl
      · intro hne
        apply herr
        cases hE : out.error_out with
        | none => exact absurd hE hne
        | some v => rfl
  · intro hnull
    have hif : (!a.response_out || !a.response_len_out || !a.error_out) = true := by
      rcases hnull with h | h | h <;> simp [h]
    refine ⟨?_, ?_⟩
    · unfold hif_grpc_unary_call call_prologue
      rw [if_pos hif]
    · unfold Client.hif_grpc_unary_call
      rw [if_pos hif]

theorem return_code_matches_error_out_witness :
    (∃ r : CallResult,
      hif_grpc_unary_call echo_args
        (plain_env [quiet_iteration [.on_header 1 (lit "grpc-status") (lit "5") true] 5])
        = .returned r ∧
      ∃ out : Outputs, r.outputs = some out ∧
        (r.ret = 0 ↔ out.error_out = none) ∧ (r.ret = 1 ↔ out.error_out ≠ none) ∧
        (r.ret = 1 → out.response_out = none ∧ out.response_len_out = 0)) ∧
    hif_grpc_unary_call { echo_args with error_out := false } (plain_env [])
      = .returned { ret := 1, outputs := none, submitted := none, trace := [] } :=
  ⟨⟨_, rfl,
      ((return_code_matches_error_out echo_args
        (plain_env [quiet_iteration [.on_header 1 (lit "grpc-status") (lit "5") true] 5])
        { creds_ok := true, channel_ok := true, cq_ok := true, call_ok := true,
          auth_malloc_ok := true, call_error := 0, event_type := 2, event_success := 1,
          status := 0, status_details := none, response_payload := some [1, 2],
          reader_init_ok := true, buffer_malloc_ok := true, dup_cstring_ok := true }).1
        ⟨rfl, rfl, rfl⟩ rfl rfl rfl).1 _ rfl⟩,
    ((return_code_matches_error_out { echo_args with error_out := false } (plain_env [])
        { creds_ok := true, channel_ok := true, cq_ok := true, call_ok := true,
          auth_malloc_ok := true, call_error := 0, event_type := 2, event_success := 1,
          status := 0, status_details := none, response_payload := some [1, 2],
          reader_init_ok := true, buffer_malloc_ok := true, dup_cstring_ok := true }).2
        (Or.inr (Or.inr rfl))).1⟩

/-! ## The call: request headers -/

theorem request_headers_eq (host method : CStr) (auth_token : Option CStr) (use_tls : Int) :
    request_headers host method auth_token use_tls =
      [ { name := lit ":method", value := lit "POST" },
        { name := lit ":scheme", value := if use_tls ≠ 0 then lit "https" else lit "http" },
        { name := lit ":path", value := method },
        { name := lit ":authority", value := host.take 255 },
        { name := lit "content-type", value := lit "application/grpc" },
        { name := lit "te", value := lit "trailers" } ] ++
      (match auth_token with
       | some t =>
         if t ≠ [] then
           [{ name := lit "authorization", value := (lit "Bearer " ++ t).take 1023 }]
         else []
       | none => []) := by
  have e1 : (lit ":method").take 7 = lit ":method" := by decide
  have e2 : (lit "POST").take 4 = lit "POST" := by decide
  have e3 : (lit ":scheme").take 7 = lit ":scheme" := by decide
  have e4 : (lit "https").take 5 = lit "https" := by decide
  have e5 : (lit "http").take 4 = lit "http" := by decide
  have e6 : (lit ":path").take 5 = lit ":path" := by decide
  have e7 : (lit ":authority").take 10 = lit ":authority" := by decide
  have e8 : (lit "content-type").take 12 = lit "content-type" := by decide
  have e9 : (lit "application/grpc").take 16 = lit "application/grpc" := by decide
  have e10 : (lit "te").take 2 = lit "te" := by decide
  have e11 : (lit "trailers").take 8 = lit "trailers" := by decide
  have e12 : (lit "authorization").take 13 = lit "authorization" := by decide
  cases auth_token with
  | none =>
    by_cases h : use_tls = 0 <;>
      simp [request_headers, nv, snprintf_s, h, e1, e2, e3, e4, e5, e6, e7, e8, e9, e10, e11]
  | some t =>
    by_cases ht : t = [] <;> by_cases h : use_tls = 0 <;>
      simp [request_headers, nv, snprintf_s, h, ht, e1, e2, e3, e4, e5, e6, e7, e8, e9, e10,
        e11, e12]

theorem request_headers_spec (host method : CStr) (auth_token : Option CStr) (use_tls : Int) :
    ∃ authority authorization : CStr,
      request_headers host method auth_token use_tls =
        [ { name := lit ":method", value := lit "POST" },
          { name := lit ":scheme", value := if use_tls ≠ 0 then lit "https" else lit "http" },
          { name := lit ":path", value := method },
          { name := lit ":authority", value := authority },
          { name := lit "content-type", value := lit "application/grpc" },
          { name := lit "te", value := lit "trailers" } ] ++
        (match auth_token with
         | some t => if t ≠ [] then [{ name := lit "authorization", value := authorization }] else []
         | none => []) ∧
      ((request_headers host method auth_token use_tls).length = 6 ∨
        (request_headers host method auth_token use_tls).length = 7) ∧
      ∀ h ∈ request_headers host method auth_token use_tls, h.name ≠ lit "content-length" := by
  have n1 : lit ":method" ≠ lit "content-length" := by decide
  have n2 : lit ":scheme" ≠ lit "content-length" := by decide
  have n3 : lit ":path" ≠ lit "content-length" := by decide
  have n4 : lit ":authority" ≠ lit "content-length" := by decide
  have n5 : lit "content-type" ≠ lit "content-length" := by decide
  have n6 : lit "te" ≠ lit "content-length" := by decide
  have n7 : lit "authorization" ≠ lit "content-length" := by decide
  refine ⟨host.take 255, (lit "Bearer " ++ auth_token.getD []).take 1023, ?_, ?_, ?_⟩
  · rw [request_headers_eq]
    cases auth_token <;> rfl
  · rw [request_headers_eq]
    cases auth_token with
    | none => left; rfl
    | some t =>
      by_cases ht : t = []
      · left
        simp [ht]
      · right
        simp [ht]
  · rw [request_headers_eq]
    intro h hmem
    cases auth_token with
    | none =>
      simp only [List.append_nil, List.mem_cons, List.mem_singleton, List.not_mem_nil,
        or_false] at hmem
      rcases hmem with rfl | rfl | rfl | rfl | rfl | rfl <;> assumption
    | some t =>
      by_cases ht : t = []
      · simp only [ht, ne_eq, not_true_eq_false, if_false, List.append_nil, List.mem_cons,
          List.mem_singleton, List.not_mem_nil, or_false] at hmem
        rcases hmem with rfl | rfl | rfl | rfl | rfl | rfl <;> assumption
      · simp only [ht, ne_eq, not_false_eq_true, if_true, List.cons_append, List.nil_append,
          List.mem_cons, List.mem_singleton, List.not_mem_nil, or_false] at hmem
        rcases hmem with rfl | rfl | rfl | rfl | rfl | rfl | rfl <;> assumption

/-- Claim C8. The header list given to `nghttp2_submit_request` (reported by
every call that returns after submitting, and entering the loop otherwise) is,
in this order, `:method = POST`, `:scheme = https` for non-zero `use_tls` and
`http` otherwise, `:path` = the method argument, `:authority`,
`content-type = application/grpc`, `te = trailers`, followed by
`authorization` exactly when the token is non-null and non-empty; it has 6 or
7 entries and none is named `content-length`. -/
theorem submitted_header_list (a : Args) (env : Env) (hs : List Header)
    (h : (∃ r : CallResult, hif_grpc_unary_call a env = .returned r ∧ r.submitted = some hs) ∨
      (∃ entry : LoopEntry, call_prologue a env = .inr entry ∧ entry.headers = hs)) :
    ∃ authority authorization : CStr,
      hs =
        [ { name := lit ":method", value := lit "POST" },
          { name := lit ":scheme", value := if a.use_tls ≠ 0 then lit "https" else lit "http" },
          { name := lit ":path", value := a.method },
          { name := lit ":authority", value := authority },
          { name := lit "content-type", value := lit "application/grpc" },
          { name := lit "te", value := lit "trailers" } ] ++
        (match a.auth_token with
         | some t => if t ≠ [] then [{ name := lit "authorization", value := authorization }] else []
         | none => []) ∧
      (hs.length = 6 ∨ hs.length = 7) ∧
      ∀ x ∈ hs, x.name ≠ lit "content-length" := by
  have key : hs = request_headers a.host a.method a.auth_token a.use_tls := by
    rcases h with ⟨r, hr, hsub⟩ | ⟨entry, hp, he⟩
    · rcases call_returned_cases a env r hr with hp | ⟨entry, hp, hep⟩
      · rcases (call_prologue_cases a env).1 r hp with ⟨_, hr'⟩ | ⟨_, hsub', _⟩
        · rw [hr'] at hsub
          cases hsub
        · rcases hsub' with hn | hn
          · rw [hn] at hsub
            cases hsub
          · rw [hn] at hsub
            cases hsub
            rfl
      · have h1 := (call_epilogue_returned env _ _ r hep).1
        have h2 := ((call_prologue_cases a env).2 entry hp).2
        rw [h1, h2] at hsub
        cases hsub
        rfl
    · rw [← he]
      exact ((call_prologue_cases a env).2 entry hp).2
  rw [key]
  exact request_headers_spec a.host a.method a.auth_token a.use_tls

theorem submitted_header_list_witness :
    ∃ authority authorization : CStr,
      request_headers (lit "localhost") (lit "/echo.Echo/Unary") (some (lit "tok")) 1 =
        [ { name := lit ":method", value := lit "POST" },
          { name := lit ":scheme", value := if (1 : Int) ≠ 0 then lit "https" else lit "http" },
          { name := lit ":path", value := lit "/echo.Echo/Unary" },
          { name := lit ":authority", value := authority },
          { name := lit "content-type", value := lit "application/grpc" },
          { name := lit "te", value := lit "trailers" } ] ++
        (match (some (lit "tok") : Option CStr) with
         | some t => if t ≠ [] then [{ name := lit "authorization", value := authorization }] else []
         | none => []) ∧
      ((request_headers (lit "localhost") (lit "/echo.Echo/Unary") (some (lit "tok")) 1).length = 6 ∨
        (request_headers (lit "localhost") (lit "/echo.Echo/Unary") (some (lit "tok")) 1).length
          = 7) ∧
      ∀ x ∈ request_headers (lit "localhost") (lit "/echo.Echo/Unary") (some (lit "tok")) 1,
        x.name ≠ lit "content-length" :=
  submitted_header_list { echo_args with auth_token := some (lit "tok"), use_tls := 1 }
    (plain_env [quiet_iteration [.on_stream_close 1] 10])
    (request_headers (lit "localhost") (lit "/echo.Echo/Unary") (some (lit "tok")) 1)
    (Or.inl ⟨_, rfl, rfl⟩)

/-! ## Header values of long strings -/

/-- The `client.c` implementation sizes the buffer by the token, so its
`authorization` value is `"Bearer "` followed by the whole token. -/
theorem client_authorization_full (a : Args) (e : ClientEnv) (t : CStr)
    (ht : a.auth_token = some t) (hne : t ≠ [])
    (hptr : a.response_out = true ∧ a.response_len_out = true ∧ a.error_out = true)
    (hok : e.creds_ok = true ∧ e.channel_ok = true ∧ e.cq_ok = true ∧ e.call_ok = true ∧
      e.auth_malloc_ok = true) :
    (Client.hif_grpc_unary_call a e).metadata
      = [{ name := lit "authorization", value := lit "Bearer " ++ t }] := by
  obtain ⟨h1, h2, h3⟩ := hptr
  obtain ⟨k1, k2, k3, k4, k5⟩ := hok
  have hB : (lit "Bearer ").length = 7 := by decide
  have hl : snprintf_s (t.length + 8) (lit "Bearer ") t = lit "Bearer " ++ t := by
    unfold snprintf_s
    apply List.take_of_length_le
    simp only [List.length_append, hB]
    omega
  unfold Client.hif_grpc_unary_call
  simp [h1, h2, h3, k1, k2, k3, k4, k5, ht, hne, hl]

/-- Claim C9, failing input. For a host of 256 bytes the `:authority` value
built by `http2_client.c` is only its first 255 bytes, and for a token of 1017
bytes the `authorization` value is `"Bearer "` followed by only 1016 of them:
neither carries the caller's string in full. -/
theorem long_header_values_truncated :
    (request_headers (List.replicate 256 97) (lit "/a/b") (some (List.replicate 1017 98)) 0).get? 3
      = some { name := lit ":authority", value := List.replicate 255 97 } ∧
    (request_headers (List.replicate 256 97) (lit "/a/b") (some (List.replicate 1017 98)) 0).get? 6
      = some { name := lit "authorization", value := lit "Bearer " ++ List.replicate 1016 98 } ∧
    (List.replicate 255 97 : CStr) ≠ List.replicate 256 97 ∧
    (lit "Bearer " ++ List.replicate 1016 98 : CStr) ≠ lit "Bearer " ++ List.replicate 1017 98 := by
  have hB : (lit "Bearer ").length = 7 := by decide
  have e1 : (List.replicate 256 (97 : Byte)).take 255 = List.replicate 255 97 := by
    rw [List.take_replicate]
    rfl
  have e2 : (lit "Bearer " ++ List.replicate 1017 (98 : Byte)).take 1023
      = lit "Bearer " ++ List.replicate 1016 98 := by
    rw [List.take_append_eq_append_take, hB, List.take_replicate,
      List.take_of_length_le (by rw [hB]; omega)]
    rfl
  have hne : (List.replicate 1017 (98 : Byte)) ≠ [] := by
    intro h
    have := congrArg List.length h
    rw [List.length_replicate] at this
    cases this
  refine ⟨?_, ?_, ?_, ?_⟩
  · rw [request_headers_eq, e1]
    rfl
  · rw [request_headers_eq]
    simp only [hne, ne_eq, not_false_eq_true, if_true, e2]
    rfl
  · intro h
    have := congrArg List.length h
    simp only [List.length_replicate] at this
    cases this
  · intro h
    have := congrArg List.length h
    simp only [List.length_append, List.length_replicate] at this
    omega

/-! ## The hard deadline -/

theorem send_recv_loop_timeout (strerror : Int → CStr) (start_time : Timespec)
    (c : grpc_connection) (it : Iteration) (post : List Iteration)
    (hc : c.response_complete = 0)
    (hsend : (nghttp2_session_run c it.send_callbacks it.send_ret).1 = 0)
    (hrecv : (nghttp2_session_run (nghttp2_session_run c it.send_callbacks it.send_ret).2
      it.recv_callbacks it.recv_ret).1 = 0)
    (hbuf : (nghttp2_session_run (nghttp2_session_run c it.send_callbacks it.send_ret).2
      it.recv_callbacks it.recv_ret).2.response_len = 0)
    (hel : elapsed_ms start_time it.now > 10000) :
    send_recv_loop strerror start_time c (it :: post)
      = .failed (nghttp2_session_run (nghttp2_session_run c it.send_callbacks it.send_ret).2
          it.recv_callbacks it.recv_ret).2 (lit "gRPC request timed out") := by
  have hEOF : (0 : Int) ≠ NGHTTP2_ERR_EOF := by decide
  simp only [send_recv_loop]
  rw [if_neg (by simp [hc]), if_neg (by simp [hsend]), if_neg (by simp [hrecv]),
    if_neg (by rw [hrecv]; exact hEOF), if_neg (by simp [hbuf]), if_pos hel]

/-- Claim C10, amended. An iteration of the send/receive loop that starts with
the response not complete, in which sending and receiving report no error and
no end of file, and after which more than 10000 ms have elapsed and no
response byte is buffered, ends the call with return value `1`, no response
and the error message `"gRPC request timed out"` (the error string being
duplicated successfully). -/
theorem hard_deadline_timeout (a : Args) (env : Env) (entry : LoopEntry)
    (pre : List Iteration) (it : Iteration) (post : List Iteration) (c : grpc_connection)
    (hp : call_prologue a env = .inr entry)
    (hits : env.iterations = pre ++ it :: post)
    (hpre : send_recv_loop env.nghttp2_strerror env.start_time entry.conn pre = .pending c)
    (hsend : (nghttp2_session_run c it.send_callbacks it.send_ret).1 = 0)
    (hrecv : (nghttp2_session_run (nghttp2_session_run c it.send_callbacks it.send_ret).2
      it.recv_callbacks it.recv_ret).1 = 0)
    (hbuf : (nghttp2_session_run (nghttp2_session_run c it.send_callbacks it.send_ret).2
      it.recv_callbacks it.recv_ret).2.response_len = 0)
    (hel : elapsed_ms env.start_time it.now > 10000)
    (hdup : env.dup_string_ok = true) :
    c.response_complete = 0 ∧
    ∃ r : CallResult, hif_grpc_unary_call a env = .returned r ∧ r.ret = 1 ∧
      r.outputs = some
        { response_out := none, response_len_out := 0,
          error_out := some (lit "gRPC request timed out") } := by
  obtain ⟨happ, hc⟩ := send_recv_loop_append env.nghttp2_strerror env.start_time pre
    (it :: post) entry.conn c hpre
  refine ⟨hc, ?_⟩
  have hcall := call_of_loop_entry a env entry hp
  rw [hits, happ,
    send_recv_loop_timeout env.nghttp2_strerror env.start_time c it post hc hsend hrecv hbuf hel]
    at hcall
  simp only [call_epilogue, dup_string, hdup, if_true] at hcall
  exact ⟨_, hcall, rfl, rfl⟩

theorem hard_deadline_timeout_witness :
    ∃ r : CallResult,
      hif_grpc_unary_call echo_args
        (plain_env [quiet_iteration [] 5000, quiet_iteration [] 10001, quiet_iteration [] 10002])
        = .returned r ∧
      r.ret = 1 ∧
      r.outputs = some
        { response_out := none, response_len_out := 0,
          error_out := some (lit "gRPC request timed out") } :=
  (hard_deadline_timeout echo_args
    (plain_env [quiet_iteration [] 5000, quiet_iteration [] 10001, quiet_iteration [] 10002])
    _ [quiet_iteration [] 5000] (quiet_iteration [] 10001) [quiet_iteration [] 10002] _
    rfl rfl rfl rfl rfl rfl (by decide) rfl).2

/-- Claim C10, counterexample. At exactly 10000 ms elapsed with nothing
buffered and the response not complete the loop simply goes on (here the
stream is closed in the next iteration and the call returns `0`); and at
20000 ms elapsed with one response byte buffered the loop is left through the
soft deadline, so the call fails with the parse error, not the timeout error. -/
theorem hard_deadline_not_reported :
    elapsed_ms { tv_sec := 100, tv_nsec := 0 } (quiet_iteration [] 10000).now = 10000 ∧
    (∃ r : CallResult,
      hif_grpc_unary_call echo_args
        (plain_env [quiet_iteration [] 10000, quiet_iteration [.on_stream_close 1] 10000])
        = .returned r ∧
      r.ret = 0 ∧
      r.outputs = some { response_out := none, response_len_out := 0, error_out := none }) ∧
    elapsed_ms { tv_sec := 100, tv_nsec := 0 }
      (quiet_iteration [.on_data_chunk_recv 1 [0] true] 20000).now = 20000 ∧
    (∃ r : CallResult,
      hif_grpc_unary_call echo_args
        (plain_env [quiet_iteration [.on_data_chunk_recv 1 [0] true] 20000]) = .returned r ∧
      r.ret = 1 ∧
      r.outputs = some
        { response_out := none, response_len_out := 0,
          error_out := some (lit "Failed to parse gRPC response") } ∧
      lit "Failed to parse gRPC response" ≠ lit "gRPC request timed out") :=
  ⟨by decide, ⟨_, rfl, by decide, by decide⟩, by decide, ⟨_, rfl, by decide, by decide, by decide⟩⟩

/-! ## The soft deadline -/

theorem send_recv_loop_soft (strerror : Int → CStr) (start_time : Timespec)
    (c : grpc_connection) (it : Iteration) (rest : List Iteration)
    (hc : c.response_complete = 0)
    (hsend : (nghttp2_session_run c it.send_callbacks it.send_ret).1 = 0)
    (hrecv : (nghttp2_session_run (nghttp2_session_run c it.send_callbacks it.send_ret).2
      it.recv_callbacks it.recv_ret).1 = 0) :
    (elapsed_ms start_time it.now > 3000 →
      (nghttp2_session_run (nghttp2_session_run c it.send_callbacks it.send_ret).2
        it.recv_callbacks it.recv_ret).2.response_len > 0 →
      send_recv_loop strerror start_time c (it :: rest)
        = .done { (nghttp2_session_run (nghttp2_session_run c it.send_callbacks it.send_ret).2
            it.recv_callbacks it.recv_ret).2 with response_complete := 1 }) ∧
    (elapsed_ms start_time it.now ≤ 10000 →
      (nghttp2_session_run (nghttp2_session_run c it.send_callbacks it.send_ret).2
        it.recv_callbacks it.recv_ret).2.response_len = 0 →
      send_recv_loop strerror start_time c (it :: rest)
        = send_recv_loop strerror start_time
            (nghttp2_session_run (nghttp2_session_run c it.send_callbacks it.send_ret).2
              it.recv_callbacks it.recv_ret).2 rest) := by
  have hEOF : (0 : Int) ≠ NGHTTP2_ERR_EOF := by decide
  refine ⟨?_, ?_⟩
  · intro hel hbuf
    simp only [send_recv_loop]
    rw [if_neg (by simp [hc]), if_neg (by simp [hsend]), if_neg (by simp [hrecv]),
      if_neg (by rw [hrecv]; exact hEOF), if_pos ⟨hel, hbuf⟩]
    cases rest <;> simp [send_recv_loop]
  · intro hel hbuf
    simp only [send_recv_loop]
    rw [if_neg (by simp [hc]), if_neg (by simp [hsend]), if_neg (by simp [hrecv]),
      if_neg (by rw [hrecv]; exact hEOF), if_neg (by simp [hbuf]), if_neg (by omega)]

/-- Claim C11, amended. In an iteration of the send/receive loop that starts
with the response not complete and in which sending and receiving report no
error and no end of file: when more than 3000 ms have elapsed and at least
one response byte is buffered, the loop marks the response complete and
stops; when no response byte is buffered and the hard deadline is not
exceeded, nothing is marked and the loop goes on with the state the
callbacks left. -/
theorem soft_deadline (strerror : Int → CStr) (start_time : Timespec)
    (c : grpc_connection) (it : Iteration) (rest : List Iteration)
    (hc : c.response_complete = 0)
    (hsend : (nghttp2_session_run c it.send_callbacks it.send_ret).1 = 0)
    (hrecv : (nghttp2_session_run (nghttp2_session_run c it.send_callbacks it.send_ret).2
      it.recv_callbacks it.recv_ret).1 = 0) :
    (elapsed_ms start_time it.now > 3000 →
      (nghttp2_session_run (nghttp2_session_run c it.send_callbacks it.send_ret).2
        it.recv_callbacks it.recv_ret).2.response_len > 0 →
      send_recv_loop strerror start_time c (it :: rest)
        = .done { (nghttp2_session_run (nghttp2_session_run c it.send_callbacks it.send_ret).2
            it.recv_callbacks it.recv_ret).2 with response_complete := 1 }) ∧
    (elapsed_ms start_time it.now ≤ 10000 →
      (nghttp2_session_run (nghttp2_session_run c it.send_callbacks it.send_ret).2
        it.recv_callbacks it.recv_ret).2.response_len = 0 →
      send_recv_loop strerror start_time c (it :: rest)
        = send_recv_loop strerror start_time
            (nghttp2_session_run (nghttp2_session_run c it.send_callbacks it.send_ret).2
              it.recv_callbacks it.recv_ret).2 rest) :=
  send_recv_loop_soft strerror start_time c it rest hc hsend hrecv

theorem soft_deadline_witness :
    (∃ c : grpc_connection,
      send_recv_loop (fun _ => []) { tv_sec := 100, tv_nsec := 0 } (conn_init 0)
        [quiet_iteration [.on_data_chunk_recv 0 [0] true] 3001, quiet_iteration [] 3002]
        = .done c ∧ c.response_complete = 1 ∧ c.response_len = 1) ∧
    send_recv_loop (fun _ => []) { tv_sec := 100, tv_nsec := 0 } (conn_init 0)
        [quiet_iteration [] 9000, quiet_iteration [] 9500]
      = send_recv_loop (fun _ => []) { tv_sec := 100, tv_nsec := 0 } (conn_init 0)
        [quiet_iteration [] 9500] :=
  ⟨⟨_, (soft_deadline (fun _ => []) { tv_sec := 100, tv_nsec := 0 } (conn_init 0)
      (quiet_iteration [.on_data_chunk_recv 0 [0] true] 3001) [quiet_iteration [] 3002]
      rfl rfl rfl).1 (by decide) (by decide), rfl, rfl⟩,
   (soft_deadline (fun _ => []) { tv_sec := 100, tv_nsec := 0 } (conn_init 0)
      (quiet_iteration [] 9000) [quiet_iteration [] 9500] rfl rfl rfl).2 (by decide) rfl⟩

/-- Claim C11, counterexample. At exactly 3000 ms elapsed with one response
byte buffered the loop does not mark the response complete and does not stop:
after that iteration it is still running with `response_complete = 0`. -/
theorem soft_deadline_not_at_3000 :
    elapsed_ms { tv_sec := 100, tv_nsec := 0 }
      (quiet_iteration [.on_data_chunk_recv 0 [0] true] 3000).now = 3000 ∧
    ∃ c : grpc_connection,
      send_recv_loop (fun _ => []) { tv_sec := 100, tv_nsec := 0 } (conn_init 0)
        [quiet_iteration [.on_data_chunk_recv 0 [0] true] 3000] = .pending c ∧
      c.response_len = 1 ∧ c.response_complete = 0 :=
  ⟨by decide, _, rfl, by decide, by decide⟩

/-! ## Target parsing -/

theorem strrchr_none (s : CStr) (c : Byte) (h : c ∉ s) : strrchr s c = none := by
  induction s with
  | nil => rfl
  | cons x xs ih =>
    simp only [List.mem_cons, not_or] at h
    simp only [strrchr, ih h.2]
    rw [if_neg (fun e => h.1 e.symm)]

theorem strrchr_last (pre post : CStr) (c : Byte) (h : c ∉ post) :
    strrchr (pre ++ c :: post) c = some pre.length := by
  induction pre with
  | nil =>
    simp only [List.nil_append, strrchr, strrchr_none post c h, List.length_nil]
    simp
  | cons x xs ih =>
    show strrchr (x :: (xs ++ c :: post)) c = some (xs.length + 1)
    simp only [strrchr, ih]

theorem atoi_digits_decimal (cs : CStr) (h : ∀ c ∈ cs, 48 ≤ c.val ∧ c.val ≤ 57) :
    ∀ acc : Nat, atoi_digits cs acc
      = acc * 10 ^ cs.length + Nat.ofDigits 10 (cs.reverse.map (fun c => c.val - 48)) := by
  induction cs with
  | nil =>
    intro acc
    simp [atoi_digits]
  | cons c cs ih =>
    intro acc
    have hc := h c (List.mem_cons_self c cs)
    have hd : isdigit c = true := by simp [isdigit, hc.1, hc.2]
    simp only [atoi_digits, hd, if_true]
    rw [ih (fun x hx => h x (List.mem_cons_of_mem c hx))]
    simp only [List.reverse_cons, List.map_append, List.map_cons, List.map_nil,
      Nat.ofDigits_append, Nat.ofDigits_singleton, List.length_map, List.length_reverse,
      List.length_cons]
    ring

theorem atoi_decimal (post : CStr) (hne : post ≠ [])
    (h : ∀ c ∈ post, 48 ≤ c.val ∧ c.val ≤ 57)
    (hr : Nat.ofDigits 10 (post.reverse.map (fun c => c.val - 48)) < 2 ^ 31) :
    atoi post = ((Nat.ofDigits 10 (post.reverse.map (fun c => c.val - 48)) : Nat) : Int) := by
  cases post with
  | nil => exact absurd rfl hne
  | cons c cs =>
    have hc := h c (List.mem_cons_self c cs)
    have hsp : isspace c = false := by
      simp only [isspace, Bool.or_eq_false_iff, decide_eq_false_iff_not, Bool.and_eq_false_imp,
        decide_eq_true_eq]
      omega
    have hv := atoi_digits_decimal (c :: cs) h 0
    simp only [Nat.zero_mul, Nat.zero_add] at hv
    unfold atoi
    simp only [List.dropWhile_cons, hsp, Bool.false_eq_true, if_false]
    rw [if_neg (by omega), if_neg (by omega), hv]
    unfold to_int
    omega


/-- Claim C12. Target parsing: a target without `:` is passed on whole as the
host, with port 443 for a non-zero `use_tls` and 80 otherwise; a target with
`:` is split at its last `:`, the host is the text before it and the port is
`atoi` of the text after it, which for a non-empty text of decimal digits
(with a value that fits an `int`) is the decimal value of that text. -/
theorem target_parsing (target : CStr) (use_tls : Int) :
    ((58 : Byte) ∉ target →
      parse_target target use_tls = (target, if use_tls ≠ 0 then 443 else 80)) ∧
    (∀ pre post : CStr, target = pre ++ 58 :: post → (58 : Byte) ∉ post →
      (parse_target target use_tls).1 = pre ∧
      (parse_target target use_tls).2 = atoi post ∧
      (post ≠ [] → (∀ c ∈ post, 48 ≤ c.val ∧ c.val ≤ 57) →
        Nat.ofDigits 10 (post.reverse.map (fun c => c.val - 48)) < 2 ^ 31 →
        (parse_target target use_tls).2
          = ((Nat.ofDigits 10 (post.reverse.map (fun c => c.val - 48)) : Nat) : Int))) := by
  refine ⟨?_, ?_⟩
  · intro h
    simp only [parse_target, strrchr_none target 58 h]
  · intro pre post ht hpost
    have hs : strrchr target 58 = some pre.length := by
      rw [ht]
      exact strrchr_last pre post 58 hpost
    have h1 : (parse_target target use_tls).1 = pre := by
      simp only [parse_target, hs]
      rw [ht, List.take_left']
      rfl
    have h2 : (parse_target target use_tls).2 = atoi post := by
      simp only [parse_target, hs]
      rw [ht]
      congr 1
      have : pre.length + 1 = (pre ++ [58]).length := by simp
      rw [this, show pre ++ 58 :: post = (pre ++ [58]) ++ post by simp, List.drop_left]
    refine ⟨h1, h2, ?_⟩
    intro hne hdig hr
    rw [h2]
    exact atoi_decimal post hne hdig hr

theorem target_parsing_witness :
    parse_target (lit "localhost") 1 = (lit "localhost", 443) ∧
    parse_target (lit "localhost") 0 = (lit "localhost", 80) ∧
    (parse_target (lit "[::1]:443") 0).1 = lit "[::1]" ∧
    (parse_target (lit "[::1]:443") 0).2 = 443 := by
  have hd : (lit "443").reverse.map (fun c => c.val - 48) = [3, 4, 4] := by decide
  have hdig : ∀ c ∈ lit "443", 48 ≤ c.val ∧ c.val ≤ 57 := by
    rw [show lit "443" = [52, 52, 51] by decide]
    intro c hc
    simp only [List.mem_cons, List.mem_singleton, List.not_mem_nil, or_false] at hc
    rcases hc with rfl | rfl | rfl <;> decide
  have h := (target_parsing (lit "[::1]:443") 0).2 (lit "[::1]") (lit "443") (by decide)
    (by decide)
  refine ⟨(target_parsing (lit "localhost") 1).1 (by decide),
    (target_parsing (lit "localhost") 0).1 (by decide), h.1, ?_⟩
  rw [h.2.2 (by decide) hdig (by rw [hd]; norm_num [Nat.ofDigits]), hd]
  norm_num [Nat.ofDigits]

/-! ## The request data provider -/

theorem data_source_read_step (c : grpc_connection) (size : Nat)
    (hd : c.request_len = c.request_data.length) (hs : c.request_sent ≤ c.request_len)
    (hn : c.request_len < SIZE_MOD) :
    (data_source_read_callback c size).ret = min (c.request_len - c.request_sent) size ∧
    (data_source_read_callback c size).buf
      = (c.request_data.drop c.request_sent).take (data_source_read_callback c size).ret ∧
    (data_source_read_callback c size).conn.request_sent
      = c.request_sent + (data_source_read_callback c size).ret ∧
    (data_source_read_callback c size).conn.request_sent ≤ c.request_len ∧
    ((data_source_read_callback c size).eof = true ↔
      (data_source_read_callback c size).conn.request_sent = c.request_len) ∧
    (data_source_read_callback c size).conn.request_data = c.request_data ∧
    (data_source_read_callback c size).conn.request_len = c.request_len := by
  have hrem : (c.request_len + SIZE_MOD - c.request_sent) % SIZE_MOD
      = c.request_len - c.request_sent := by
    unfold SIZE_MOD at hn ⊢
    omega
  have hret : (data_source_read_callback c size).ret = min (c.request_len - c.request_sent) size := by
    simp only [data_source_read_callback, hrem]
    split_ifs <;> omega
  have hsent : (data_source_read_callback c size).conn.request_sent
      = c.request_sent + (data_source_read_callback c size).ret := by
    have h1 : (data_source_read_callback c size).conn.request_sent
        = (c.request_sent + (data_source_read_callback c size).ret) % SIZE_MOD := rfl
    rw [h1, hret]
    unfold SIZE_MOD at hn ⊢
    omega
  refine ⟨hret, rfl, hsent, ?_, ?_, rfl, rfl⟩
  · rw [hsent, hret]
    omega
  · have h1 : (data_source_read_callback c size).eof
        = decide ((data_source_read_callback c size).conn.request_sent ≥ c.request_len) := rfl
    rw [h1, decide_eq_true_eq, hsent, hret]
    omega

theorem after_reads_append (c : grpc_connection) (pre rest : List Nat) :
    after_reads c (pre ++ rest) = after_reads (after_reads c pre) rest := by
  induction pre generalizing c with
  | nil => rfl
  | cons x xs ih => exact ih _

theorem data_reads_sequence (sizes : List Nat) :
    ∀ c : grpc_connection, c.request_len = c.request_data.length →
      c.request_sent ≤ c.request_len → c.request_len < SIZE_MOD →
      (after_reads c sizes).request_data = c.request_data ∧
      (after_reads c sizes).request_len = c.request_len ∧
      (after_reads c sizes).request_sent ≤ c.request_len ∧
      (after_reads c sizes).request_sent
        = c.request_sent + ((data_reads c sizes).map (fun r => r.ret)).sum ∧
      ((data_reads c sizes).map (fun r => r.buf)).flatten
        = (c.request_data.drop c.request_sent).take
            ((after_reads c sizes).request_sent - c.request_sent) := by
  induction sizes with
  | nil =>
    intro c _ hs _
    simp [after_reads, data_reads, hs]
  | cons size rest ih =>
    intro c hd hs hn
    obtain ⟨hret, hbuf, hsent, hle, _, hdata, hlen⟩ := data_source_read_step c size hd hs hn
    obtain ⟨i1, i2, i3, i4, i5⟩ := ih (data_source_read_callback c size).conn
      (by rw [hlen, hdata]; exact hd) (by rw [hlen]; exact hle) (by rw [hlen]; exact hn)
    simp only [after_reads, data_reads, List.map_cons, List.sum_cons, List.flatten_cons]
    refine ⟨by rw [i1, hdata], by rw [i2, hlen], by rw [← hlen]; exact i3, by rw [i4, hsent]; omega,
      ?_⟩
    rw [i5, hbuf, hdata, hsent]
    have hge : c.request_sent + (data_source_read_callback c size).ret
        ≤ (after_reads (data_source_read_callback c size).conn rest).request_sent := by
      rw [i4, hsent]
      omega
    generalize (data_source_read_callback c size).ret = k at *
    generalize (after_reads (data_source_read_callback c size).conn rest).request_sent = m at *
    rw [← List.drop_drop, ← List.take_add]
    congr 1
    omega


/-- Claim C16. Starting with the cursor at 0 over a framed request of
`request_len` bytes, for every sequence of calls of
`data_source_read_callback`: each call copies `min(remaining, size)` bytes
starting at the cursor and advances the cursor by that amount, the cursor
never exceeds `request_len`, the EOF flag is set by exactly the calls after
which the cursor equals `request_len`, and the chunks handed out concatenate
to the prefix of the request of the length handed out so far, which is the
whole request once `request_len` bytes have been handed out. -/
theorem request_data_provider (c0 : grpc_connection) (sizes : List Nat)
    (h0 : c0.request_sent = 0) (hlen : c0.request_len = c0.request_data.length)
    (hn : c0.request_len < SIZE_MOD) :
    (∀ (pre : List Nat) (size : Nat) (post : List Nat), sizes = pre ++ size :: post →
      (after_reads c0 pre).request_sent ≤ c0.request_len ∧
      (data_source_read_callback (after_reads c0 pre) size).ret
        = min (c0.request_len - (after_reads c0 pre).request_sent) size ∧
      (data_source_read_callback (after_reads c0 pre) size).buf
        = (c0.request_data.drop (after_reads c0 pre).request_sent).take
            (data_source_read_callback (after_reads c0 pre) size).ret ∧
      (data_source_read_callback (after_reads c0 pre) size).conn.request_sent
        = (after_reads c0 pre).request_sent
            + (data_source_read_callback (after_reads c0 pre) size).ret ∧
      (data_source_read_callback (after_reads c0 pre) size).conn.request_sent ≤ c0.request_len ∧
      ((data_source_read_callback (after_reads c0 pre) size).eof = true ↔
        (data_source_read_callback (after_reads c0 pre) size).conn.request_sent
          = c0.request_len)) ∧
    (after_reads c0 sizes).request_sent = ((data_reads c0 sizes).map (fun r => r.ret)).sum ∧
    ((data_reads c0 sizes).map (fun r => r.buf)).flatten
      = c0.request_data.take (after_reads c0 sizes).request_sent ∧
    ((after_reads c0 sizes).request_sent = c0.request_len →
      ((data_reads c0 sizes).map (fun r => r.buf)).flatten = c0.request_data) := by
  have hs0 : c0.request_sent ≤ c0.request_len := by omega
  obtain ⟨_, _, _, hsum, hcat⟩ := data_reads_sequence sizes c0 hlen hs0 hn
  rw [h0] at hsum hcat
  simp only [Nat.zero_add, Nat.sub_zero, List.drop_zero] at hsum hcat
  refine ⟨?_, hsum, hcat, ?_⟩
  · intro pre size post _
    obtain ⟨p1, p2, p3, _, _⟩ := data_reads_sequence pre c0 hlen hs0 hn
    obtain ⟨q1, q2, q3, q4, q5, _, _⟩ := data_source_read_step (after_reads c0 pre) size
      (by rw [p2, p1]; exact hlen) (by rw [p2]; exact p3) (by rw [p2]; exact hn)
    rw [p2] at q1 q4 q5
    rw [p1] at q2
    exact ⟨p3, q1, q2, q3, q4, q5⟩
  · intro hall
    rw [hcat, hall, hlen, List.take_length]

theorem request_data_provider_witness :
    (after_reads { conn_init 0 with request_data := [0, 0, 0, 0, 2, 1, 2], request_len := 7 }
        [3, 3, 3]).request_sent
      = ((data_reads { conn_init 0 with request_data := [0, 0, 0, 0, 2, 1, 2], request_len := 7 }
          [3, 3, 3]).map (fun r => r.ret)).sum ∧
    ((data_reads { conn_init 0 with request_data := [0, 0, 0, 0, 2, 1, 2], request_len := 7 }
        [3, 3, 3]).map (fun r => r.buf)).flatten = [0, 0, 0, 0, 2, 1, 2] ∧
    (data_reads { conn_init 0 with request_data := [0, 0, 0, 0, 2, 1, 2], request_len := 7 }
        [3, 3, 3]).map (fun r => (r.ret, r.eof)) = [(3, false), (3, false), (1, true)] :=
  ⟨(request_data_provider
      { conn_init 0 with request_data := [0, 0, 0, 0, 2, 1, 2], request_len := 7 } [3, 3, 3]
      rfl rfl (by decide)).2.1,
   (request_data_provider
      { conn_init 0 with request_data := [0, 0, 0, 0, 2, 1, 2], request_len := 7 } [3, 3, 3]
      rfl rfl (by decide)).2.2.2 (by decide),
   by decide⟩

/-! ## The receive buffer -/

theorem data_chunk_other_stream (c : grpc_connection) (sid : Int) (data : List Byte)
    (ok : Bool) (h : sid ≠ c.request_stream_id) :
    on_data_chunk_recv_callback c sid data ok = (0, c) := by
  unfold on_data_chunk_recv_callback
  rw [if_pos h]

/-- The fields of the connection after `on_data_chunk_recv_callback` has
stored a chunk of the request stream. -/
theorem data_chunk_fields (c : grpc_connection) (data : List Byte) :
    (on_data_chunk_recv_callback c c.request_stream_id data true).1 = 0 ∧
    (on_data_chunk_recv_callback c c.request_stream_id data true).2.request_stream_id
      = c.request_stream_id ∧
    (on_data_chunk_recv_callback c c.request_stream_id data true).2.response_len
      = (c.response_len + data.length) % SIZE_MOD ∧
    (on_data_chunk_recv_callback c c.request_stream_id data true).2.response_capacity
      = (if (c.response_len + data.length) % SIZE_MOD > c.response_capacity then
          max (max ((c.response_capacity * 2) % SIZE_MOD)
            ((c.response_len + data.length) % SIZE_MOD)) 4096
         else c.response_capacity) ∧
    (on_data_chunk_recv_callback c c.request_stream_id data true).2.response_data
      = (if (c.response_len + data.length) % SIZE_MOD > c.response_capacity then
          some ((c.response_data.getD []).take c.response_len ++ data)
         else c.response_data.map (fun buf => buf.take c.response_len ++ data)) := by
  unfold on_data_chunk_recv_callback
  rw [if_neg (by simp)]
  by_cases hg : (c.response_len + data.length) % SIZE_MOD > c.response_capacity
  · simp only [hg, if_true]
    refine ⟨trivial, ?_, ?_, ?_, ?_⟩
    · split_ifs <;> rfl
    · split_ifs <;> rfl
    · have hcap : ∀ a b : Nat, (if (if a < b then b else a) < 4096 then 4096
          else (if a < b then b else a)) = max (max a b) 4096 := by
        intro a b
        split_ifs <;> omega
      rw [← hcap]
      split_ifs <;> rfl
    · split_ifs <;> rfl
  · simp only [hg, if_false]
    refine ⟨trivial, ?_, ?_, ?_, ?_⟩ <;> split_ifs <;> rfl


/-- The declared total and the completion flag after
`on_data_chunk_recv_callback` has stored a chunk of the request stream, in
terms of the buffer it leaves. -/
theorem data_chunk_expected (c : grpc_connection) (data : List Byte) :
    (on_data_chunk_recv_callback c c.request_stream_id data true).2.response_expected_len
      = (if c.response_expected_len = 0 ∧
            (on_data_chunk_recv_callback c c.request_stream_id data true).2.response_len
              ≥ GRPC_HEADER_SIZE then
          (GRPC_HEADER_SIZE + read_be32
            ((on_data_chunk_recv_callback c c.request_stream_id data true).2.response_data.getD
              [])) % UINT32_MOD
         else c.response_expected_len) ∧
    (on_data_chunk_recv_callback c c.request_stream_id data true).2.response_complete
      = (if (on_data_chunk_recv_callback c c.request_stream_id data true).2.response_expected_len
              > 0 ∧
            (on_data_chunk_recv_callback c c.request_stream_id data true).2.response_len
              ≥ (on_data_chunk_recv_callback c c.request_stream_id data
                  true).2.response_expected_len then 1
         else c.response_complete) := by
  unfold on_data_chunk_recv_callback
  rw [if_neg (by simp)]
  by_cases hg : (c.response_len + data.length) % SIZE_MOD > c.response_capacity
  · simp only [hg, if_true]
    refine ⟨?_, ?_⟩ <;> split_ifs <;> rfl
  · simp only [hg, if_false]
    refine ⟨?_, ?_⟩ <;> split_ifs <;> rfl


/-- One chunk of the request stream, stored without `size_t` overflow into a
buffer that satisfies the invariant: what the step does and that the
invariant holds again. -/
theorem data_chunk_step (c : grpc_connection) (data : List Byte)
    (hI1 : c.response_len ≤ c.response_capacity)
    (hI2 : c.response_capacity = 0 ∨ 4096 ≤ c.response_capacity)
    (hI3 : (c.response_data.getD []).length = c.response_len)
    (hI5 : c.response_data = none → c.response_capacity = 0)
    (hov1 : c.response_len + data.length < SIZE_MOD)
    (hov2 : c.response_len + data.length > c.response_capacity →
      c.response_capacity * 2 < SIZE_MOD) :
    (on_data_chunk_recv_callback c c.request_stream_id data true).2.response_len
      = c.response_len + data.length ∧
    (on_data_chunk_recv_callback c c.request_stream_id data true).2.response_data.getD []
      = c.response_data.getD [] ++ data ∧
    (on_data_chunk_recv_callback c c.request_stream_id data true).2.response_len
      ≤ (on_data_chunk_recv_callback c c.request_stream_id data true).2.response_capacity ∧
    ((on_data_chunk_recv_callback c c.request_stream_id data true).2.response_capacity = 0 ∨
      4096 ≤ (on_data_chunk_recv_callback c c.request_stream_id data true).2.response_capacity) ∧
    ((on_data_chunk_recv_callback c c.request_stream_id data true).2.response_data = none →
      (on_data_chunk_recv_callback c c.request_stream_id data true).2.response_capacity = 0) ∧
    c.response_capacity
      ≤ (on_data_chunk_recv_callback c c.request_stream_id data true).2.response_capacity ∧
    ((on_data_chunk_recv_callback c c.request_stream_id data true).2.response_capacity
        ≠ c.response_capacity →
      c.response_len + data.length > c.response_capacity ∧
      (on_data_chunk_recv_callback c c.request_stream_id data true).2.response_capacity
        = max (max (2 * c.response_capacity) (c.response_len + data.length)) 4096) := by
  obtain ⟨_, _, hlen, hcap, hdata⟩ := data_chunk_fields c data
  have hm1 : (c.response_len + data.length) % SIZE_MOD = c.response_len + data.length :=
    Nat.mod_eq_of_lt hov1
  rw [hm1] at hlen hcap hdata
  rw [hlen, hcap, hdata]
  by_cases hg : c.response_len + data.length > c.response_capacity
  · have hm2 : (c.response_capacity * 2) % SIZE_MOD = 2 * c.response_capacity := by
      rw [Nat.mod_eq_of_lt (hov2 hg)]
      omega
    simp only [hg, if_true, hm2, Option.getD_some]
    refine ⟨trivial, ?_, ?_, ?_, ?_, ?_, ?_⟩
    · rw [← hI3, List.take_length]
    · omega
    · right
      omega
    · intro h
      cases h
    · omega
    · intro _
      trivial
  · simp only [hg, if_false]
    refine ⟨trivial, ?_, ?_, hI2, ?_, le_refl _, ?_⟩
    · cases hd : c.response_data with
      | none =>
        have h0 := hI5 hd
        rw [hd] at hI3
        simp only [Option.getD_none, List.length_nil] at hI3
        have hdl : data.length = 0 := by omega
        have : data = [] := List.length_eq_zero.mp hdl
        simp [this]
      | some buf =>
        rw [hd] at hI3
        simp only [Option.getD_some] at hI3
        simp only [Option.map_some', Option.getD_some]
        rw [← hI3, List.take_length]
    · omega
    · intro h
      cases hd : c.response_data with
      | none => exact hI5 hd
      | some buf =>
        rw [hd] at h
        simp at h
    · intro h
      exact absurd rfl h


theorem recv_chunks_append (c : grpc_connection) (pre rest : List (Int × List Byte)) :
    recv_chunks c (pre ++ rest) = recv_chunks (recv_chunks c pre) rest := by
  induction pre generalizing c with
  | nil => rfl
  | cons x xs ih =>
    obtain ⟨sid, data⟩ := x
    exact ih _

/-- The receive-buffer invariant along a sequence of chunks stored without
`size_t` overflow. -/
theorem recv_chunks_invariant (chunks : List (Int × List Byte)) :
    ∀ c : grpc_connection,
      c.response_len ≤ c.response_capacity →
      (c.response_capacity = 0 ∨ 4096 ≤ c.response_capacity) →
      (c.response_data.getD []).length = c.response_len →
      (c.response_data = none → c.response_capacity = 0) →
      (∀ (pre : List (Int × List Byte)) (sid : Int) (data : List Byte)
          (post : List (Int × List Byte)),
        chunks = pre ++ (sid, data) :: post → sid = c.request_stream_id →
        (recv_chunks c pre).response_len + data.length < SIZE_MOD ∧
        ((recv_chunks c pre).response_len + data.length > (recv_chunks c pre).response_capacity →
          (recv_chunks c pre).response_capacity * 2 < SIZE_MOD)) →
      (recv_chunks c chunks).request_stream_id = c.request_stream_id ∧
      (recv_chunks c chunks).response_len ≤ (recv_chunks c chunks).response_capacity ∧
      ((recv_chunks c chunks).response_capacity = 0 ∨
        4096 ≤ (recv_chunks c chunks).response_capacity) ∧
      ((recv_chunks c chunks).response_data.getD []).length
        = (recv_chunks c chunks).response_len ∧
      ((recv_chunks c chunks).response_data = none →
        (recv_chunks c chunks).response_capacity = 0) ∧
      (recv_chunks c chunks).response_data.getD []
        = c.response_data.getD [] ++
          ((chunks.filter (fun x => decide (x.1 = c.request_stream_id))).map
            (fun x => x.2)).flatten := by
  induction chunks with
  | nil =>
    intro c h1 h2 h3 h5 _
    simp [recv_chunks, h1, h2, h3]
    exact h5
  | cons x rest ih =>
    intro c h1 h2 h3 h5 hov
    obtain ⟨sid, data⟩ := x
    by_cases hs : sid = c.request_stream_id
    · subst hs
      obtain ⟨o1, o2⟩ := hov [] c.request_stream_id data rest rfl rfl
      obtain ⟨s1, s2, s3, s4, s5, _, _⟩ := data_chunk_step c data h1 h2 h3 h5 o1 o2
      obtain ⟨_, hsid, _, _, _⟩ := data_chunk_fields c data
      have hov' : ∀ (pre : List (Int × List Byte)) (sid : Int) (d : List Byte)
          (post : List (Int × List Byte)), rest = pre ++ (sid, d) :: post →
          sid = (on_data_chunk_recv_callback c c.request_stream_id data true).2.request_stream_id →
          (recv_chunks (on_data_chunk_recv_callback c c.request_stream_id data true).2
              pre).response_len + d.length < SIZE_MOD ∧
          ((recv_chunks (on_data_chunk_recv_callback c c.request_stream_id data true).2
              pre).response_len + d.length
            > (recv_chunks (on_data_chunk_recv_callback c c.request_stream_id data true).2
              pre).response_capacity →
            (recv_chunks (on_data_chunk_recv_callback c c.request_stream_id data true).2
              pre).response_capacity * 2 < SIZE_MOD) := by
        intro pre sid d post hr hsd
        rw [hsid] at hsd
        exact hov ((c.request_stream_id, data) :: pre) sid d post (by rw [hr]; rfl) hsd
      obtain ⟨r1, r2, r3, r4, r5, r6⟩ :=
        ih (on_data_chunk_recv_callback c c.request_stream_id data true).2 s3 s4
          (by rw [s2, s1, List.length_append, h3]) s5 hov'
      simp only [recv_chunks]
      refine ⟨by rw [r1, hsid], r2, r3, r4, r5, ?_⟩
      rw [r6, s2, hsid]
      simp [List.filter_cons]
    · have hcb := data_chunk_other_stream c sid data true hs
      have hov' : ∀ (pre : List (Int × List Byte)) (sid : Int) (d : List Byte)
          (post : List (Int × List Byte)), rest = pre ++ (sid, d) :: post →
          sid = c.request_stream_id →
          (recv_chunks c pre).response_len + d.length < SIZE_MOD ∧
          ((recv_chunks c pre).response_len + d.length > (recv_chunks c pre).response_capacity →
            (recv_chunks c pre).response_capacity * 2 < SIZE_MOD) := by
        intro pre sid' d post hr hsd
        have := hov ((sid, data) :: pre) sid' d post (by rw [hr]; rfl) hsd
        simpa only [recv_chunks, hcb] using this
      obtain ⟨r1, r2, r3, r4, r5, r6⟩ := ih c h1 h2 h3 h5 hov'
      simp only [recv_chunks, hcb]
      refine ⟨r1, r2, r3, r4, r5, ?_⟩
      rw [r6]
      simp [List.filter_cons, hs]


/-- Along a sequence of chunks whose bytes for the request stream stay below
`2^62` in total, nothing overflows, the invariant is kept and the capacity is
at most `max(4096, 2 * response_len)`. -/
theorem recv_chunks_small (chunks : List (Int × List Byte)) :
    ∀ (c : grpc_connection) (B : Nat),
      c.response_len ≤ c.response_capacity →
      (c.response_capacity = 0 ∨ 4096 ≤ c.response_capacity) →
      (c.response_data.getD []).length = c.response_len →
      (c.response_data = none → c.response_capacity = 0) →
      c.response_capacity ≤ max 4096 (2 * c.response_len) →
      c.response_len + (((chunks.filter (fun x => decide (x.1 = c.request_stream_id))).map
        (fun x => x.2)).flatten).length ≤ B →
      B < 2 ^ 62 →
      (recv_chunks c chunks).request_stream_id = c.request_stream_id ∧
      (recv_chunks c chunks).response_len
        = c.response_len + (((chunks.filter (fun x => decide (x.1 = c.request_stream_id))).map
            (fun x => x.2)).flatten).length ∧
      (recv_chunks c chunks).response_capacity
        ≤ max 4096 (2 * (recv_chunks c chunks).response_len) ∧
      c.response_capacity ≤ (recv_chunks c chunks).response_capacity := by
  induction chunks with
  | nil =>
    intro c B _ _ _ _ hb _ _
    simp [recv_chunks, hb]
  | cons x rest ih =>
    intro c B h1 h2 h3 h5 hb htot hB
    obtain ⟨sid, data⟩ := x
    by_cases hs : sid = c.request_stream_id
    · subst hs
      simp only [List.filter_cons, decide_True, if_true, List.map_cons, List.flatten_cons,
        List.length_append] at htot ⊢
      have o1 : c.response_len + data.length < SIZE_MOD := by
        unfold SIZE_MOD
        omega
      have o2 : c.response_len + data.length > c.response_capacity →
          c.response_capacity * 2 < SIZE_MOD := by
        intro _
        unfold SIZE_MOD
        omega
      obtain ⟨s1, s2, s3, s4, s5, s6, s7⟩ := data_chunk_step c data h1 h2 h3 h5 o1 o2
      obtain ⟨_, hsid, _, _, _⟩ := data_chunk_fields c data
      have hb' : (on_data_chunk_recv_callback c c.request_stream_id data true).2.response_capacity
          ≤ max 4096 (2 * (on_data_chunk_recv_callback c c.request_stream_id data
              true).2.response_len) := by
        by_cases hne : (on_data_chunk_recv_callback c c.request_stream_id data
            true).2.response_capacity = c.response_capacity
        · rw [hne, s1]
          omega
        · obtain ⟨hg, hc⟩ := s7 hne
          rw [hc, s1]
          omega
      obtain ⟨r1, r2, r3, r4⟩ :=
        ih (on_data_chunk_recv_callback c c.request_stream_id data true).2 B s3 s4
          (by rw [s2, s1, List.length_append, h3]) s5 hb'
          (by rw [s1, hsid]; omega) hB
      simp only [recv_chunks]
      refine ⟨by rw [r1, hsid], ?_, r3, le_trans s6 r4⟩
      rw [r2, s1, hsid]
      omega
    · have hcb := data_chunk_other_stream c sid data true hs
      simp only [List.filter_cons, hs, decide_False, Bool.false_eq_true, if_false] at htot ⊢
      simp only [recv_chunks, hcb]
      exact ih c B h1 h2 h3 h5 hb htot hB

theorem flatten_filter_prefix_le (pre post : List (Int × List Byte)) (sid : Int) :
    (((pre.filter (fun x => decide (x.1 = sid))).map (fun x => x.2)).flatten).length
      ≤ ((((pre ++ post).filter (fun x => decide (x.1 = sid))).map (fun x => x.2)).flatten).length := by
  simp only [List.filter_append, List.map_append, List.flatten_append, List.length_append]
  omega

/-- A sequence of chunks whose bytes for the request stream stay below `2^62`
in total is stored without `size_t` overflow. -/
theorem no_overflow_of_small (c0 : grpc_connection) (chunks : List (Int × List Byte))
    (hlen0 : c0.response_len = 0) (hcap0 : c0.response_capacity = 0)
    (hdata0 : c0.response_data = none)
    (hsmall : (((chunks.filter (fun x => decide (x.1 = c0.request_stream_id))).map
      (fun x => x.2)).flatten).length < 2 ^ 62) :
    ∀ (pre : List (Int × List Byte)) (sid : Int) (data : List Byte)
      (post : List (Int × List Byte)),
      chunks = pre ++ (sid, data) :: post → sid = c0.request_stream_id →
      (recv_chunks c0 pre).response_len + data.length < SIZE_MOD ∧
      ((recv_chunks c0 pre).response_len + data.length > (recv_chunks c0 pre).response_capacity →
        (recv_chunks c0 pre).response_capacity * 2 < SIZE_MOD) := by
  intro pre sid data post hch hs
  have hpre := flatten_filter_prefix_le (pre ++ [(sid, data)]) post c0.request_stream_id
  rw [show (pre ++ [(sid, data)]) ++ post = chunks by rw [hch]; simp] at hpre
  simp only [List.filter_append, List.map_append, List.flatten_append, List.length_append,
    List.filter_cons, hs, decide_True, if_true, List.filter_nil, List.map_cons, List.map_nil,
    List.flatten_cons, List.flatten_nil, List.append_nil] at hpre
  obtain ⟨_, r2, r3, _⟩ := recv_chunks_small pre c0
    ((((pre.filter (fun x => decide (x.1 = c0.request_stream_id))).map
      (fun x => x.2)).flatten).length)
    (by omega) (Or.inl hcap0) (by rw [hdata0, hlen0]; rfl) (fun _ => hcap0) (by omega)
    (by omega) (by omega)
  rw [hlen0] at r2
  unfold SIZE_MOD
  constructor
  · omega
  · intro _
    omega

/-- Claim C18. Starting from the empty receive buffer (length 0, capacity 0,
`response_data = NULL`), for every sequence of chunks delivered to
`on_data_chunk_recv_callback` with `realloc` succeeding and no `size_t`
overflow, after each call: `response_len <= response_capacity`; the capacity
is 0 or at least 4096 and never shrinks, and a step that changes it at least
doubles it; the first `response_len` bytes of the buffer are the in-order
concatenation of the chunks received so far for the request stream; and a
chunk for another stream id leaves the whole connection state unchanged. -/
theorem receive_buffer_invariant (c0 : grpc_connection) (chunks : List (Int × List Byte))
    (hlen0 : c0.response_len = 0) (hcap0 : c0.response_capacity = 0)
    (hdata0 : c0.response_data = none)
    (hov : ∀ (pre : List (Int × List Byte)) (sid : Int) (data : List Byte)
        (post : List (Int × List Byte)),
      chunks = pre ++ (sid, data) :: post → sid = c0.request_stream_id →
      (recv_chunks c0 pre).response_len + data.length < SIZE_MOD ∧
      ((recv_chunks c0 pre).response_len + data.length > (recv_chunks c0 pre).response_capacity →
        (recv_chunks c0 pre).response_capacity * 2 < SIZE_MOD)) :
    ∀ (pre : List (Int × List Byte)) (sid : Int) (data : List Byte)
      (post : List (Int × List Byte)), chunks = pre ++ (sid, data) :: post →
      (recv_chunks c0 (pre ++ [(sid, data)])).response_len
        ≤ (recv_chunks c0 (pre ++ [(sid, data)])).response_capacity ∧
      ((recv_chunks c0 (pre ++ [(sid, data)])).response_capacity = 0 ∨
        4096 ≤ (recv_chunks c0 (pre ++ [(sid, data)])).response_capacity) ∧
      (recv_chunks c0 pre).response_capacity
        ≤ (recv_chunks c0 (pre ++ [(sid, data)])).response_capacity ∧
      ((recv_chunks c0 (pre ++ [(sid, data)])).response_capacity
          ≠ (recv_chunks c0 pre).response_capacity →
        2 * (recv_chunks c0 pre).response_capacity
          ≤ (recv_chunks c0 (pre ++ [(sid, data)])).response_capacity) ∧
      ((recv_chunks c0 (pre ++ [(sid, data)])).response_data.getD []).take
          (recv_chunks c0 (pre ++ [(sid, data)])).response_len
        = (((pre ++ [(sid, data)]).filter (fun x => decide (x.1 = c0.request_stream_id))).map
            (fun x => x.2)).flatten ∧
      (recv_chunks c0 (pre ++ [(sid, data)])).response_len
        = (((pre ++ [(sid, data)]).filter (fun x => decide (x.1 = c0.request_stream_id))).map
            (fun x => x.2)).flatten.length ∧
      (sid ≠ c0.request_stream_id →
        ∀ ok : Bool, on_data_chunk_recv_callback (recv_chunks c0 pre) sid data ok
          = (0, recv_chunks c0 pre)) := by
  intro pre sid data post hch
  have hinit1 : c0.response_len ≤ c0.response_capacity := by omega
  have hinit3 : (c0.response_data.getD []).length = c0.response_len := by
    rw [hdata0, hlen0]
    rfl
  -- the invariant after `pre`
  have hovpre : ∀ (p : List (Int × List Byte)) (s : Int) (d : List Byte)
      (q : List (Int × List Byte)), pre = p ++ (s, d) :: q → s = c0.request_stream_id →
      (recv_chunks c0 p).response_len + d.length < SIZE_MOD ∧
      ((recv_chunks c0 p).response_len + d.length > (recv_chunks c0 p).response_capacity →
        (recv_chunks c0 p).response_capacity * 2 < SIZE_MOD) := by
    intro p s d q hp hs
    exact hov p s d (q ++ (sid, data) :: post) (by rw [hch, hp]; simp) hs
  obtain ⟨a1, a2, a3, a4, a5, a6⟩ :=
    recv_chunks_invariant pre c0 hinit1 (Or.inl hcap0) hinit3 (fun _ => hcap0) hovpre
  -- the invariant after `pre ++ [(sid, data)]`
  have hovnext : ∀ (p : List (Int × List Byte)) (s : Int) (d : List Byte)
      (q : List (Int × List Byte)), pre ++ [(sid, data)] = p ++ (s, d) :: q →
      s = c0.request_stream_id →
      (recv_chunks c0 p).response_len + d.length < SIZE_MOD ∧
      ((recv_chunks c0 p).response_len + d.length > (recv_chunks c0 p).response_capacity →
        (recv_chunks c0 p).response_capacity * 2 < SIZE_MOD) := by
    intro p s d q hp hs
    exact hov p s d (q ++ post) (by
      rw [hch, show pre ++ (sid, data) :: post = (pre ++ [(sid, data)]) ++ post by simp, hp]
      simp) hs
  obtain ⟨_, b2, b3, b4, _, b6⟩ :=
    recv_chunks_invariant (pre ++ [(sid, data)]) c0 hinit1 (Or.inl hcap0) hinit3
      (fun _ => hcap0) hovnext
  have hb6 : (recv_chunks c0 (pre ++ [(sid, data)])).response_data.getD []
      = (((pre ++ [(sid, data)]).filter (fun x => decide (x.1 = c0.request_stream_id))).map
          (fun x => x.2)).flatten := by
    rw [b6, hdata0]
    rfl
  have hstep : recv_chunks c0 (pre ++ [(sid, data)])
      = (on_data_chunk_recv_callback (recv_chunks c0 pre) sid data true).2 := by
    rw [recv_chunks_append]
    rfl
  refine ⟨b2, b3, ?_, ?_, ?_, ?_, ?_⟩
  · rw [hstep]
    by_cases hs : sid = c0.request_stream_id
    · obtain ⟨o1, o2⟩ := hov pre sid data post hch hs
      rw [hs, ← a1]
      exact (data_chunk_step (recv_chunks c0 pre) data a2 a3 a4 a5 o1 o2).2.2.2.2.2.1
    · rw [data_chunk_other_stream _ sid data true (by rw [a1]; exact hs)]
  · rw [hstep]
    by_cases hs : sid = c0.request_stream_id
    · obtain ⟨o1, o2⟩ := hov pre sid data post hch hs
      rw [hs, ← a1]
      intro hne
      have h := ((data_chunk_step (recv_chunks c0 pre) data a2 a3 a4 a5 o1 o2).2.2.2.2.2.2
        hne).2
      rw [h]
      omega
    · rw [data_chunk_other_stream _ sid data true (by rw [a1]; exact hs)]
      intro hne
      exact absurd rfl hne
  · rw [← b4, List.take_length, hb6]
  · rw [← b4, hb6]
  · intro hs ok
    exact data_chunk_other_stream _ sid data ok (by rw [a1]; exact hs)


theorem receive_buffer_invariant_witness :
    (recv_chunks (conn_init 0) ([(0, [0, 0, 0]), (7, [9])] ++ [(0, [0, 2, 1, 2])])).response_len
      ≤ (recv_chunks (conn_init 0)
          ([(0, [0, 0, 0]), (7, [9])] ++ [(0, [0, 2, 1, 2])])).response_capacity ∧
    ((recv_chunks (conn_init 0)
        ([(0, [0, 0, 0]), (7, [9])] ++ [(0, [0, 2, 1, 2])])).response_data.getD []).take
        (recv_chunks (conn_init 0)
          ([(0, [0, 0, 0]), (7, [9])] ++ [(0, [0, 2, 1, 2])])).response_len
      = [0, 0, 0, 0, 2, 1, 2] ∧
    (recv_chunks (conn_init 0) [(0, [0, 0, 0]), (7, [9])]).response_capacity = 4096 :=
  ⟨(receive_buffer_invariant (conn_init 0) [(0, [0, 0, 0]), (7, [9]), (0, [0, 2, 1, 2])]
      rfl rfl rfl
      (no_overflow_of_small (conn_init 0) [(0, [0, 0, 0]), (7, [9]), (0, [0, 2, 1, 2])]
        rfl rfl rfl (by decide))
      [(0, [0, 0, 0]), (7, [9])] 0 [0, 2, 1, 2] [] rfl).1,
   (receive_buffer_invariant (conn_init 0) [(0, [0, 0, 0]), (7, [9]), (0, [0, 2, 1, 2])]
      rfl rfl rfl
      (no_overflow_of_small (conn_init 0) [(0, [0, 0, 0]), (7, [9]), (0, [0, 2, 1, 2])]
        rfl rfl rfl (by decide))
      [(0, [0, 0, 0]), (7, [9])] 0 [0, 2, 1, 2] [] rfl).2.2.2.2.1,
   by decide⟩

/-! ## The capacity of the receive buffer -/

/-- Claim C17, amended. Starting from the empty receive buffer, for every
sequence of chunks whose bytes for the request stream total at most `5 + L`
(for any `L < 2^32`, in particular the declared length), a growth step sets
`response_capacity` to `max(4096, 2 * old capacity, bytes needed)`, and the
capacity never exceeds `max(4096, 2 * (5 + L))`. -/
theorem capacity_bound (c0 : grpc_connection) (chunks : List (Int × List Byte)) (L : Nat)
    (hlen0 : c0.response_len = 0) (hcap0 : c0.response_capacity = 0)
    (hdata0 : c0.response_data = none) (hL : L < 2 ^ 32)
    (htot : (((chunks.filter (fun x => decide (x.1 = c0.request_stream_id))).map
      (fun x => x.2)).flatten).length ≤ 5 + L) :
    ∀ (pre : List (Int × List Byte)) (sid : Int) (data : List Byte)
      (post : List (Int × List Byte)), chunks = pre ++ (sid, data) :: post →
      (recv_chunks c0 (pre ++ [(sid, data)])).response_capacity ≤ max 4096 (2 * (5 + L)) ∧
      ((recv_chunks c0 (pre ++ [(sid, data)])).response_capacity
          ≠ (recv_chunks c0 pre).response_capacity →
        (recv_chunks c0 (pre ++ [(sid, data)])).response_capacity
          = max (max (2 * (recv_chunks c0 pre).response_capacity)
              ((recv_chunks c0 pre).response_len + data.length)) 4096) := by
  intro pre sid data post hch
  have hinit3 : (c0.response_data.getD []).length = c0.response_len := by
    rw [hdata0, hlen0]
    rfl
  have hsmall : (((chunks.filter (fun x => decide (x.1 = c0.request_stream_id))).map
      (fun x => x.2)).flatten).length < 2 ^ 62 := by omega
  have hov := no_overflow_of_small c0 chunks hlen0 hcap0 hdata0 hsmall
  have hle := flatten_filter_prefix_le (pre ++ [(sid, data)]) post c0.request_stream_id
  rw [show (pre ++ [(sid, data)]) ++ post = chunks by rw [hch]; simp] at hle
  obtain ⟨_, r2, r3, _⟩ := recv_chunks_small (pre ++ [(sid, data)]) c0 (5 + L)
    (by omega) (Or.inl hcap0) hinit3 (fun _ => hcap0) (by omega) (by omega) (by omega)
  refine ⟨by omega, ?_⟩
  have hovpre : ∀ (p : List (Int × List Byte)) (s : Int) (d : List Byte)
      (q : List (Int × List Byte)), pre = p ++ (s, d) :: q → s = c0.request_stream_id →
      (recv_chunks c0 p).response_len + d.length < SIZE_MOD ∧
      ((recv_chunks c0 p).response_len + d.length > (recv_chunks c0 p).response_capacity →
        (recv_chunks c0 p).response_capacity * 2 < SIZE_MOD) := by
    intro p s d q hp hs
    exact hov p s d (q ++ (sid, data) :: post) (by rw [hch, hp]; simp) hs
  obtain ⟨a1, a2, a3, a4, a5, _⟩ :=
    recv_chunks_invariant pre c0 (by omega) (Or.inl hcap0) hinit3 (fun _ => hcap0) hovpre
  have hstep : recv_chunks c0 (pre ++ [(sid, data)])
      = (on_data_chunk_recv_callback (recv_chunks c0 pre) sid data true).2 := by
    rw [recv_chunks_append]
    rfl
  rw [hstep]
  by_cases hs : sid = c0.request_stream_id
  · obtain ⟨o1, o2⟩ := hov pre sid data post hch hs
    rw [hs, ← a1]
    intro hne
    exact ((data_chunk_step (recv_chunks c0 pre) data a2 a3 a4 a5 o1 o2).2.2.2.2.2.2 hne).2
  · rw [data_chunk_other_stream _ sid data true (by rw [a1]; exact hs)]
    intro hne
    exact absurd rfl hne

theorem capacity_bound_witness :
    (recv_chunks (conn_init 0) ([(0, [0, 0, 0])] ++ [(0, [0, 2, 1, 2])])).response_capacity
      ≤ max 4096 (2 * (5 + 2)) :=
  (capacity_bound (conn_init 0) [(0, [0, 0, 0]), (0, [0, 2, 1, 2])] 2 rfl rfl rfl (by decide)
    (by decide) [(0, [0, 0, 0])] 0 [0, 2, 1, 2] [] rfl).1

theorem data_chunk_len_cap (c : grpc_connection) (sid : Int) (data : List Byte)
    (hs : sid = c.request_stream_id) :
    (on_data_chunk_recv_callback c sid data true).2.request_stream_id = c.request_stream_id ∧
    (on_data_chunk_recv_callback c sid data true).2.response_len
      = (c.response_len + data.length) % SIZE_MOD ∧
    (on_data_chunk_recv_callback c sid data true).2.response_capacity
      = (if (c.response_len + data.length) % SIZE_MOD > c.response_capacity then
          max (max ((c.response_capacity * 2) % SIZE_MOD)
            ((c.response_len + data.length) % SIZE_MOD)) 4096
         else c.response_capacity) := by
  subst hs
  obtain ⟨_, h1, h2, h3, _⟩ := data_chunk_fields c data
  exact ⟨h1, h2, h3⟩

/-- Claim C17, counterexample. A frame declaring `L = 4092` (total 4097)
arrives as chunks of 5, 4091 and 1 bytes: the first chunk gives capacity
4096, and the last one doubles it to 8192, above `max(4096, 5 + L) = 4097`. -/
theorem capacity_exceeds_declared_total :
    (recv_chunks (conn_init 0) [(0, [0, 0, 0, 15, 252])]).response_expected_len = 5 + 4092 ∧
    ([0, 0, 0, 15, 252] ++ List.replicate 4091 (0 : Byte) ++ [0]).length = 5 + 4092 ∧
    (recv_chunks (conn_init 0)
      [(0, [0, 0, 0, 15, 252]), (0, List.replicate 4091 0), (0, [0])]).response_capacity = 8192 ∧
    ¬ (8192 ≤ max 4096 (5 + 4092)) := by
  have a1 : (on_data_chunk_recv_callback (conn_init 0) 0 [0, 0, 0, 15, 252]
      true).2.request_stream_id = 0 := by decide
  have a2 : (on_data_chunk_recv_callback (conn_init 0) 0 [0, 0, 0, 15, 252]
      true).2.response_len = 5 := by decide
  have a3 : (on_data_chunk_recv_callback (conn_init 0) 0 [0, 0, 0, 15, 252]
      true).2.response_capacity = 4096 := by decide
  obtain ⟨b1, b2, b3⟩ := data_chunk_len_cap
    (on_data_chunk_recv_callback (conn_init 0) 0 [0, 0, 0, 15, 252] true).2 0
    (List.replicate 4091 0) a1.symm
  rw [a1] at b1
  rw [a2, List.length_replicate] at b2 b3
  rw [a3] at b3
  have b2' : (on_data_chunk_recv_callback
      (on_data_chunk_recv_callback (conn_init 0) 0 [0, 0, 0, 15, 252] true).2 0
      (List.replicate 4091 0) true).2.response_len = 4096 := by
    rw [b2]
    decide
  have b3' : (on_data_chunk_recv_callback
      (on_data_chunk_recv_callback (conn_init 0) 0 [0, 0, 0, 15, 252] true).2 0
      (List.replicate 4091 0) true).2.response_capacity = 4096 := by
    rw [b3]
    decide
  obtain ⟨_, _, c3⟩ := data_chunk_len_cap
    (on_data_chunk_recv_callback
      (on_data_chunk_recv_callback (conn_init 0) 0 [0, 0, 0, 15, 252] true).2 0
      (List.replicate 4091 0) true).2 0 [0] b1.symm
  rw [b2', b3'] at c3
  refine ⟨by decide, ?_, ?_, by decide⟩
  · simp only [List.length_append, List.length_replicate, List.length_cons, List.length_nil]
  · simp only [recv_chunks]
    rw [c3]
    decide

/-! ## The declared frame total -/

theorem read_be32_append (buf data : List Byte) (h : 5 ≤ buf.length) :
    read_be32 (buf ++ data) = read_be32 buf := by
  unfold read_be32
  rw [List.getD_append _ _ _ 1 (by omega), List.getD_append _ _ _ 2 (by omega),
    List.getD_append _ _ _ 3 (by omega), List.getD_append _ _ _ 4 (by omega)]

/-- What `response_expected_len` is along a sequence of chunks stored without
`size_t` overflow: `0` while fewer than 5 bytes are buffered, and from then on
the 32 bit sum `(5 + L) mod 2^32` for the declared length `L`. -/
theorem recv_chunks_expected (chunks : List (Int × List Byte)) :
    ∀ c : grpc_connection,
      c.response_len ≤ c.response_capacity →
      (c.response_capacity = 0 ∨ 4096 ≤ c.response_capacity) →
      (c.response_data.getD []).length = c.response_len →
      (c.response_data = none → c.response_capacity = 0) →
      (c.response_len < 5 → c.response_expected_len = 0) →
      (5 ≤ c.response_len → c.response_expected_len
        = (5 + read_be32 (c.response_data.getD [])) % UINT32_MOD) →
      (∀ (pre : List (Int × List Byte)) (sid : Int) (data : List Byte)
          (post : List (Int × List Byte)),
        chunks = pre ++ (sid, data) :: post → sid = c.request_stream_id →
        (recv_chunks c pre).response_len + data.length < SIZE_MOD ∧
        ((recv_chunks c pre).response_len + data.length > (recv_chunks c pre).response_capacity →
          (recv_chunks c pre).response_capacity * 2 < SIZE_MOD)) →
      ((recv_chunks c chunks).response_len < 5 →
        (recv_chunks c chunks).response_expected_len = 0) ∧
      (5 ≤ (recv_chunks c chunks).response_len →
        (recv_chunks c chunks).response_expected_len
          = (5 + read_be32 ((recv_chunks c chunks).response_data.getD [])) % UINT32_MOD) := by
  induction chunks with
  | nil =>
    intro c _ _ _ _ e1 e2 _
    exact ⟨e1, e2⟩
  | cons x rest ih =>
    intro c h1 h2 h3 h5 e1 e2 hov
    obtain ⟨sid, data⟩ := x
    by_cases hs : sid = c.request_stream_id
    · subst hs
      obtain ⟨o1, o2⟩ := hov [] c.request_stream_id data rest rfl rfl
      obtain ⟨s1, s2, s3, s4, s5, _, _⟩ := data_chunk_step c data h1 h2 h3 h5 o1 o2
      obtain ⟨_, hsid, _, _, _⟩ := data_chunk_fields c data
      obtain ⟨x1, _⟩ := data_chunk_expected c data
      have hov' : ∀ (pre : List (Int × List Byte)) (sid : Int) (d : List Byte)
          (post : List (Int × List Byte)), rest = pre ++ (sid, d) :: post →
          sid = (on_data_chunk_recv_callback c c.request_stream_id data true).2.request_stream_id →
          (recv_chunks (on_data_chunk_recv_callback c c.request_stream_id data true).2
              pre).response_len + d.length < SIZE_MOD ∧
          ((recv_chunks (on_data_chunk_recv_callback c c.request_stream_id data true).2
              pre).response_len + d.length
            > (recv_chunks (on_data_chunk_recv_callback c c.request_stream_id data true).2
              pre).response_capacity →
            (recv_chunks (on_data_chunk_recv_callback c c.request_stream_id data true).2
              pre).response_capacity * 2 < SIZE_MOD) := by
        intro pre sid d post hr hsd
        rw [hsid] at hsd
        exact hov ((c.request_stream_id, data) :: pre) sid d post (by rw [hr]; rfl) hsd
      simp only [recv_chunks]
      refine ih (on_data_chunk_recv_callback c c.request_stream_id data true).2 s3 s4
        (by rw [s2, s1, List.length_append, h3]) s5 ?_ ?_ hov'
      · intro hlt
        rw [x1, if_neg (by unfold GRPC_HEADER_SIZE; omega)]
        exact e1 (by omega)
      · intro hge
        rw [x1]
        by_cases h0 : c.response_expected_len = 0
        · rw [if_pos ⟨h0, hge⟩]
          rfl
        · rw [if_neg (fun h => h0 h.1)]
          have hold : 5 ≤ c.response_len := by
            by_contra hlt
            exact h0 (e1 (by omega))
          rw [e2 hold, s2, read_be32_append _ _ (by rw [h3]; exact hold)]
    · have hcb := data_chunk_other_stream c sid data true hs
      have hov' : ∀ (pre : List (Int × List Byte)) (sid : Int) (d : List Byte)
          (post : List (Int × List Byte)), rest = pre ++ (sid, d) :: post →
          sid = c.request_stream_id →
          (recv_chunks c pre).response_len + d.length < SIZE_MOD ∧
          ((recv_chunks c pre).response_len + d.length > (recv_chunks c pre).response_capacity →
            (recv_chunks c pre).response_capacity * 2 < SIZE_MOD) := by
        intro pre sid' d post hr hsd
        have := hov ((sid, data) :: pre) sid' d post (by rw [hr]; rfl) hsd
        simpa only [recv_chunks, hcb] using this
      simp only [recv_chunks, hcb]
      exact ih c h1 h2 h3 h5 e1 e2 hov'

/-- Claim C15, failing input. The first chunk `00 FF FF FF FF` declares
`L = 2^32 - 1`: `response_expected_len` becomes `4`, not `5 + L`, and the
callback sets `response_complete` although only 5 of the `5 + L` bytes are
buffered.  For `00 FF FF FF FB` (`L = 2^32 - 5`) the sum wraps to `0`, so
`response_expected_len` stays `0`. -/
theorem expected_len_wraps :
    (recv_chunks (conn_init 0) [(0, [0, 255, 255, 255, 255])]).response_len = 5 ∧
    read_be32 ((recv_chunks (conn_init 0) [(0, [0, 255, 255, 255, 255])]).response_data.getD [])
      = 2 ^ 32 - 1 ∧
    (recv_chunks (conn_init 0) [(0, [0, 255, 255, 255, 255])]).response_expected_len = 4 ∧
    (recv_chunks (conn_init 0) [(0, [0, 255, 255, 255, 255])]).response_complete = 1 ∧
    ¬ ((recv_chunks (conn_init 0) [(0, [0, 255, 255, 255, 255])]).response_len
        ≥ 5 + (2 ^ 32 - 1)) ∧
    read_be32 ((recv_chunks (conn_init 0) [(0, [0, 255, 255, 255, 251])]).response_data.getD [])
      = 2 ^ 32 - 5 ∧
    (recv_chunks (conn_init 0) [(0, [0, 255, 255, 255, 251])]).response_expected_len = 0 := by
  refine ⟨by decide, by decide, by decide, by decide, by decide, by decide, by decide⟩

/-! ## Bookkeeping of resources -/

/-- The bookkeeping after one more action. -/
theorem held_append_one (res : Resource) (t : List Action) (a : Action) :
    held res (t ++ [a]) = held_step res (held res t) a := by
  simp [held, List.foldl_append]

/-- Acquiring another resource leaves the bookkeeping of `res` as it is. -/
theorem held_step_acquire_ne (res r : Resource) (h : Option Bool) (hne : res ≠ r) :
    held_step res h (.acquire r) = h := by
  have hne' : r ≠ res := fun e => hne e.symm
  rcases h with _ | _ | _ <;> simp [held_step, hne']

/-- Releasing another resource leaves the bookkeeping of `res` as it is. -/
theorem held_step_release_ne (res r : Resource) (h : Option Bool) (hne : res ≠ r) :
    held_step res h (.release r) = h := by
  have hne' : r ≠ res := fun e => hne e.symm
  rcases h with _ | _ | _ <;> simp [held_step, hne']

/-- A resource that is not held is held once acquired. -/
theorem held_step_acquire_self (res : Resource) :
    held_step res (some false) (.acquire res) = some true := by
  simp [held_step]

/-- A resource that is held is no longer held once released. -/
theorem held_step_release_self (res : Resource) :
    held_step res (some true) (.release res) = some false := by
  simp [held_step]

/-- The call of `getaddrinfo` is no acquisition or release. -/
theorem held_step_getaddrinfo (res : Resource) (h : Option Bool) (host : CStr) (port : Int) :
    held_step res h (.getaddrinfo host port) = h := by
  rcases h with _ | _ | _ <;> rfl

/-- Setting the SNI host name is no acquisition or release. -/
theorem held_step_set_sni (res : Resource) (h : Option Bool) (host : CStr) :
    held_step res h (.set_sni host) = h := by
  rcases h with _ | _ | _ <;> rfl

/-- Acquiring a resource that is not held keeps the bookkeeping in step. -/
theorem holds_acquire (c c' : grpc_connection) (p p' : Phase) (r : Resource)
    (h : holds c p) (hfree : snapshot c p r = false)
    (htrace : c'.trace = c.trace ++ [Action.acquire r])
    (hsnap : ∀ res, snapshot c' p' res = if res = r then true else snapshot c p res) :
    holds c' p' := by
  intro res
  rw [htrace, held_append_one, h res, hsnap res]
  by_cases hr : res = r
  · subst hr
    rw [hfree, if_pos rfl, held_step_acquire_self]
  · rw [if_neg hr, held_step_acquire_ne _ _ _ hr]

/-- Releasing a resource that is held keeps the bookkeeping in step. -/
theorem holds_release (c c' : grpc_connection) (p p' : Phase) (r : Resource)
    (h : holds c p) (hheld : snapshot c p r = true)
    (htrace : c'.trace = c.trace ++ [Action.release r])
    (hsnap : ∀ res, snapshot c' p' res = if res = r then false else snapshot c p res) :
    holds c' p' := by
  intro res
  rw [htrace, held_append_one, h res, hsnap res]
  by_cases hr : res = r
  · subst hr
    rw [hheld, if_pos rfl, held_step_release_self]
  · rw [if_neg hr, held_step_release_ne _ _ _ hr]

/-- A change of the connection that leaves the trace and the snapshot alone. -/
theorem holds_congr (c c' : grpc_connection) (p p' : Phase)
    (h : holds c p) (htrace : c'.trace = c.trace)
    (hsnap : ∀ res, snapshot c' p' res = snapshot c p res) : holds c' p' := by
  intro res
  rw [htrace, h res, hsnap res]

/-- Members of the connection that `set_error` does not touch. -/
theorem set_error_fields (c : grpc_connection) (msg : CStr) (ok : Bool) :
    (set_error c msg ok).fd = c.fd ∧ (set_error c msg ok).ssl = c.ssl ∧
    (set_error c msg ok).ssl_ctx = c.ssl_ctx ∧ (set_error c msg ok).session = c.session ∧
    (set_error c msg ok).response_data = c.response_data := by
  unfold set_error
  split_ifs <;> exact ⟨rfl, rfl, rfl, rfl, rfl⟩

/-- The function `set_error` keeps the bookkeeping intact. -/
theorem holds_set_error (c : grpc_connection) (msg : CStr) (ok : Bool) (p : Phase)
    (h : holds c p) : holds (set_error c msg ok) p := by
  unfold set_error
  cases he : c.error_message with
  | none =>
    simp only [Option.isSome_none, Bool.false_eq_true, if_false]
    cases ok with
    | false =>
      simp only [Bool.false_eq_true, if_false]
      refine holds_congr c _ p p h rfl ?_
      intro res
      cases res <;> simp [snapshot, he]
    | true =>
      simp only [if_true]
      refine holds_acquire c _ p p .error_message h (by simp [snapshot, he]) rfl ?_
      intro res
      cases res <;> simp [snapshot, log]
  | some m =>
    simp only [Option.isSome_some, if_true]
    have h1 : holds { log c (.release .error_message) with error_message := none } p := by
      refine holds_release c _ p p .error_message h (by simp [snapshot, he]) rfl ?_
      intro res
      cases res <;> simp [snapshot, log]
    cases ok with
    | false =>
      simp only [Bool.false_eq_true, if_false]
      exact h1
    | true =>
      simp only [if_true]
      refine holds_acquire _ _ p p .error_message h1 (by simp [snapshot]) rfl ?_
      intro res
      cases res <;> simp [snapshot, log]

/-! ## Bookkeeping of resources: connection set-up -/

/-- Members of the connection that the loop over the addresses does not touch. -/
theorem connect_loop_fields (addrs : List (Int × Bool)) :
    ∀ c : grpc_connection,
      (connect_loop c addrs).ssl = c.ssl ∧ (connect_loop c addrs).ssl_ctx = c.ssl_ctx ∧
      (connect_loop c addrs).session = c.session ∧
      (connect_loop c addrs).response_data = c.response_data ∧
      (connect_loop c addrs).error_message = c.error_message := by
  induction addrs with
  | nil =>
    intro c
    exact ⟨rfl, rfl, rfl, rfl, rfl⟩
  | cons x rest ih =>
    intro c
    obtain ⟨fd, connected⟩ := x
    simp only [connect_loop]
    split_ifs
    · exact ih _
    · exact ⟨rfl, rfl, rfl, rfl, rfl⟩
    · exact ih _

/-- The loop over the addresses keeps the bookkeeping intact. -/
theorem holds_connect_loop (addrs : List (Int × Bool)) :
    ∀ (c : grpc_connection) (p : Phase), holds c p → c.fd < 0 →
      holds (connect_loop c addrs) p := by
  induction addrs with
  | nil =>
    intro c p h _
    exact h
  | cons x rest ih =>
    intro c p h hfd
    obtain ⟨fd, connected⟩ := x
    simp only [connect_loop]
    by_cases hneg : fd < 0
    · rw [if_pos hneg]
      refine ih { c with fd := fd } p (holds_congr c _ p p h rfl ?_) hneg
      intro res
      cases res <;> simp [snapshot]
      omega
    · rw [if_neg hneg]
      have h1 : holds (log { c with fd := fd } (.acquire .socket)) p := by
        refine holds_acquire c _ p p .socket h (by simp [snapshot]; omega) rfl ?_
        intro res
        cases res <;> simp [snapshot, log]
        omega
      cases connected with
      | true =>
        simp only [if_true]
        exact h1
      | false =>
        simp only [Bool.false_eq_true, if_false]
        apply ih
        · refine holds_release _ _ p p .socket h1 (by simp [snapshot, log]; omega) rfl ?_
          intro res
          cases res <;> simp [snapshot, log]
        · show (-1 : Int) < 0
          decide

/-- Members of the connection that `connect_to_server` does not touch, and the
socket it leaves: open when it returns `0`, none otherwise. -/
theorem connect_to_server_fields (c : grpc_connection) (host : CStr) (port : Int)
    (e : ConnectEnv) (ok : Bool) :
    (connect_to_server c host port e ok).2.ssl = c.ssl ∧
    (connect_to_server c host port e ok).2.ssl_ctx = c.ssl_ctx ∧
    (connect_to_server c host port e ok).2.session = c.session ∧
    (connect_to_server c host port e ok).2.response_data = c.response_data ∧
    ((connect_to_server c host port e ok).1 = 0 → 0 ≤ (connect_to_server c host port e ok).2.fd) ∧
    (c.fd < 0 → (connect_to_server c host port e ok).1 ≠ 0 →
      (connect_to_server c host port e ok).2.fd < 0) := by
  unfold connect_to_server
  simp only
  split_ifs with h1 h2
  · obtain ⟨f1, f2, f3, f4, f5⟩ := set_error_fields (log c (.getaddrinfo host port))
      e.gai_strerror ok
    refine ⟨f2, f3, f4, f5, ?_, ?_⟩
    · intro h
      cases h
    · intro hfd _
      rw [f1]
      exact hfd
  · obtain ⟨f1, f2, f3, f4, f5⟩ := set_error_fields
      (log (connect_loop (log (log c (.getaddrinfo host port)) (.acquire .addrinfo)) e.addrs)
        (.release .addrinfo)) (lit "Failed to connect to server") ok
    obtain ⟨g1, g2, g3, g4, _⟩ := connect_loop_fields e.addrs
      (log (log c (.getaddrinfo host port)) (.acquire .addrinfo))
    refine ⟨by rw [f2]; exact g1, by rw [f3]; exact g2, by rw [f4]; exact g3,
      by rw [f5]; exact g4, ?_, ?_⟩
    · intro h
      cases h
    · intro _ _
      rw [f1]
      exact h2
  · obtain ⟨g1, g2, g3, g4, _⟩ := connect_loop_fields e.addrs
      (log (log c (.getaddrinfo host port)) (.acquire .addrinfo))
    refine ⟨g1, g2, g3, g4, ?_, ?_⟩
    · intro _
      exact not_lt.mp h2
    · intro _ h
      exact absurd rfl h

/-- The bookkeeping stays intact under an action that is no acquisition or release. -/
theorem holds_note (c c' : grpc_connection) (p : Phase) (a : Action)
    (h : holds c p) (htrace : c'.trace = c.trace ++ [a])
    (hnote : ∀ (res : Resource) (s : Option Bool), held_step res s a = s)
    (hsnap : ∀ res, snapshot c' p res = snapshot c p res) : holds c' p := by
  intro res
  rw [htrace, held_append_one, h res, hnote, hsnap res]

/-- The function `connect_to_server` keeps the bookkeeping intact. -/
theorem holds_connect_to_server (c : grpc_connection) (host : CStr) (port : Int)
    (e : ConnectEnv) (ok : Bool) (p : Phase) (h : holds c p) (hfd : c.fd < 0)
    (hai : p.addrinfo = false) :
    holds (connect_to_server c host port e ok).2 p := by
  have h0 : holds (log c (.getaddrinfo host port)) p :=
    holds_note c _ p _ h rfl (fun res s => held_step_getaddrinfo res s host port)
      (fun res => by cases res <;> rfl)
  unfold connect_to_server
  simp only
  split_ifs with h1 h2
  · exact holds_set_error _ _ _ p h0
  · apply holds_set_error
    have ha : holds (log (log c (.getaddrinfo host port)) (.acquire .addrinfo))
        { p with addrinfo := true } := by
      refine holds_acquire _ _ p _ .addrinfo h0 (by simp [snapshot, hai]) rfl ?_
      intro res
      cases res <;> simp [snapshot, log]
    have hl := holds_connect_loop e.addrs _ _ ha hfd
    refine holds_release _ _ _ p .addrinfo hl (by simp [snapshot]) rfl ?_
    intro res
    cases res <;> simp [snapshot, log, hai]
  · have ha : holds (log (log c (.getaddrinfo host port)) (.acquire .addrinfo))
        { p with addrinfo := true } := by
      refine holds_acquire _ _ p _ .addrinfo h0 (by simp [snapshot, hai]) rfl ?_
      intro res
      cases res <;> simp [snapshot, log]
    have hl := holds_connect_loop e.addrs _ _ ha hfd
    refine holds_release _ _ _ p .addrinfo hl (by simp [snapshot]) rfl ?_
    intro res
    cases res <;> simp [snapshot, log, hai]

/-! ## Bookkeeping of resources: TLS and HTTP/2 set-up -/

/-- Members of the connection that `setup_tls` does not touch; when it returns
`0` both SSL objects exist. -/
theorem setup_tls_fields (c : grpc_connection) (host : CStr) (e : TlsEnv) (ok : Bool) :
    (setup_tls c host e ok).2.fd = c.fd ∧
    (setup_tls c host e ok).2.session = c.session ∧
    (setup_tls c host e ok).2.response_data = c.response_data ∧
    ((setup_tls c host e ok).1 = 0 →
      (setup_tls c host e ok).2.ssl = true ∧ (setup_tls c host e ok).2.ssl_ctx = true) := by
  unfold setup_tls
  simp only
  split_ifs with h1 h2 h3 h4
  · obtain ⟨f1, _, _, f4, f5⟩ := set_error_fields c (lit "Failed to create SSL context") ok
    exact ⟨f1, f4, f5, fun h => by cases h⟩
  · obtain ⟨f1, _, _, f4, f5⟩ := set_error_fields
      (log { c with ssl_ctx := true } (.acquire .ssl_ctx)) (lit "Failed to create SSL object") ok
    exact ⟨f1, f4, f5, fun h => by cases h⟩
  · obtain ⟨f1, _, _, f4, f5⟩ := set_error_fields
      (log (log { log { c with ssl_ctx := true } (.acquire .ssl_ctx) with ssl := true }
        (.acquire .ssl)) (.set_sni host)) (e.err_string.take 255) ok
    exact ⟨f1, f4, f5, fun h => by cases h⟩
  · obtain ⟨f1, _, _, f4, f5⟩ := set_error_fields
      (log (log { log { c with ssl_ctx := true } (.acquire .ssl_ctx) with ssl := true }
        (.acquire .ssl)) (.set_sni host)) (lit "Server did not negotiate HTTP/2") ok
    exact ⟨f1, f4, f5, fun h => by cases h⟩
  · exact ⟨rfl, rfl, rfl, fun _ => ⟨rfl, rfl⟩⟩

/-- The function `setup_tls` keeps the bookkeeping intact. -/
theorem holds_setup_tls (c : grpc_connection) (host : CStr) (e : TlsEnv) (ok : Bool)
    (p : Phase) (h : holds c p) (hssl : c.ssl = false) (hctx : c.ssl_ctx = false) :
    holds (setup_tls c host e ok).2 p := by
  have h1 : holds (log { c with ssl_ctx := true } (.acquire .ssl_ctx)) p := by
    refine holds_acquire c _ p p .ssl_ctx h (by simp [snapshot, hctx]) rfl ?_
    intro res
    cases res <;> simp [snapshot, log]
  have h2 : holds (log { log { c with ssl_ctx := true } (.acquire .ssl_ctx) with ssl := true }
      (.acquire .ssl)) p := by
    refine holds_acquire _ _ p p .ssl h1 (by simp [snapshot, log, hssl]) rfl ?_
    intro res
    cases res <;> simp [snapshot, log]
  have h3 : holds (log (log { log { c with ssl_ctx := true } (.acquire .ssl_ctx) with
      ssl := true } (.acquire .ssl)) (.set_sni host)) p :=
    holds_note _ _ p _ h2 rfl (fun res s => held_step_set_sni res s host)
      (fun res => by cases res <;> rfl)
  unfold setup_tls
  simp only
  split_ifs
  · exact holds_set_error _ _ _ p h
  · exact holds_set_error _ _ _ p h1
  · exact holds_set_error _ _ _ p h3
  · exact holds_set_error _ _ _ p h3
  · exact h3

/-- Members of the connection that `setup_http2` does not touch. -/
theorem setup_http2_fields (c : grpc_connection) (e : Http2Env) (ok : Bool) :
    (setup_http2 c e ok).2.fd = c.fd ∧ (setup_http2 c e ok).2.ssl = c.ssl ∧
    (setup_http2 c e ok).2.ssl_ctx = c.ssl_ctx ∧
    (setup_http2 c e ok).2.response_data = c.response_data := by
  unfold setup_http2
  simp only
  by_cases hr : e.session_client_new_ret = 0
  · simp only [hr, if_true, ne_eq, not_true_eq_false, if_false]
    by_cases hs : e.submit_settings_ret = 0
    · simp only [hs, ne_eq, not_true_eq_false, if_false]
      exact ⟨rfl, rfl, rfl, rfl⟩
    · simp only [hs, ne_eq, not_false_eq_true, if_true]
      obtain ⟨f1, f2, f3, _, f5⟩ := set_error_fields
        (log (log { log c (.acquire .callbacks) with session := true } (.acquire .session))
          (.release .callbacks)) (lit "Failed to submit SETTINGS") ok
      exact ⟨f1, f2, f3, f5⟩
  · simp only [hr, if_false, ne_eq, not_false_eq_true, if_true]
    obtain ⟨f1, f2, f3, _, f5⟩ := set_error_fields
      (log (log c (.acquire .callbacks)) (.release .callbacks))
      (lit "Failed to create HTTP/2 session") ok
    exact ⟨f1, f2, f3, f5⟩

/-- The function `setup_http2` keeps the bookkeeping intact. -/
theorem holds_setup_http2 (c : grpc_connection) (e : Http2Env) (ok : Bool) (p : Phase)
    (h : holds c p) (hcb : p.callbacks = false) (hs : c.session = false) :
    holds (setup_http2 c e ok).2 p := by
  have h1 : holds (log c (.acquire .callbacks)) { p with callbacks := true } := by
    refine holds_acquire c _ p _ .callbacks h (by simp [snapshot, hcb]) rfl ?_
    intro res
    cases res <;> simp [snapshot, log]
  unfold setup_http2
  simp only
  by_cases hr : e.session_client_new_ret = 0
  · have h2 : holds (log { log c (.acquire .callbacks) with session := true }
        (.acquire .session)) { p with callbacks := true } := by
      refine holds_acquire _ _ _ _ .session h1 (by simp [snapshot, log, hs]) rfl ?_
      intro res
      cases res <;> simp [snapshot, log]
    have h3 : holds (log (log { log c (.acquire .callbacks) with session := true }
        (.acquire .session)) (.release .callbacks)) p := by
      refine holds_release _ _ _ p .callbacks h2 (by simp [snapshot]) rfl ?_
      intro res
      cases res <;> simp [snapshot, log, hcb]
    simp only [hr, if_true, ne_eq, not_true_eq_false, if_false]
    by_cases hs : e.submit_settings_ret = 0
    · simp only [hs, ne_eq, not_true_eq_false, if_false]
      exact h3
    · simp only [hs, ne_eq, not_false_eq_true, if_true]
      exact holds_set_error _ _ _ p h3
  · have h3 : holds (log (log c (.acquire .callbacks)) (.release .callbacks)) p := by
      refine holds_release _ _ _ p .callbacks h1 (by simp [snapshot]) rfl ?_
      intro res
      cases res <;> simp [snapshot, log, hcb]
    simp only [hr, if_false, ne_eq, not_false_eq_true, if_true]
    exact holds_set_error _ _ _ p h3

/-! ## Bookkeeping of resources: callbacks -/

/-- What `on_data_chunk_recv_callback` does to the resources: it allocates the
response buffer when there is none and the buffer has to grow, and touches
nothing else. -/
theorem data_chunk_resources (c : grpc_connection) (sid : Int) (data : List Byte)
    (ok : Bool) :
    (on_data_chunk_recv_callback c sid data ok).2.fd = c.fd ∧
    (on_data_chunk_recv_callback c sid data ok).2.ssl = c.ssl ∧
    (on_data_chunk_recv_callback c sid data ok).2.ssl_ctx = c.ssl_ctx ∧
    (on_data_chunk_recv_callback c sid data ok).2.session = c.session ∧
    (on_data_chunk_recv_callback c sid data ok).2.error_message = c.error_message ∧
    (((on_data_chunk_recv_callback c sid data ok).2.trace = c.trace ∧
      (on_data_chunk_recv_callback c sid data ok).2.response_data.isSome =
        c.response_data.isSome) ∨
     (c.response_data = none ∧
      (on_data_chunk_recv_callback c sid data ok).2.response_data.isSome = true ∧
      (on_data_chunk_recv_callback c sid data ok).2.trace =
        c.trace ++ [Action.acquire .response_data])) := by
  unfold on_data_chunk_recv_callback
  by_cases hs : sid ≠ c.request_stream_id
  · rw [if_pos hs]
    exact ⟨rfl, rfl, rfl, rfl, rfl, Or.inl ⟨rfl, rfl⟩⟩
  rw [if_neg hs]
  by_cases hg : (c.response_len + data.length) % SIZE_MOD > c.response_capacity
  · cases ok with
    | false => simp [hg]
    | true =>
      simp only [hg, if_true]
      obtain ⟨ssl_ctx, ssl, fd, use_tls, session, request_data, request_len, request_sent,
        request_stream_id, response_data, response_len, response_capacity,
        response_expected_len, response_complete, error_message, grpc_status, trace⟩ := c
      cases response_data with
      | none =>
        simp only [Option.isSome_none, Bool.false_eq_true, if_false, Option.getD_none,
          Option.map_some', true_or, true_and, reduceCtorEq, false_and, false_or]
        split_ifs <;> simp
      | some buf =>
        simp only [Option.isSome_some, if_true, List.append_nil, Option.getD_some,
          Option.map_some', reduceCtorEq, false_and, or_false]
        split_ifs <;> simp
  · simp only [hg, if_false]
    obtain ⟨ssl_ctx, ssl, fd, use_tls, session, request_data, request_len, request_sent,
      request_stream_id, response_data, response_len, response_capacity,
      response_expected_len, response_complete, error_message, grpc_status, trace⟩ := c
    split_ifs <;> simp

/-- The callback `on_data_chunk_recv_callback` keeps the bookkeeping intact. -/
theorem holds_data_chunk (c : grpc_connection) (sid : Int) (data : List Byte) (ok : Bool)
    (p : Phase) (h : holds c p) : holds (on_data_chunk_recv_callback c sid data ok).2 p := by
  obtain ⟨f1, f2, f3, f4, f5, f6⟩ := data_chunk_resources c sid data ok
  rcases f6 with ⟨ht, hs⟩ | ⟨hn, hs, ht⟩
  · refine holds_congr c _ p p h ht ?_
    intro res
    cases res <;> simp [snapshot, f1, f2, f3, f4, f5, hs]
  · refine holds_acquire c _ p p .response_data h (by simp [snapshot, hn]) ht ?_
    intro res
    cases res <;> simp [snapshot, f1, f2, f3, f4, f5, hs]

/-- Members of the connection that `on_header_callback` does not touch. -/
theorem on_header_resources (c : grpc_connection) (sid : Int) (name value : List Byte)
    (ok : Bool) :
    (on_header_callback c sid name value ok).2.fd = c.fd ∧
    (on_header_callback c sid name value ok).2.ssl = c.ssl ∧
    (on_header_callback c sid name value ok).2.ssl_ctx = c.ssl_ctx ∧
    (on_header_callback c sid name value ok).2.session = c.session ∧
    (on_header_callback c sid name value ok).2.response_data = c.response_data := by
  unfold on_header_callback
  split_ifs <;> exact ⟨rfl, rfl, rfl, rfl, rfl⟩

/-- The callback `on_header_callback` keeps the bookkeeping intact. -/
theorem holds_on_header (c : grpc_connection) (sid : Int) (name value : List Byte)
    (ok : Bool) (p : Phase) (h : holds c p) :
    holds (on_header_callback c sid name value ok).2 p := by
  unfold on_header_callback
  by_cases h1 : sid ≠ c.request_stream_id
  · rw [if_pos h1]
    exact h
  · rw [if_neg h1]
    by_cases h2 : name.length = 11 ∧ name = lit "grpc-status"
    · rw [if_pos h2]
      refine holds_congr c _ p p h rfl ?_
      intro res
      cases res <;> rfl
    · rw [if_neg h2]
      by_cases h3 : name.length = 12 ∧ name = lit "grpc-message"
      · rw [if_pos h3]
        have he := holds_set_error c (strndup value value.length) ok p h
        unfold set_error at he
        cases ok with
        | true => exact he
        | false => exact he
      · rw [if_neg h3]
        exact h

/-- No callback touches the socket, the SSL objects or the session. -/
theorem run_callback_resources (c : grpc_connection) (cb : Callback) :
    (run_callback c cb).2.fd = c.fd ∧ (run_callback c cb).2.ssl = c.ssl ∧
    (run_callback c cb).2.ssl_ctx = c.ssl_ctx ∧ (run_callback c cb).2.session = c.session := by
  cases cb with
  | data_source_read length => exact ⟨rfl, rfl, rfl, rfl⟩
  | on_frame_recv sid type flags =>
    simp only [run_callback, on_frame_recv_callback]
    split_ifs <;> exact ⟨rfl, rfl, rfl, rfl⟩
  | on_data_chunk_recv sid data ok =>
    obtain ⟨f1, f2, f3, f4, _⟩ := data_chunk_resources c sid data ok
    exact ⟨f1, f2, f3, f4⟩
  | on_stream_close sid =>
    simp only [run_callback, on_stream_close_callback]
    split_ifs <;> exact ⟨rfl, rfl, rfl, rfl⟩
  | on_header sid name value ok =>
    obtain ⟨f1, f2, f3, f4, _⟩ := on_header_resources c sid name value ok
    exact ⟨f1, f2, f3, f4⟩

/-- Every callback keeps the bookkeeping intact. -/
theorem holds_run_callback (c : grpc_connection) (cb : Callback) (p : Phase)
    (h : holds c p) : holds (run_callback c cb).2 p := by
  cases cb with
  | data_source_read length =>
    refine holds_congr c _ p p h rfl ?_
    intro res
    cases res <;> rfl
  | on_frame_recv sid type flags =>
    simp only [run_callback, on_frame_recv_callback]
    split_ifs
    · refine holds_congr c _ p p h rfl ?_
      intro res
      cases res <;> rfl
    · exact h
    · exact h
  | on_data_chunk_recv sid data ok => exact holds_data_chunk c sid data ok p h
  | on_stream_close sid =>
    simp only [run_callback, on_stream_close_callback]
    split_ifs
    · refine holds_congr c _ p p h rfl ?_
      intro res
      cases res <;> rfl
    · exact h
  | on_header sid name value ok => exact holds_on_header c sid name value ok p h

/-- A sequence of callbacks keeps the bookkeeping intact. -/
theorem holds_run_callbacks (cbs : List Callback) :
    ∀ (c : grpc_connection) (p : Phase), holds c p →
      holds (run_callbacks c cbs).2 p ∧ (run_callbacks c cbs).2.fd = c.fd ∧
      (run_callbacks c cbs).2.ssl = c.ssl ∧ (run_callbacks c cbs).2.ssl_ctx = c.ssl_ctx ∧
      (run_callbacks c cbs).2.session = c.session := by
  induction cbs with
  | nil =>
    intro c p h
    exact ⟨h, rfl, rfl, rfl, rfl⟩
  | cons cb rest ih =>
    intro c p h
    obtain ⟨f1, f2, f3, f4⟩ := run_callback_resources c cb
    have h1 := holds_run_callback c cb p h
    simp only [run_callbacks]
    split_ifs
    · exact ⟨h1, f1, f2, f3, f4⟩
    · obtain ⟨g0, g1, g2, g3, g4⟩ := ih (run_callback c cb).2 p h1
      exact ⟨g0, g1.trans f1, g2.trans f2, g3.trans f3, g4.trans f4⟩

/-- A call of `nghttp2_session_send` or `nghttp2_session_recv` keeps the
bookkeeping intact. -/
theorem holds_session_run (c : grpc_connection) (cbs : List Callback) (ret : Int)
    (p : Phase) (h : holds c p) :
    holds (nghttp2_session_run c cbs ret).2 p ∧ (nghttp2_session_run c cbs ret).2.fd = c.fd ∧
    (nghttp2_session_run c cbs ret).2.ssl = c.ssl ∧
    (nghttp2_session_run c cbs ret).2.ssl_ctx = c.ssl_ctx ∧
    (nghttp2_session_run c cbs ret).2.session = c.session :=
  holds_run_callbacks cbs c p h

/-! ## Bookkeeping of resources: the loop -/

/-- The send/receive loop keeps the bookkeeping intact, however it is left. -/
theorem holds_send_recv_loop (strerror : Int → CStr) (start_time : Timespec)
    (its : List Iteration) :
    ∀ (c : grpc_connection) (p : Phase), holds c p → ∀ c2 : grpc_connection,
      (send_recv_loop strerror start_time c its = .done c2 ∨
        ∃ msg, send_recv_loop strerror start_time c its = .failed c2 msg) →
      holds c2 p ∧ c2.fd = c.fd ∧ c2.ssl = c.ssl ∧ c2.ssl_ctx = c.ssl_ctx ∧
        c2.session = c.session := by
  induction its with
  | nil =>
    intro c p h c2 hex
    simp only [send_recv_loop] at hex
    split_ifs at hex
    · rcases hex with hd | ⟨msg, hf⟩
      · cases hd
        exact ⟨h, rfl, rfl, rfl, rfl⟩
      · cases hf
    · rcases hex with hd | ⟨msg, hf⟩
      · cases hd
      · cases hf
  | cons it rest ih =>
    intro c p h c2 hex
    obtain ⟨s0, s1, s2, s3, s4⟩ := holds_session_run c it.send_callbacks it.send_ret p h
    obtain ⟨r0, r1, r2, r3, r4⟩ := holds_session_run
      (nghttp2_session_run c it.send_callbacks it.send_ret).2 it.recv_callbacks it.recv_ret p s0
    simp only [send_recv_loop] at hex
    split_ifs at hex
    · rcases hex with hd | ⟨msg, hf⟩
      · cases hd
        exact ⟨h, rfl, rfl, rfl, rfl⟩
      · cases hf
    · rcases hex with hd | ⟨msg, hf⟩
      · cases hd
      · cases hf
        exact ⟨s0, s1, s2, s3, s4⟩
    · rcases hex with hd | ⟨msg, hf⟩
      · cases hd
      · cases hf
        exact ⟨r0, r1.trans s1, r2.trans s2, r3.trans s3, r4.trans s4⟩
    · rcases hex with hd | ⟨msg, hf⟩
      · cases hd
        exact ⟨r0, r1.trans s1, r2.trans s2, r3.trans s3, r4.trans s4⟩
      · cases hf
    · have hc : holds { (nghttp2_session_run (nghttp2_session_run c it.send_callbacks
          it.send_ret).2 it.recv_callbacks it.recv_ret).2 with response_complete := 1 } p := by
        refine holds_congr _ _ p p r0 rfl ?_
        intro res
        cases res <;> rfl
      obtain ⟨g0, g1, g2, g3, g4⟩ := ih _ p hc c2 hex
      exact ⟨g0, g1.trans (r1.trans s1), g2.trans (r2.trans s2), g3.trans (r3.trans s3),
        g4.trans (r4.trans s4)⟩
    · rcases hex with hd | ⟨msg, hf⟩
      · cases hd
      · cases hf
        exact ⟨r0, r1.trans s1, r2.trans s2, r3.trans s3, r4.trans s4⟩
    · obtain ⟨g0, g1, g2, g3, g4⟩ := ih _ p r0 c2 hex
      exact ⟨g0, g1.trans (r1.trans s1), g2.trans (r2.trans s2), g3.trans (r3.trans s3),
        g4.trans (r4.trans s4)⟩

/-! ## Bookkeeping of resources: the call -/

/-- Nothing is held at the start of a call. -/
theorem holds_conn_init (use_tls : Int) :
    holds (conn_init use_tls) ⟨false, false, false, false⟩ := by
  intro res
  cases res <;> rfl

/-- The bookkeeping at each end of `call_prologue`. -/
theorem call_prologue_resources (a : Args) (env : Env) :
    (∀ r : CallResult, call_prologue a env = .inl (.returned r) →
      r.trace = [] ∨
      (∃ c : grpc_connection, r = early_return c (decide (0 ≤ c.fd)) env.dup_string_ok ∧
        holds c ⟨true, false, false, false⟩ ∧ c.session = false ∧ c.response_data = none ∧
        (c.fd < 0 → c.ssl = false ∧ c.ssl_ctx = false)) ∨
      (∃ (c : grpc_connection) (out : Outputs) (sub : Option (List Header)),
        r = cleanup c out sub ∧ holds c ⟨false, false, false, false⟩ ∧ 0 ≤ c.fd)) ∧
    (∀ entry : LoopEntry, call_prologue a env = .inr entry →
      holds entry.conn ⟨false, false, false, true⟩ ∧ 0 ≤ entry.conn.fd) := by
  unfold call_prologue
  by_cases hnull : (!a.response_out || !a.response_len_out || !a.error_out) = true
  · rw [if_pos hnull]
    refine ⟨?_, fun e h => (by cases h)⟩
    intro r h
    left
    simp only [Sum.inl.injEq, Outcome.returned.injEq] at h
    rw [← h]
  · rw [if_neg hnull]
    dsimp only
    by_cases hs : (!env.strdup_target_ok) = true
    · rw [if_pos hs]
      exact ⟨fun r h => (by cases h), fun e h => (by cases h)⟩
    · rw [if_neg hs]
      have h1 : holds (log (conn_init a.use_tls) (Action.acquire Resource.target_copy))
          ⟨true, false, false, false⟩ := by
        refine holds_acquire _ _ _ _ .target_copy (holds_conn_init a.use_tls) rfl rfl ?_
        intro res
        cases res <;> rfl
      obtain ⟨c1, c2, c3, c4, c5, c6⟩ := connect_to_server_fields
        (log (conn_init a.use_tls) (Action.acquire Resource.target_copy))
        (parse_target a.target a.use_tls).1 (parse_target a.target a.use_tls).2 env.connect
        env.set_error_ok
      have hc0 := holds_connect_to_server
        (log (conn_init a.use_tls) (Action.acquire Resource.target_copy))
        (parse_target a.target a.use_tls).1 (parse_target a.target a.use_tls).2 env.connect
        env.set_error_ok _ h1 (by show (-1 : Int) < 0; decide) rfl
      set c := connect_to_server (log (conn_init a.use_tls) (Action.acquire Resource.target_copy))
        (parse_target a.target a.use_tls).1 (parse_target a.target a.use_tls).2 env.connect
        env.set_error_ok with hcdef
      by_cases hc : c.1 ≠ 0
      · rw [if_pos hc]
        refine ⟨?_, fun e h => (by cases h)⟩
        intro r h
        right
        left
        simp only [Sum.inl.injEq, Outcome.returned.injEq] at h
        subst h
        have hfd : c.2.fd < 0 := c6 (by show (-1 : Int) < 0; decide) hc
        refine ⟨c.2, ?_, hc0, c3, c4, fun _ => ⟨c1, c2⟩⟩
        rw [decide_eq_false (not_le.mpr hfd)]
      · rw [if_neg hc]
        have hc' : c.1 = 0 := not_not.mp hc
        have hfd : 0 ≤ c.2.fd := c5 hc'
        set t : Int × grpc_connection :=
          (if a.use_tls ≠ 0 then setup_tls c.2 (parse_target a.target a.use_tls).1 env.tls
            env.set_error_ok else (0, c.2)) with htdef
        have ht0 : holds t.2 ⟨true, false, false, false⟩ ∧ t.2.fd = c.2.fd ∧
            t.2.session = false ∧ t.2.response_data = none := by
          rw [htdef]
          split_ifs
          · obtain ⟨f1, f2, f3, _⟩ := setup_tls_fields c.2
              (parse_target a.target a.use_tls).1 env.tls env.set_error_ok
            exact ⟨holds_setup_tls _ _ _ _ _ hc0 c1 c2, f1, f2.trans c3, f3.trans c4⟩
          · exact ⟨hc0, rfl, c3, c4⟩
        obtain ⟨t0, t1, t2, t3⟩ := ht0
        by_cases ht : t.1 ≠ 0
        · rw [if_pos ht]
          refine ⟨?_, fun e h => (by cases h)⟩
          intro r h
          right
          left
          simp only [Sum.inl.injEq, Outcome.returned.injEq] at h
          subst h
          refine ⟨t.2, ?_, t0, t2, t3, fun hlt => absurd hfd (by rw [← t1]; exact not_le.mpr hlt)⟩
          rw [decide_eq_true (by rw [t1]; exact hfd)]
        · rw [if_neg ht]
          have h3 : holds (log t.2 (Action.release Resource.target_copy))
              ⟨false, false, false, false⟩ := by
            refine holds_release _ _ _ _ .target_copy t0 rfl rfl ?_
            intro res
            cases res <;> rfl
          obtain ⟨g1, g2, g3, g4⟩ := setup_http2_fields
            (log t.2 (Action.release Resource.target_copy)) env.http2 env.set_error_ok
          have h4 := holds_setup_http2 (log t.2 (Action.release Resource.target_copy))
            env.http2 env.set_error_ok _ h3 rfl t2
          set h2 := setup_http2 (log t.2 (Action.release Resource.target_copy)) env.http2
            env.set_error_ok with h2def
          have hfd2 : 0 ≤ h2.2.fd := by
            rw [g1]
            show 0 ≤ t.2.fd
            rw [t1]
            exact hfd
          by_cases hh : h2.1 ≠ 0
          · rw [if_pos hh]
            refine ⟨?_, fun e h => (by cases h)⟩
            intro r h
            right
            right
            simp only [Sum.inl.injEq, Outcome.returned.injEq] at h
            exact ⟨h2.2, _, _, h.symm, h4, hfd2⟩
          · rw [if_neg hh]
            cases hb : build_grpc_request a.request a.request_len env.build_block with
            | none =>
              refine ⟨?_, fun e h => (by cases h)⟩
              intro r h
              right
              right
              simp only [Sum.inl.injEq, Outcome.returned.injEq] at h
              exact ⟨h2.2, _, _, h.symm, h4, hfd2⟩
            | some p =>
              obtain ⟨grpc_request, grpc_request_len⟩ := p
              dsimp only
              have h5 : holds
                  { log h2.2 (Action.acquire Resource.grpc_request) with
                    request_data := grpc_request
                    request_len := grpc_request_len
                    request_sent := 0
                    request_stream_id := env.submit_request_ret }
                  ⟨false, false, false, true⟩ := by
                refine holds_acquire h2.2 _ _ _ .grpc_request h4 rfl rfl ?_
                intro res
                cases res <;> rfl
              by_cases hsub : env.submit_request_ret < 0
              · rw [if_pos hsub]
                refine ⟨?_, fun e h => (by cases h)⟩
                intro r h
                right
                right
                simp only [Sum.inl.injEq, Outcome.returned.injEq] at h
                refine ⟨_, _, _, h.symm, ?_, hfd2⟩
                refine holds_release _ _ _ _ .grpc_request h5 rfl rfl ?_
                intro res
                cases res <;> rfl
              · rw [if_neg hsub]
                refine ⟨fun r h => (by cases h), ?_⟩
                intro entry h
                simp only [Sum.inr.injEq] at h
                subst h
                exact ⟨h5, hfd2⟩

/-! ## The exits of the call -/

/-- Every result of `call_epilogue` comes from `cleanup:` with the framed
request freed. -/
theorem call_epilogue_resources (env : Env) (headers : List Header) (le : LoopExit)
    (r : CallResult) (h : call_epilogue env headers le = .returned r)
    (hle : ∀ c : grpc_connection, (le = .done c ∨ ∃ msg, le = .failed c msg) →
      holds c ⟨false, false, false, true⟩ ∧ 0 ≤ c.fd) :
    ∃ (c : grpc_connection) (out : Outputs) (sub : Option (List Header)),
      r = cleanup c out sub ∧ holds c ⟨false, false, false, false⟩ ∧ 0 ≤ c.fd := by
  have hrel : ∀ c : grpc_connection, holds c ⟨false, false, false, true⟩ →
      holds (log c (.release .grpc_request)) ⟨false, false, false, false⟩ := by
    intro c hc
    refine holds_release c _ _ _ .grpc_request hc rfl rfl ?_
    intro res
    cases res <;> rfl
  cases le with
  | pending c => simp [call_epilogue] at h
  | failed c msg =>
    obtain ⟨h0, hfd⟩ := hle c (Or.inr ⟨msg, rfl⟩)
    simp only [call_epilogue, Outcome.returned.injEq] at h
    exact ⟨_, _, _, h.symm, hrel c h0, hfd⟩
  | done c =>
    obtain ⟨h0, hfd⟩ := hle c (Or.inl rfl)
    simp only [call_epilogue] at h
    split_ifs at h
    · simp only [Outcome.returned.injEq] at h
      exact ⟨_, _, _, h.symm, hrel c h0, hfd⟩
    · split at h
      · simp only [Outcome.returned.injEq] at h
        exact ⟨_, _, _, h.symm, hrel c h0, hfd⟩
      · simp only [Outcome.returned.injEq] at h
        exact ⟨_, _, _, h.symm, hrel c h0, hfd⟩
      · cases h
    · simp only [Outcome.returned.injEq] at h
      exact ⟨_, _, _, h.symm, hrel c h0, hfd⟩

/-- The releases of `cleanup:` in terms of `cleanup_releases`. -/
theorem cleanup_trace (c : grpc_connection) (out : Outputs) (sub : Option (List Header)) :
    (cleanup c out sub).trace = c.trace ++
      cleanup_releases c.response_data.isSome c.error_message.isSome c.session c.ssl c.ssl_ctx
        (decide (0 ≤ c.fd)) := by
  simp only [cleanup, cleanup_releases, List.append_assoc, decide_eq_true_eq, ge_iff_le]

/-- The releases of an early return. -/
theorem early_return_trace (c : grpc_connection) (b ok : Bool) :
    (early_return c b ok).trace = c.trace ++ (if b then [Action.release .socket] else []) ++
      [Action.release .target_copy] ++
      (if c.error_message.isSome then [Action.release .error_message] else []) := rfl

/-- The bookkeeping after further actions. -/
theorem held_append (res : Resource) (t l : List Action) :
    held res (t ++ l) = l.foldl (held_step res) (held res t) := by
  simp [held, List.foldl_append]

/-- The releases of `cleanup:` leave nothing held. -/
theorem cleanup_releases_all (b1 b2 b3 b4 b5 b6 : Bool) (res : Resource) :
    (cleanup_releases b1 b2 b3 b4 b5 b6).foldl (held_step res)
      (some (match res with
        | .response_data => b1
        | .error_message => b2
        | .session => b3
        | .ssl => b4
        | .ssl_ctx => b5
        | .socket => b6
        | _ => false)) = some false := by
  cases res <;> cases b1 <;> cases b2 <;> cases b3 <;> cases b4 <;> cases b5 <;> cases b6 <;> rfl

/-- A call that leaves through `cleanup:` has released every resource it
acquired exactly once. -/
theorem cleanup_exit_releases_all (c : grpc_connection) (out : Outputs)
    (sub : Option (List Header)) (h : holds c ⟨false, false, false, false⟩)
    (res : Resource) : held res (cleanup c out sub).trace = some false := by
  rw [cleanup_trace, held_append, h res]
  have hall := cleanup_releases_all c.response_data.isSome c.error_message.isSome c.session
    c.ssl c.ssl_ctx (decide (0 ≤ c.fd)) res
  cases res <;> exact hall

/-- Every call of `hif_grpc_unary_call` that returns leaves through the
argument check, through one of the two early returns, or through `cleanup:`,
with the bookkeeping of resources intact up to that point. -/
theorem call_exit_cases (a : Args) (env : Env) (r : CallResult)
    (h : hif_grpc_unary_call a env = .returned r) :
    r.trace = [] ∨
    (∃ c : grpc_connection, r = early_return c (decide (0 ≤ c.fd)) env.dup_string_ok ∧
      holds c ⟨true, false, false, false⟩ ∧ c.session = false ∧ c.response_data = none ∧
      (c.fd < 0 → c.ssl = false ∧ c.ssl_ctx = false)) ∨
    (∃ (c : grpc_connection) (out : Outputs) (sub : Option (List Header)),
      r = cleanup c out sub ∧ holds c ⟨false, false, false, false⟩ ∧ 0 ≤ c.fd) := by
  obtain ⟨hp1, hp2⟩ := call_prologue_resources a env
  rcases call_returned_cases a env r h with hp | ⟨entry, hp, he⟩
  · exact hp1 r hp
  · right
    right
    obtain ⟨e0, efd⟩ := hp2 entry hp
    refine call_epilogue_resources env entry.headers _ r he ?_
    intro c hc
    obtain ⟨g0, g1, _, _, _⟩ := holds_send_recv_loop env.nghttp2_strerror env.start_time
      env.iterations entry.conn _ e0 c hc
    exact ⟨g0, by rw [g1]; exact efd⟩

/-! ## Release order and leaks -/

/-- The releases of an early return free the socket, the target copy and the
error string when they are held, and a resource that is not held stays so. -/
theorem early_releases_all (b e : Bool) (res : Resource) :
    List.foldl (held_step res)
      (List.foldl (held_step res)
        (List.foldl (held_step res)
          (some (match res with
            | .socket => b
            | .target_copy => true
            | .error_message => e
            | _ => false))
          (if b then [Action.release .socket] else []))
        [Action.release .target_copy])
      (if e then [Action.release .error_message] else []) = some false := by
  cases res <;> cases b <;> cases e <;> rfl

/-- A call that leaves through one of the two early returns has released
every resource it acquired exactly once, the SSL context and the SSL object
apart: these are held at the return exactly when they were created. -/
theorem early_exit_releases (c : grpc_connection) (ok : Bool)
    (h : holds c ⟨true, false, false, false⟩) (hs : c.session = false)
    (hr : c.response_data = none) (res : Resource) :
    (res ≠ .ssl → res ≠ .ssl_ctx →
      held res (early_return c (decide (0 ≤ c.fd)) ok).trace = some false) ∧
    held .ssl (early_return c (decide (0 ≤ c.fd)) ok).trace = some c.ssl ∧
    held .ssl_ctx (early_return c (decide (0 ≤ c.fd)) ok).trace = some c.ssl_ctx := by
  refine ⟨?_, ?_, ?_⟩
  · intro hssl hctx
    rw [early_return_trace, held_append, held_append, held_append, h res]
    have key := early_releases_all (decide (0 ≤ c.fd)) c.error_message.isSome res
    cases res
    · exact key
    · exact key
    · exact key
    · exact absurd rfl hctx
    · exact absurd rfl hssl
    · exact key
    · simp only [snapshot, hs]
      exact key
    · exact key
    · simp only [snapshot, hr]
      exact key
    · exact key
  · rw [early_return_trace, held_append, held_append, held_append, h .ssl]
    simp only [snapshot]
    generalize c.ssl = s
    generalize decide (0 ≤ c.fd) = b
    generalize c.error_message.isSome = e
    cases s <;> cases b <;> cases e <;> rfl
  · rw [early_return_trace, held_append, held_append, held_append, h .ssl_ctx]
    simp only [snapshot]
    generalize c.ssl_ctx = s
    generalize decide (0 ≤ c.fd) = b
    generalize c.error_message.isSome = e
    cases s <;> cases b <;> cases e <;> rfl

/-- Whatever the exit, a call of `hif_grpc_unary_call` that returns has
released every resource other than the SSL context and the SSL object exactly
once. -/
theorem exit_releases_all_but_ssl (a : Args) (env : Env) (r : CallResult)
    (h : hif_grpc_unary_call a env = .returned r) (res : Resource)
    (hssl : res ≠ .ssl) (hctx : res ≠ .ssl_ctx) : held res r.trace = some false := by
  rcases call_exit_cases a env r h with h0 | ⟨c, hr, hc, hs, hd, _⟩ | ⟨c, out, sub, hr, hc, _⟩
  · rw [h0]
    rfl
  · rw [hr]
    exact (early_exit_releases c env.dup_string_ok hc hs hd res).1 hssl hctx
  · rw [hr]
    exact cleanup_exit_releases_all c out sub hc res

/-- Claim C14, amended. A call of `hif_grpc_unary_call` that returns ends in
one of three ways.  After the argument check nothing has been done.  After a
failed connect or a failed TLS set-up the call returns early: it closes the
socket if one is open, then frees the target copy, then the error string if
one is set; no HTTP/2 session, response buffer or framed request exists then.
Otherwise the call ends with the releases of `cleanup:`, made in the order
response buffer, error string, HTTP/2 session, SSL object, SSL context,
socket, each of the first five exactly when the resource is held, the target
copy and the framed request having been freed before. -/
theorem release_order (a : Args) (env : Env) (r : CallResult)
    (h : hif_grpc_unary_call a env = .returned r) :
    r.trace = [] ∨
    (∃ (pre : List Action) (b e : Bool),
      r.trace = pre ++ (if b then [Action.release .socket] else []) ++
        [Action.release .target_copy] ++
        (if e then [Action.release .error_message] else []) ∧
      held .socket pre = some b ∧ held .target_copy pre = some true ∧
      held .error_message pre = some e ∧ held .session pre = some false ∧
      held .response_data pre = some false ∧ held .grpc_request pre = some false) ∨
    (∃ (pre : List Action) (b1 b2 b3 b4 b5 : Bool),
      r.trace = pre ++ cleanup_releases b1 b2 b3 b4 b5 true ∧
      held .response_data pre = some b1 ∧ held .error_message pre = some b2 ∧
      held .session pre = some b3 ∧ held .ssl pre = some b4 ∧ held .ssl_ctx pre = some b5 ∧
      held .socket pre = some true ∧ held .target_copy pre = some false ∧
      held .grpc_request pre = some false) := by
  rcases call_exit_cases a env r h with h0 | ⟨c, hr, hc, hs, hd, _⟩ | ⟨c, out, sub, hr, hc, hfd⟩
  · exact Or.inl h0
  · right
    left
    refine ⟨c.trace, decide (0 ≤ c.fd), c.error_message.isSome, ?_, hc .socket, hc .target_copy,
      hc .error_message, ?_, ?_, hc .grpc_request⟩
    · rw [hr, early_return_trace]
    · rw [hc .session]
      simp only [snapshot, hs]
    · rw [hc .response_data]
      simp only [snapshot, hd, Option.isSome_none]
  · right
    right
    refine ⟨c.trace, c.response_data.isSome, c.error_message.isSome, c.session, c.ssl,
      c.ssl_ctx, ?_, hc .response_data, hc .error_message, hc .session, hc .ssl, hc .ssl_ctx,
      ?_, hc .target_copy, hc .grpc_request⟩
    · rw [hr, cleanup_trace, decide_eq_true hfd]
    · rw [hc .socket]
      simp only [snapshot, decide_eq_true hfd]

theorem release_order_witness :
    ∃ r : CallResult,
      hif_grpc_unary_call tls_args
        (plain_env [quiet_iteration [.on_data_chunk_recv 1 [0, 0, 0, 0, 2, 1, 2] true] 5])
        = .returned r ∧
      (r.trace = [] ∨
      (∃ (pre : List Action) (b e : Bool),
        r.trace = pre ++ (if b then [Action.release .socket] else []) ++
          [Action.release .target_copy] ++
          (if e then [Action.release .error_message] else []) ∧
        held .socket pre = some b ∧ held .target_copy pre = some true ∧
        held .error_message pre = some e ∧ held .session pre = some false ∧
        held .response_data pre = some false ∧ held .grpc_request pre = some false) ∨
      (∃ (pre : List Action) (b1 b2 b3 b4 b5 : Bool),
        r.trace = pre ++ cleanup_releases b1 b2 b3 b4 b5 true ∧
        held .response_data pre = some b1 ∧ held .error_message pre = some b2 ∧
        held .session pre = some b3 ∧ held .ssl pre = some b4 ∧ held .ssl_ctx pre = some b5 ∧
        held .socket pre = some true ∧ held .target_copy pre = some false ∧
        held .grpc_request pre = some false)) :=
  ⟨_, rfl, release_order tls_args
    (plain_env [quiet_iteration [.on_data_chunk_recv 1 [0, 0, 0, 0, 2, 1, 2] true] 5]) _ rfl⟩

/-- Claim C14, counterexample. A successful TLS call that receives the frame
`00 00 00 00 02 01 02` returns `0` having freed the response buffer before it
destroys the HTTP/2 session, and the session, the SSL object and the SSL
context before it closes the socket: buffers are not freed last. -/
theorem response_buffer_freed_before_session :
    ∃ r : CallResult,
      hif_grpc_unary_call tls_args
        (plain_env [quiet_iteration [.on_data_chunk_recv 1 [0, 0, 0, 0, 2, 1, 2] true] 5])
        = .returned r ∧
      r.ret = 0 ∧
      r.trace =
        [.acquire .target_copy, .getaddrinfo (lit "localhost") 50051, .acquire .addrinfo,
         .acquire .socket, .release .addrinfo, .acquire .ssl_ctx, .acquire .ssl,
         .set_sni (lit "localhost"), .release .target_copy, .acquire .callbacks,
         .acquire .session, .release .callbacks, .acquire .grpc_request,
         .acquire .response_data, .release .grpc_request, .release .response_data,
         .release .session, .release .ssl, .release .ssl_ctx, .release .socket] :=
  ⟨_, rfl, by decide, by decide⟩

/-- Claim C13, failing input. With `use_tls = 1`, a connected socket and an
SSL context that was created, a TLS set-up that fails returns `1` without
releasing what it acquired: when `SSL_new` fails the SSL context is still
held at the return, and when `SSL_connect` does not return `1`, or the server
does not select `h2`, both the SSL context and the SSL object are; no release
of either is in the trace. -/
theorem tls_failure_leaks_ssl :
    (∃ r : CallResult,
      hif_grpc_unary_call tls_args handshake_failure_env = .returned r ∧ r.ret = 1 ∧
      held .ssl r.trace = some true ∧ held .ssl_ctx r.trace = some true ∧
      Action.release .ssl ∉ r.trace ∧ Action.release .ssl_ctx ∉ r.trace) ∧
    (∃ r : CallResult,
      hif_grpc_unary_call tls_args
        { plain_env [] with
          tls := { ssl_ctx_new_ok := true, ssl_new_ok := true, ssl_connect_ret := 1,
                   err_string := [], alpn_selected := lit "http/1.1" } }
        = .returned r ∧ r.ret = 1 ∧
      held .ssl r.trace = some true ∧ held .ssl_ctx r.trace = some true ∧
      Action.release .ssl ∉ r.trace ∧ Action.release .ssl_ctx ∉ r.trace) ∧
    (∃ r : CallResult,
      hif_grpc_unary_call tls_args
        { plain_env [] with
          tls := { ssl_ctx_new_ok := true, ssl_new_ok := false, ssl_connect_ret := 1,
                   err_string := [], alpn_selected := [] } }
        = .returned r ∧ r.ret = 1 ∧
      held .ssl r.trace = some false ∧ held .ssl_ctx r.trace = some true ∧
      Action.release .ssl_ctx ∉ r.trace) :=
  ⟨⟨_, rfl, by decide, by decide, by decide, by decide, by decide⟩,
   ⟨_, rfl, by decide, by decide, by decide, by decide, by decide⟩,
   ⟨_, rfl, by decide, by decide, by decide, by decide⟩⟩

end Grpc
